import Mathlib

/-!
# Hub-and-spoke conversion between v1alpha2 (spoke) and v1beta1 (hub)

A shallow embedding of the hand-written conversion code of
`api/v1alpha2/conversion.go` and `bootstrap/kubeadm/api/v1alpha2/conversion.go`.

* Go pointers to an object that is mutated become explicit state passing: every
  conversion returns the final state of the destination together with the
  returned `error`.
* A Go `map[string]string` is a partial function on keys, wrapped in `Option`
  so that the nil map is told apart from an allocated one.
* The generated structural copiers, the stash encoder and decoder, the
  `conditions` helpers and the string constants are declared outside the
  translated files; they are parameters of the embedding.
-/

namespace CAPI

/-! ## Go values -/

/-- A Go `error` value (non-nil); errors are only passed around, never inspected. -/
abbrev Error := String

/-- The content of an allocated `map[string]string`. -/
abbrev StrMap := String → Option String

/-- The map `map[string]string{}` (also `make(map[string]string)`). -/
def StrMap.empty : StrMap := fun _ => none

/-- The map after `m[k] = v`. -/
def StrMap.insert (m : StrMap) (k v : String) : StrMap :=
  fun x => if x = k then some v else m x

/-- The map after `delete(m, k)`. -/
def StrMap.erase (m : StrMap) (k : String) : StrMap :=
  fun x => if x = k then none else m x

/-- The map literal with the given entries (the first entry of a key wins). -/
def StrMap.ofList : List (String × String) → StrMap
  | [] => StrMap.empty
  | (k, v) :: rest => StrMap.insert (StrMap.ofList rest) k v

/-- A value of type `map[string]string`: `none` is the nil map. -/
abbrev GoMap := Option StrMap

/-- The comma-ok read `v, ok := m[k]`; a nil map holds no key. -/
def GoMap.lookup (m : GoMap) (k : String) : Option String :=
  match m with
  | none => none
  | some f => f k

/-- The statement `delete(m, k)`; a no-op on the nil map. -/
def GoMap.delete (m : GoMap) (k : String) : GoMap :=
  match m with
  | none => none
  | some f => some (StrMap.erase f k)

/-- The conversion `int32(x)` of a Go `int`: two's complement wrap-around. -/
def int32 (x : Int) : Int := (x + 2 ^ 31) % 2 ^ 32 - 2 ^ 31

/-- The values an `int32` can hold. -/
def IsInt32 (x : Int) : Prop := -(2 ^ 31) ≤ x ∧ x < 2 ^ 31

instance (x : Int) : Decidable (IsInt32 x) := by unfold IsInt32; infer_instance

/-- The metadata of an object (`metav1.ObjectMeta`), the part the conversions read. -/
structure ObjectMeta where
  Name : String := ""
  Namespace : String := ""
  Labels : GoMap := none
  Annotations : GoMap := none

/-- The final state of the destination object and the returned `error`
(`none` is `nil`). -/
structure Outcome (σ : Type) where
  dst : σ
  err : Option Error

/-- The string constants the conversions refer to; they are declared in the type
files of the two API versions and in `util/conversion`. -/
structure Consts where
  /-- The key `v1alpha2.RevisionAnnotation`. -/
  RevisionAnnotation : String
  /-- The key `v1alpha2.RevisionHistoryAnnotation`. -/
  RevisionHistoryAnnotation : String
  /-- The key `v1alpha2.DesiredReplicasAnnotation`. -/
  DesiredReplicasAnnotation : String
  /-- The key `v1alpha2.MaxReplicasAnnotation`. -/
  MaxReplicasAnnotation : String
  /-- The key `v1beta1.RevisionAnnotation`. -/
  beta1RevisionAnnotation : String
  /-- The key `v1beta1.RevisionHistoryAnnotation`. -/
  beta1RevisionHistoryAnnotation : String
  /-- The key `v1beta1.DesiredReplicasAnnotation`. -/
  beta1DesiredReplicasAnnotation : String
  /-- The key `v1beta1.MaxReplicasAnnotation`. -/
  beta1MaxReplicasAnnotation : String
  /-- The key `v1alpha2.ExcludeNodeDrainingAnnotation`. -/
  ExcludeNodeDrainingAnnotation : String
  /-- The key `v1beta1.ExcludeNodeDrainingAnnotation`. -/
  beta1ExcludeNodeDrainingAnnotation : String
  /-- The label `v1alpha2.MachineClusterLabelName`. -/
  MachineClusterLabelName : String
  /-- The condition type `v1beta1.ControlPlaneInitializedCondition`. -/
  ControlPlaneInitializedCondition : String
  /-- The reserved key `utilconversion.DataAnnotation` that holds the stash. -/
  DataAnnotation : String

/-- The table `v2Annotations`. -/
def v2Annotations (K : Consts) : List String :=
  [ K.RevisionAnnotation, K.RevisionHistoryAnnotation,
    K.DesiredReplicasAnnotation, K.MaxReplicasAnnotation]

/-- The table `beta1Annotations`. -/
def beta1Annotations (K : Consts) : List String :=
  [ K.beta1RevisionAnnotation, K.beta1RevisionHistoryAnnotation,
    K.beta1DesiredReplicasAnnotation, K.beta1MaxReplicasAnnotation]

/-! ## The stash codec -/

/-- Modelled from the spec: `utilconversion.MarshalData` is declared in
`util/conversion`, outside the translated files.
Spec 4.1: `Persist` serialises the hub object and may fail; the blob is written
into the reserved metadata key of the spoke object, overwriting a prior stash.
`Persist` itself is a parameter. -/
def MarshalData {H : Type} (K : Consts) (Persist : H → Except Error String)
    (src : H) (dst : ObjectMeta) : Outcome ObjectMeta :=
  match Persist src with
  | .error e => ⟨dst, some e⟩
  | .ok blob =>
    let annotations : StrMap := dst.Annotations.getD StrMap.empty
    ⟨{ dst with Annotations := some (StrMap.insert annotations K.DataAnnotation blob) }, none⟩

/-- Modelled from the spec: `utilconversion.UnmarshalData` is declared in
`util/conversion`, outside the translated files.
Spec 4.1: `Recall` looks up the reserved metadata key; `found = false` without
error when it is absent, an error when the entry does not parse. The result
`.ok none` is `(false, nil)`, `.ok (some h)` is `(true, nil)` with `restored = h`,
`.error e` is `(false, e)`. The parser is a parameter. -/
def UnmarshalData {H : Type} (K : Consts) (Recall : String → Except Error H)
    (src : ObjectMeta) : Except Error (Option H) :=
  match GoMap.lookup src.Annotations K.DataAnnotation with
  | none => .ok none
  | some blob =>
    match Recall blob with
    | .ok h => .ok (some h)
    | .error e => .error e

/-! ## Cluster -/

namespace v1beta1

/-- The hub type `v1beta1.APIEndpoint`; `Port` is an `int32`. -/
structure APIEndpoint where
  Host : String := ""
  Port : Int := 0

/-- A `corev1.ObjectReference`. -/
structure ObjectReference where
  Kind : String := ""
  Namespace : String := ""
  Name : String := ""

/-- The hub-only `v1beta1.Topology`. -/
structure Topology where
  Class : String := ""
  Version : String := ""

/-- One `v1beta1.Condition`; `CondType` is its field `Type`. -/
structure Condition where
  CondType : String := ""
  Status : String := ""
  Reason : String := ""

/-- The type `v1beta1.Conditions`. -/
abbrev Conditions := List Condition

/-- The hub type `v1beta1.ClusterSpec`. -/
structure ClusterSpec where
  Paused : Bool := false
  ControlPlaneEndpoint : APIEndpoint := {}
  ControlPlaneRef : Option ObjectReference := none
  InfrastructureRef : Option ObjectReference := none
  Topology : Option Topology := none

/-- The hub type `v1beta1.ClusterStatus`; a failure domain is reduced to its
`ControlPlane` flag. -/
structure ClusterStatus where
  FailureDomains : Option (String → Option Bool) := none
  FailureReason : Option String := none
  FailureMessage : Option String := none
  Phase : String := ""
  InfrastructureReady : Bool := false
  ControlPlaneReady : Bool := false
  Conditions : Conditions := []
  ObservedGeneration : Int := 0

/-- The hub type `v1beta1.Cluster`. -/
structure Cluster where
  ObjectMeta : ObjectMeta := {}
  Spec : ClusterSpec := {}
  Status : ClusterStatus := {}

end v1beta1

namespace v1alpha2

/-- The spoke type `v1alpha2.APIEndpoint`; `Port` is an `int`. -/
structure APIEndpoint where
  Host : String := ""
  Port : Int := 0

/-- The spoke type `v1alpha2.ClusterSpec`. -/
structure ClusterSpec where
  InfrastructureRef : Option v1beta1.ObjectReference := none

/-- The spoke type `v1alpha2.ClusterStatus`. -/
structure ClusterStatus where
  APIEndpoints : List APIEndpoint := []
  ErrorReason : Option String := none
  ErrorMessage : Option String := none
  Phase : String := ""
  InfrastructureReady : Bool := false
  ControlPlaneInitialized : Bool := false

/-- The spoke type `v1alpha2.Cluster`. -/
structure Cluster where
  ObjectMeta : ObjectMeta := {}
  Spec : ClusterSpec := {}
  Status : ClusterStatus := {}

end v1alpha2

/-- The collaborators of the Cluster conversions that live outside the
translated files. -/
structure ClusterExt where
  /-- The generated copier `Convert_v1alpha2_Cluster_To_v1beta1_Cluster(src, dst, nil)`. -/
  Convert_v1alpha2_Cluster_To_v1beta1_Cluster :
    v1alpha2.Cluster → v1beta1.Cluster → Outcome v1beta1.Cluster
  /-- The generated copier `Convert_v1beta1_Cluster_To_v1alpha2_Cluster(src, dst, nil)`. -/
  Convert_v1beta1_Cluster_To_v1alpha2_Cluster :
    v1beta1.Cluster → v1alpha2.Cluster → Outcome v1alpha2.Cluster
  /-- The helper `conditions.MarkTrue`, on the conditions of its target. -/
  MarkTrue : v1beta1.Conditions → String → v1beta1.Conditions
  /-- The helper `conditions.IsTrue`, on the conditions of its target. -/
  IsTrue : v1beta1.Conditions → String → Bool
  /-- The method `v1beta1.APIEndpoint.IsZero`. -/
  IsZero : v1beta1.APIEndpoint → Bool
  /-- The serialiser behind `MarshalData` for a hub Cluster. -/
  Persist : v1beta1.Cluster → Except Error String
  /-- The parser behind `UnmarshalData` for a hub Cluster. -/
  Recall : String → Except Error v1beta1.Cluster

/-- The method `(src *Cluster) ConvertTo(dstRaw conversion.Hub) error`. -/
def v1alpha2.Cluster.ConvertTo (K : Consts) (X : ClusterExt)
    (src : v1alpha2.Cluster) (dstRaw : v1beta1.Cluster) : Outcome v1beta1.Cluster :=
  match X.Convert_v1alpha2_Cluster_To_v1beta1_Cluster src dstRaw with
  | ⟨dst, some err⟩ => ⟨dst, some err⟩
  | ⟨dst, none⟩ =>
    let dst : v1beta1.Cluster :=
      if src.Status.ControlPlaneInitialized then
        { dst with Status := { dst.Status with
            Conditions := X.MarkTrue dst.Status.Conditions K.ControlPlaneInitializedCondition } }
      else dst
    -- Manually convert Status.APIEndpoints to Spec.ControlPlaneEndpoint.
    let dst : v1beta1.Cluster :=
      match src.Status.APIEndpoints with
      | [] => dst
      | endpoint :: _ =>
        { dst with Spec := { dst.Spec with
            ControlPlaneEndpoint := { Host := endpoint.Host, Port := int32 endpoint.Port } } }
    -- Manually restore data.
    match UnmarshalData K X.Recall src.ObjectMeta with
    | .error err => ⟨dst, some err⟩
    | .ok none => ⟨dst, none⟩
    | .ok (some restored) =>
      let dst : v1beta1.Cluster :=
        { dst with
          Spec := { dst.Spec with
            ControlPlaneRef := restored.Spec.ControlPlaneRef
            Paused := restored.Spec.Paused }
          Status := { dst.Status with
            ControlPlaneReady := restored.Status.ControlPlaneReady
            FailureDomains := restored.Status.FailureDomains
            Conditions := restored.Status.Conditions
            ObservedGeneration := restored.Status.ObservedGeneration } }
      let dst : v1beta1.Cluster :=
        match restored.Spec.Topology with
        | some t => { dst with Spec := { dst.Spec with Topology := some t } }
        | none => dst
      ⟨dst, none⟩

/-- The method `(dst *Cluster) ConvertFrom(srcRaw conversion.Hub) error`. -/
def v1alpha2.Cluster.ConvertFrom (K : Consts) (X : ClusterExt)
    (dst0 : v1alpha2.Cluster) (srcRaw : v1beta1.Cluster) : Outcome v1alpha2.Cluster :=
  match X.Convert_v1beta1_Cluster_To_v1alpha2_Cluster srcRaw dst0 with
  | ⟨dst, some err⟩ => ⟨dst, some err⟩
  | ⟨dst, none⟩ =>
    let dst : v1alpha2.Cluster :=
      if X.IsTrue srcRaw.Status.Conditions K.ControlPlaneInitializedCondition then
        { dst with Status := { dst.Status with ControlPlaneInitialized := true } }
      else dst
    -- Manually convert Spec.ControlPlaneEndpoint to Status.APIEndpoints;
    -- `int(p)` of an `int32` is `p`.
    let dst : v1alpha2.Cluster :=
      if !X.IsZero srcRaw.Spec.ControlPlaneEndpoint then
        { dst with Status := { dst.Status with
            APIEndpoints := [{ Host := srcRaw.Spec.ControlPlaneEndpoint.Host,
                               Port := srcRaw.Spec.ControlPlaneEndpoint.Port }] } }
      else dst
    -- Preserve Hub data on down-conversion except for metadata
    match MarshalData K X.Persist srcRaw dst.ObjectMeta with
    | ⟨meta, some err⟩ => ⟨{ dst with ObjectMeta := meta }, some err⟩
    | ⟨meta, none⟩ => ⟨{ dst with ObjectMeta := meta }, none⟩

/-! ## Machine, MachineSet and MachineDeployment: types -/

/-- The source object after the call, the destination object after the call
and the returned `error`, for the conversions that write to their source. -/
structure SrcOutcome (α σ : Type) where
  src : α
  dst : σ
  err : Option Error

namespace v1beta1

/-- The hub type `v1beta1.Bootstrap`. -/
structure Bootstrap where
  ConfigRef : Option ObjectReference := none
  DataSecretName : Option String := none

/-- The hub type `v1beta1.MachineSpec`; `NodeDrainTimeout` is a duration in
nanoseconds. -/
structure MachineSpec where
  ClusterName : String := ""
  Bootstrap : Bootstrap := {}
  InfrastructureRef : ObjectReference := {}
  Version : Option String := none
  ProviderID : Option String := none
  FailureDomain : Option String := none
  NodeDrainTimeout : Option Int := none

/-- A `corev1.NodeSystemInfo`. -/
structure NodeSystemInfo where
  MachineID : String := ""
  KubeletVersion : String := ""

/-- The hub type `v1beta1.MachineStatus`. -/
structure MachineStatus where
  NodeRef : Option ObjectReference := none
  NodeInfo : Option NodeSystemInfo := none
  FailureReason : Option String := none
  FailureMessage : Option String := none
  Phase : String := ""
  BootstrapReady : Bool := false
  InfrastructureReady : Bool := false
  ObservedGeneration : Int := 0
  Conditions : Conditions := []

/-- The hub type `v1beta1.Machine`. -/
structure Machine where
  ObjectMeta : ObjectMeta := {}
  Spec : MachineSpec := {}
  Status : MachineStatus := {}

/-- The hub type `v1beta1.MachineTemplateSpec`. -/
structure MachineTemplateSpec where
  ObjectMeta : ObjectMeta := {}
  Spec : MachineSpec := {}

/-- The hub type `v1beta1.MachineSetSpec`. -/
structure MachineSetSpec where
  ClusterName : String := ""
  Replicas : Option Int := none
  MinReadySeconds : Int := 0
  DeletePolicy : String := ""
  Template : MachineTemplateSpec := {}

/-- The hub type `v1beta1.MachineSetStatus`. -/
structure MachineSetStatus where
  Replicas : Int := 0
  ObservedGeneration : Int := 0
  FailureReason : Option String := none
  FailureMessage : Option String := none
  Conditions : Conditions := []

/-- The hub type `v1beta1.MachineSet`. -/
structure MachineSet where
  ObjectMeta : ObjectMeta := {}
  Spec : MachineSetSpec := {}
  Status : MachineSetStatus := {}

/-- The hub type `v1beta1.MachineRollingUpdateDeployment`. -/
structure MachineRollingUpdateDeployment where
  MaxUnavailable : Option Int := none
  MaxSurge : Option Int := none
  DeletePolicy : Option String := none

/-- The hub type `v1beta1.MachineDeploymentStrategy`; `StrategyType` is its
field `Type`. -/
structure MachineDeploymentStrategy where
  StrategyType : String := ""
  RollingUpdate : Option MachineRollingUpdateDeployment := none

/-- The hub type `v1beta1.MachineDeploymentSpec`. -/
structure MachineDeploymentSpec where
  ClusterName : String := ""
  Replicas : Option Int := none
  Template : MachineTemplateSpec := {}
  Strategy : Option MachineDeploymentStrategy := none
  Paused : Bool := false

/-- The hub type `v1beta1.MachineDeploymentStatus`. -/
structure MachineDeploymentStatus where
  ObservedGeneration : Int := 0
  Replicas : Int := 0
  Phase : String := ""
  Conditions : Conditions := []

/-- The hub type `v1beta1.MachineDeployment`. -/
structure MachineDeployment where
  ObjectMeta : ObjectMeta := {}
  Spec : MachineDeploymentSpec := {}
  Status : MachineDeploymentStatus := {}

end v1beta1

namespace v1alpha2

/-- The spoke type `v1alpha2.Bootstrap`. -/
structure Bootstrap where
  ConfigRef : Option v1beta1.ObjectReference := none
  Data : Option String := none

/-- The spoke type `v1alpha2.MachineSpec`. -/
structure MachineSpec where
  ObjectMeta : ObjectMeta := {}
  Bootstrap : Bootstrap := {}
  InfrastructureRef : v1beta1.ObjectReference := {}
  Version : Option String := none
  ProviderID : Option String := none

/-- The spoke type `v1alpha2.MachineStatus`. -/
structure MachineStatus where
  NodeRef : Option v1beta1.ObjectReference := none
  Version : Option String := none
  ErrorReason : Option String := none
  ErrorMessage : Option String := none
  Phase : String := ""
  BootstrapReady : Bool := false
  InfrastructureReady : Bool := false

/-- The spoke type `v1alpha2.Machine`. -/
structure Machine where
  ObjectMeta : ObjectMeta := {}
  Spec : MachineSpec := {}
  Status : MachineStatus := {}

/-- The spoke type `v1alpha2.MachineTemplateSpec`. -/
structure MachineTemplateSpec where
  ObjectMeta : ObjectMeta := {}
  Spec : MachineSpec := {}

/-- The spoke type `v1alpha2.MachineSetSpec`. -/
structure MachineSetSpec where
  Replicas : Option Int := none
  MinReadySeconds : Int := 0
  DeletePolicy : String := ""
  Template : MachineTemplateSpec := {}

/-- The spoke type `v1alpha2.MachineSetStatus`. -/
structure MachineSetStatus where
  Replicas : Int := 0
  ObservedGeneration : Int := 0
  ErrorReason : Option String := none
  ErrorMessage : Option String := none

/-- The spoke type `v1alpha2.MachineSet`. -/
structure MachineSet where
  ObjectMeta : ObjectMeta := {}
  Spec : MachineSetSpec := {}
  Status : MachineSetStatus := {}

/-- The spoke type `v1alpha2.MachineRollingUpdateDeployment`. -/
structure MachineRollingUpdateDeployment where
  MaxUnavailable : Option Int := none
  MaxSurge : Option Int := none

/-- The spoke type `v1alpha2.MachineDeploymentStrategy`; `StrategyType` is its
field `Type`. -/
structure MachineDeploymentStrategy where
  StrategyType : String := ""
  RollingUpdate : Option MachineRollingUpdateDeployment := none

/-- The spoke type `v1alpha2.MachineDeploymentSpec`. -/
structure MachineDeploymentSpec where
  Replicas : Option Int := none
  Template : MachineTemplateSpec := {}
  Strategy : Option MachineDeploymentStrategy := none
  Paused : Bool := false

/-- The spoke type `v1alpha2.MachineDeploymentStatus`. -/
structure MachineDeploymentStatus where
  ObservedGeneration : Int := 0
  Replicas : Int := 0

/-- The spoke type `v1alpha2.MachineDeployment`. -/
structure MachineDeployment where
  ObjectMeta : ObjectMeta := {}
  Spec : MachineDeploymentSpec := {}
  Status : MachineDeploymentStatus := {}

end v1alpha2

/-- The collaborators of the Machine conversions that live outside the
translated files. -/
structure MachineExt where
  /-- The generated copier `Convert_v1alpha2_Machine_To_v1beta1_Machine(src, dst, nil)`. -/
  Convert_v1alpha2_Machine_To_v1beta1_Machine :
    v1alpha2.Machine → v1beta1.Machine → Outcome v1beta1.Machine
  /-- The generated copier `Convert_v1beta1_Machine_To_v1alpha2_Machine(src, dst, nil)`. -/
  Convert_v1beta1_Machine_To_v1alpha2_Machine :
    v1beta1.Machine → v1alpha2.Machine → Outcome v1alpha2.Machine
  /-- The serialiser behind `MarshalData` for a hub Machine. -/
  Persist : v1beta1.Machine → Except Error String
  /-- The parser behind `UnmarshalData` for a hub Machine. -/
  Recall : String → Except Error v1beta1.Machine

/-- The collaborators of the MachineSet conversions that live outside the
translated files. -/
structure MachineSetExt where
  /-- The generated copier `Convert_v1alpha2_MachineSet_To_v1beta1_MachineSet(src, dst, nil)`. -/
  Convert_v1alpha2_MachineSet_To_v1beta1_MachineSet :
    v1alpha2.MachineSet → v1beta1.MachineSet → Outcome v1beta1.MachineSet
  /-- The generated copier `Convert_v1beta1_MachineSet_To_v1alpha2_MachineSet(src, dst, nil)`. -/
  Convert_v1beta1_MachineSet_To_v1alpha2_MachineSet :
    v1beta1.MachineSet → v1alpha2.MachineSet → Outcome v1alpha2.MachineSet
  /-- The serialiser behind `MarshalData` for a hub MachineSet. -/
  Persist : v1beta1.MachineSet → Except Error String
  /-- The parser behind `UnmarshalData` for a hub MachineSet. -/
  Recall : String → Except Error v1beta1.MachineSet

/-- The collaborators of the MachineDeployment conversions that live outside the
translated files. -/
structure MachineDeploymentExt where
  /-- The generated copier
  `Convert_v1alpha2_MachineDeployment_To_v1beta1_MachineDeployment(src, dst, nil)`. -/
  Convert_v1alpha2_MachineDeployment_To_v1beta1_MachineDeployment :
    v1alpha2.MachineDeployment → v1beta1.MachineDeployment → Outcome v1beta1.MachineDeployment
  /-- The generated copier
  `Convert_v1beta1_MachineDeployment_To_v1alpha2_MachineDeployment(src, dst, nil)`. -/
  Convert_v1beta1_MachineDeployment_To_v1alpha2_MachineDeployment :
    v1beta1.MachineDeployment → v1alpha2.MachineDeployment → Outcome v1alpha2.MachineDeployment
  /-- The serialiser behind `MarshalData` for a hub MachineDeployment. -/
  Persist : v1beta1.MachineDeployment → Except Error String
  /-- The parser behind `UnmarshalData` for a hub MachineDeployment. -/
  Recall : String → Except Error v1beta1.MachineDeployment

/-! ## Machine, MachineSet and MachineDeployment: conversions -/

/-- The function `convertAnnotations(fromAnnotation, toAnnotation, annotations)`;
the result is the content of the map `annotations` after the call. -/
def convertAnnotations ( fromAnnotation : String) ( toAnnotation : String)
    (annotations : GoMap) : GoMap :=
  match annotations with
  | none => none
  | some m =>
    match m fromAnnotation with
    | some value => some (StrMap.insert (StrMap.erase m fromAnnotation) toAnnotation value)
    | none => some m

/-- The loop `for i := range from { convertAnnotations(from[i], to[i], annotations) }`
over two tables of the same length. -/
def convertAnnotationTable (fromTable toTable : List String) (annotations : GoMap) : GoMap :=
  (List.zip fromTable toTable).foldl (fun a p => convertAnnotations p.1 p.2 a) annotations

/-- The function `restoreMachineSpec(restored, dst)`; the result is `*dst` after
the call. -/
def restoreMachineSpec (restored : v1beta1.MachineSpec) (dst : v1beta1.MachineSpec) :
    v1beta1.MachineSpec :=
  let dst : v1beta1.MachineSpec :=
    if restored.ClusterName ≠ "" then { dst with ClusterName := restored.ClusterName } else dst
  { dst with
    Bootstrap := { dst.Bootstrap with DataSecretName := restored.Bootstrap.DataSecretName }
    FailureDomain := restored.FailureDomain
    NodeDrainTimeout := restored.NodeDrainTimeout }

/-- The statements `m[target] = val; delete(m, source)` on the content of a map
that an object holds; the nil map holds no key and is left as it is. -/
def GoMap.move (m : GoMap) (target val source : String) : GoMap :=
  match m with
  | none => none
  | some f => some (StrMap.erase (StrMap.insert f target val) source)

/-- The method `(src *Machine) ConvertTo(dstRaw conversion.Hub) error`. It
writes to `src.Annotations`, so the source after the call is part of the result.
The generated copier assigns the metadata as a whole
(`out.ObjectMeta = in.ObjectMeta`), after which `dst.Annotations` and
`src.Annotations` are one map: the writes made through `src.Annotations` are
made to the annotations of the destination as well. The source of the outcome
is the spoke object with these writes, as `UnmarshalData` receives it. -/
def v1alpha2.Machine.ConvertTo (K : Consts) (X : MachineExt)
    (src0 : v1alpha2.Machine) (dstRaw : v1beta1.Machine) :
    SrcOutcome v1alpha2.Machine v1beta1.Machine :=
  match X.Convert_v1alpha2_Machine_To_v1beta1_Machine src0 dstRaw with
  | ⟨dst, some err⟩ => ⟨src0, dst, some err⟩
  | ⟨dst, none⟩ =>
    -- Manually convert ExcludeNodeDrainingAnnotation annotation if set.
    let src : v1alpha2.Machine :=
      match src0.ObjectMeta.Annotations with
      | none => src0
      | some annotations =>
        match annotations K.ExcludeNodeDrainingAnnotation with
        | some val =>
          { src0 with ObjectMeta := { src0.ObjectMeta with
              Annotations := some (StrMap.erase
                (StrMap.insert annotations K.beta1ExcludeNodeDrainingAnnotation val)
                K.ExcludeNodeDrainingAnnotation) } }
        | none => src0
    -- The same two writes, seen through `dst.Annotations`.
    let dst : v1beta1.Machine :=
      match src0.ObjectMeta.Annotations with
      | none => dst
      | some annotations =>
        match annotations K.ExcludeNodeDrainingAnnotation with
        | some val =>
          { dst with ObjectMeta := { dst.ObjectMeta with
              Annotations := GoMap.move dst.ObjectMeta.Annotations
                K.beta1ExcludeNodeDrainingAnnotation val K.ExcludeNodeDrainingAnnotation } }
        | none => dst
    -- Manually convert ClusterName from label, if any.
    let dst : v1beta1.Machine :=
      match GoMap.lookup src.ObjectMeta.Labels K.MachineClusterLabelName with
      | some name =>
        { dst with
          Spec := { dst.Spec with ClusterName := name }
          ObjectMeta := { dst.ObjectMeta with
            Labels := GoMap.delete dst.ObjectMeta.Labels K.MachineClusterLabelName } }
      | none => dst
    -- Manually restore data.
    match UnmarshalData K X.Recall src.ObjectMeta with
    | .error err => ⟨src, dst, some err⟩
    | .ok none => ⟨src, dst, none⟩
    | .ok (some restored) =>
      ⟨src,
       { dst with
         Spec := restoreMachineSpec restored.Spec dst.Spec
         Status := { dst.Status with
           ObservedGeneration := restored.Status.ObservedGeneration
           Conditions := restored.Status.Conditions
           NodeInfo := restored.Status.NodeInfo } },
       none⟩

/-- The method `(dst *Machine) ConvertFrom(srcRaw conversion.Hub) error`. It
writes to `src.Annotations`, so the source after the call is part of the result;
as in `ConvertTo`, the generated copier has made `dst.Annotations` and
`src.Annotations` one map, and the writes made through `src.Annotations` are
made to the annotations of the destination as well. The source of the outcome
is the hub object as `MarshalData` receives it. -/
def v1alpha2.Machine.ConvertFrom (K : Consts) (X : MachineExt)
    (dst0 : v1alpha2.Machine) (srcRaw : v1beta1.Machine) :
    SrcOutcome v1beta1.Machine v1alpha2.Machine :=
  match X.Convert_v1beta1_Machine_To_v1alpha2_Machine srcRaw dst0 with
  | ⟨dst, some err⟩ => ⟨srcRaw, dst, some err⟩
  | ⟨dst, none⟩ =>
    -- Manually convert ExcludeNodeDrainingAnnotation annotation if set.
    let src : v1beta1.Machine :=
      match srcRaw.ObjectMeta.Annotations with
      | none => srcRaw
      | some annotations =>
        match annotations K.beta1ExcludeNodeDrainingAnnotation with
        | some val =>
          { srcRaw with ObjectMeta := { srcRaw.ObjectMeta with
              Annotations := some (StrMap.erase
                (StrMap.insert annotations K.ExcludeNodeDrainingAnnotation val)
                K.beta1ExcludeNodeDrainingAnnotation) } }
        | none => srcRaw
    -- The same two writes, seen through `dst.Annotations`.
    let dst : v1alpha2.Machine :=
      match srcRaw.ObjectMeta.Annotations with
      | none => dst
      | some annotations =>
        match annotations K.beta1ExcludeNodeDrainingAnnotation with
        | some val =>
          { dst with ObjectMeta := { dst.ObjectMeta with
              Annotations := GoMap.move dst.ObjectMeta.Annotations
                K.ExcludeNodeDrainingAnnotation val K.beta1ExcludeNodeDrainingAnnotation } }
        | none => dst
    let dst : v1alpha2.Machine :=
      if src.Spec.ClusterName ≠ "" then
        { dst with ObjectMeta := { dst.ObjectMeta with
            Labels := some (StrMap.insert (dst.ObjectMeta.Labels.getD StrMap.empty)
              K.MachineClusterLabelName src.Spec.ClusterName) } }
      else dst
    -- Preserve Hub data on down-conversion except for metadata
    match MarshalData K X.Persist src dst.ObjectMeta with
    | ⟨meta, some err⟩ => ⟨src, { dst with ObjectMeta := meta }, some err⟩
    | ⟨meta, none⟩ => ⟨src, { dst with ObjectMeta := meta }, none⟩

/-- The method `(src *MachineSet) ConvertTo(dstRaw conversion.Hub) error`. -/
def v1alpha2.MachineSet.ConvertTo (K : Consts) (X : MachineSetExt)
    (src : v1alpha2.MachineSet) (dstRaw : v1beta1.MachineSet) : Outcome v1beta1.MachineSet :=
  match X.Convert_v1alpha2_MachineSet_To_v1beta1_MachineSet src dstRaw with
  | ⟨dst, some err⟩ => ⟨dst, some err⟩
  | ⟨dst, none⟩ =>
    -- Manually convert ClusterName from label, if any.
    let dst : v1beta1.MachineSet :=
      match GoMap.lookup src.ObjectMeta.Labels K.MachineClusterLabelName with
      | some name =>
        { dst with
          Spec := { dst.Spec with
            ClusterName := name
            Template := { dst.Spec.Template with
              Spec := { dst.Spec.Template.Spec with ClusterName := name } } }
          ObjectMeta := { dst.ObjectMeta with
            Labels := GoMap.delete dst.ObjectMeta.Labels K.MachineClusterLabelName } }
      | none => dst
    -- Manually convert annotations
    let dst : v1beta1.MachineSet :=
      { dst with ObjectMeta := { dst.ObjectMeta with
          Annotations := convertAnnotationTable (v2Annotations K) (beta1Annotations K)
            dst.ObjectMeta.Annotations } }
    -- Manually restore data.
    match UnmarshalData K X.Recall src.ObjectMeta with
    | .error err => ⟨dst, some err⟩
    | .ok none => ⟨dst, none⟩
    | .ok (some restored) =>
      let dst : v1beta1.MachineSet :=
        if restored.Spec.ClusterName ≠ "" then
          { dst with Spec := { dst.Spec with ClusterName := restored.Spec.ClusterName } }
        else dst
      ⟨{ dst with
         Spec := { dst.Spec with Template := { dst.Spec.Template with
           Spec := restoreMachineSpec restored.Spec.Template.Spec dst.Spec.Template.Spec } }
         Status := { dst.Status with Conditions := restored.Status.Conditions } },
       none⟩

/-- The method `(dst *MachineSet) ConvertFrom(srcRaw conversion.Hub) error`. -/
def v1alpha2.MachineSet.ConvertFrom (K : Consts) (X : MachineSetExt)
    (dst0 : v1alpha2.MachineSet) (srcRaw : v1beta1.MachineSet) : Outcome v1alpha2.MachineSet :=
  match X.Convert_v1beta1_MachineSet_To_v1alpha2_MachineSet srcRaw dst0 with
  | ⟨dst, some err⟩ => ⟨dst, some err⟩
  | ⟨dst, none⟩ =>
    -- Manually convert annotations
    let dst : v1alpha2.MachineSet :=
      { dst with ObjectMeta := { dst.ObjectMeta with
          Annotations := convertAnnotationTable (beta1Annotations K) (v2Annotations K)
            dst.ObjectMeta.Annotations } }
    let dst : v1alpha2.MachineSet :=
      if srcRaw.Spec.ClusterName ≠ "" then
        { dst with ObjectMeta := { dst.ObjectMeta with
            Labels := some (StrMap.insert (dst.ObjectMeta.Labels.getD StrMap.empty)
              K.MachineClusterLabelName srcRaw.Spec.ClusterName) } }
      else dst
    -- Preserve Hub data on down-conversion except for metadata
    match MarshalData K X.Persist srcRaw dst.ObjectMeta with
    | ⟨meta, some err⟩ => ⟨{ dst with ObjectMeta := meta }, some err⟩
    | ⟨meta, none⟩ => ⟨{ dst with ObjectMeta := meta }, none⟩

/-- The method `(src *MachineDeployment) ConvertTo(dstRaw conversion.Hub) error`. -/
def v1alpha2.MachineDeployment.ConvertTo (K : Consts) (X : MachineDeploymentExt)
    (src : v1alpha2.MachineDeployment) (dstRaw : v1beta1.MachineDeployment) :
    Outcome v1beta1.MachineDeployment :=
  match X.Convert_v1alpha2_MachineDeployment_To_v1beta1_MachineDeployment src dstRaw with
  | ⟨dst, some err⟩ => ⟨dst, some err⟩
  | ⟨dst, none⟩ =>
    -- Manually convert ClusterName from label, if any.
    let dst : v1beta1.MachineDeployment :=
      match GoMap.lookup src.ObjectMeta.Labels K.MachineClusterLabelName with
      | some name =>
        { dst with
          Spec := { dst.Spec with
            ClusterName := name
            Template := { dst.Spec.Template with
              Spec := { dst.Spec.Template.Spec with ClusterName := name } } }
          ObjectMeta := { dst.ObjectMeta with
            Labels := GoMap.delete dst.ObjectMeta.Labels K.MachineClusterLabelName } }
      | none => dst
    -- Manually convert annotations
    let dst : v1beta1.MachineDeployment :=
      { dst with ObjectMeta := { dst.ObjectMeta with
          Annotations := convertAnnotationTable (v2Annotations K) (beta1Annotations K)
            dst.ObjectMeta.Annotations } }
    -- Manually restore data.
    match UnmarshalData K X.Recall src.ObjectMeta with
    | .error err => ⟨dst, some err⟩
    | .ok none => ⟨dst, none⟩
    | .ok (some restored) =>
      let dst : v1beta1.MachineDeployment :=
        if restored.Spec.ClusterName ≠ "" then
          { dst with Spec := { dst.Spec with ClusterName := restored.Spec.ClusterName } }
        else dst
      let dst : v1beta1.MachineDeployment :=
        { dst with
          Spec := { dst.Spec with
            Paused := restored.Spec.Paused
            Template := { dst.Spec.Template with
              Spec := restoreMachineSpec restored.Spec.Template.Spec dst.Spec.Template.Spec } }
          Status := { dst.Status with Phase := restored.Status.Phase } }
      let dst : v1beta1.MachineDeployment :=
        match restored.Spec.Strategy with
        | none => dst
        | some restoredStrategy =>
          match restoredStrategy.RollingUpdate with
          | none => dst
          | some restoredRollingUpdate =>
            let strategy : v1beta1.MachineDeploymentStrategy := dst.Spec.Strategy.getD {}
            let rollingUpdate : v1beta1.MachineRollingUpdateDeployment :=
              strategy.RollingUpdate.getD {}
            { dst with Spec := { dst.Spec with
                Strategy := some { strategy with
                  RollingUpdate := some { rollingUpdate with
                    DeletePolicy := restoredRollingUpdate.DeletePolicy } } } }
      ⟨{ dst with Status := { dst.Status with Conditions := restored.Status.Conditions } }, none⟩

/-- The method `(dst *MachineDeployment) ConvertFrom(srcRaw conversion.Hub) error`. -/
def v1alpha2.MachineDeployment.ConvertFrom (K : Consts) (X : MachineDeploymentExt)
    (dst0 : v1alpha2.MachineDeployment) (srcRaw : v1beta1.MachineDeployment) :
    Outcome v1alpha2.MachineDeployment :=
  match X.Convert_v1beta1_MachineDeployment_To_v1alpha2_MachineDeployment srcRaw dst0 with
  | ⟨dst, some err⟩ => ⟨dst, some err⟩
  | ⟨dst, none⟩ =>
    -- Manually convert annotations
    let dst : v1alpha2.MachineDeployment :=
      { dst with ObjectMeta := { dst.ObjectMeta with
          Annotations := convertAnnotationTable (beta1Annotations K) (v2Annotations K)
            dst.ObjectMeta.Annotations } }
    let dst : v1alpha2.MachineDeployment :=
      if srcRaw.Spec.ClusterName ≠ "" then
        { dst with ObjectMeta := { dst.ObjectMeta with
            Labels := some (StrMap.insert (dst.ObjectMeta.Labels.getD StrMap.empty)
              K.MachineClusterLabelName srcRaw.Spec.ClusterName) } }
      else dst
    -- Preserve Hub data on down-conversion except for metadata
    match MarshalData K X.Persist srcRaw dst.ObjectMeta with
    | ⟨meta, some err⟩ => ⟨{ dst with ObjectMeta := meta }, some err⟩
    | ⟨meta, none⟩ => ⟨{ dst with ObjectMeta := meta }, none⟩

/-! ## KubeadmConfig -/

namespace v1beta1

/-- The hub type `SecretFileSource` of the bootstrap API. -/
structure SecretFileSource where
  Name : String := ""
  Key : String := ""
  deriving DecidableEq

/-- The hub type `FileSource` of the bootstrap API. -/
structure FileSource where
  Secret : SecretFileSource := {}
  deriving DecidableEq

/-- The hub type `File` of the bootstrap API; `ContentFrom` is a pointer. -/
structure File where
  Path : String := ""
  Owner : String := ""
  Permissions : String := ""
  Encoding : String := ""
  Content : String := ""
  ContentFrom : Option FileSource := none
  deriving DecidableEq

/-- The hub type `NodeRegistrationOptions`; `IgnorePreflightErrors` is a slice
that may be nil. -/
structure NodeRegistrationOptions where
  Name : String := ""
  CRISocket : String := ""
  IgnorePreflightErrors : Option (List String) := none

/-- The hub type `InitConfiguration`. -/
structure InitConfiguration where
  NodeRegistration : NodeRegistrationOptions := {}

/-- The hub type `JoinConfiguration`. -/
structure JoinConfiguration where
  NodeRegistration : NodeRegistrationOptions := {}
  CACertPath : String := ""

/-- The hub type `DiskSetup`. -/
structure DiskSetup where
  Partitions : List String := []
  Filesystems : List String := []

/-- The hub type `KubeadmConfigSpec`. -/
structure KubeadmConfigSpec where
  InitConfiguration : Option InitConfiguration := none
  JoinConfiguration : Option JoinConfiguration := none
  Files : List File := []
  DiskSetup : Option DiskSetup := none
  Mounts : List (List String) := []
  PreKubeadmCommands : List String := []
  PostKubeadmCommands : List String := []
  Verbosity : Option Int := none
  UseExperimentalRetryJoin : Bool := false

/-- The hub type `KubeadmConfigStatus`. -/
structure KubeadmConfigStatus where
  Ready : Bool := false
  DataSecretName : Option String := none
  FailureReason : String := ""
  FailureMessage : String := ""
  ObservedGeneration : Int := 0
  Conditions : Conditions := []

/-- The hub type `KubeadmConfig`. -/
structure KubeadmConfig where
  ObjectMeta : ObjectMeta := {}
  Spec : KubeadmConfigSpec := {}
  Status : KubeadmConfigStatus := {}

end v1beta1

namespace v1alpha2

/-- The spoke type `File` of the bootstrap API. -/
structure File where
  Path : String := ""
  Owner : String := ""
  Permissions : String := ""
  Encoding : String := ""
  Content : String := ""

/-- The node registration options of the spoke version. -/
structure NodeRegistrationOptions where
  Name : String := ""
  CRISocket : String := ""

/-- The init configuration of the spoke version. -/
structure InitConfiguration where
  NodeRegistration : NodeRegistrationOptions := {}

/-- The join configuration of the spoke version. -/
structure JoinConfiguration where
  NodeRegistration : NodeRegistrationOptions := {}
  CACertPath : String := ""

/-- The spoke type `KubeadmConfigSpec`. -/
structure KubeadmConfigSpec where
  InitConfiguration : Option InitConfiguration := none
  JoinConfiguration : Option JoinConfiguration := none
  Files : List File := []
  PreKubeadmCommands : List String := []
  PostKubeadmCommands : List String := []

/-- The spoke type `KubeadmConfigStatus`. -/
structure KubeadmConfigStatus where
  Ready : Bool := false
  BootstrapData : Option String := none
  ErrorReason : String := ""
  ErrorMessage : String := ""

/-- The spoke type `KubeadmConfig`. -/
structure KubeadmConfig where
  ObjectMeta : ObjectMeta := {}
  Spec : KubeadmConfigSpec := {}
  Status : KubeadmConfigStatus := {}

end v1alpha2

/-- The collaborators of the KubeadmConfig conversions that live outside the
translated files. -/
structure KubeadmConfigExt where
  /-- The generated copier
  `Convert_v1alpha2_KubeadmConfig_To_v1beta1_KubeadmConfig(src, dst, nil)`. -/
  Convert_v1alpha2_KubeadmConfig_To_v1beta1_KubeadmConfig :
    v1alpha2.KubeadmConfig → v1beta1.KubeadmConfig → Outcome v1beta1.KubeadmConfig
  /-- The generated copier
  `Convert_v1beta1_KubeadmConfig_To_v1alpha2_KubeadmConfig(src, dst, nil)`. -/
  Convert_v1beta1_KubeadmConfig_To_v1alpha2_KubeadmConfig :
    v1beta1.KubeadmConfig → v1alpha2.KubeadmConfig → Outcome v1alpha2.KubeadmConfig
  /-- The serialiser behind `MarshalData` for a hub KubeadmConfig. -/
  Persist : v1beta1.KubeadmConfig → Except Error String
  /-- The parser behind `UnmarshalData` for a hub KubeadmConfig. -/
  Recall : String → Except Error v1beta1.KubeadmConfig

/-- The first loop at the end of `KubeadmConfig.ConvertTo`, from index `i` on:
`dstPaths[path] = &dst.Spec.Files[i]`. A pointer into the array is its index; a
later file with the same path replaces the entry. -/
def trackPaths (i : Nat) (files : List v1beta1.File) (dstPaths : String → Option Nat) :
    String → Option Nat :=
  match files with
  | [] => dstPaths
  | file :: rest =>
    trackPaths (i + 1) rest (fun path => if path = file.Path then some i else dstPaths path)

/-- One pass through the body of the second loop of `KubeadmConfig.ConvertTo`.
After `dst.Spec.Files = restored.Spec.Files` both slices share one array, whose
content is `files`; `restoredFile` is the copy of element `i` taken at the start
of the pass. The result `none` is the nil dereference of
`*restoredFile.ContentFrom`. -/
def restoreFile (dstPaths : String → Option Nat) (files : List v1beta1.File) (i : Nat) :
    Option (List v1beta1.File) :=
  match files[i]? with
  | none => some files
  | some restoredFile =>
    match dstPaths restoredFile.Path with
    | none => some files
    | some j =>
      match files[j]? with
      | none => some files
      | some dstFile =>
        if dstFile.Content = "" then
          match restoredFile.ContentFrom with
          | none => none
          | some source => some (files.set j { dstFile with ContentFrom := some source })
        else some files

/-- The two loops at the end of `KubeadmConfig.ConvertTo` on the shared array. -/
def restoreFiles (files : List v1beta1.File) : Option (List v1beta1.File) :=
  (List.range files.length).foldlM (restoreFile (trackPaths 0 files (fun _ => none))) files

/-- The method `(src *KubeadmConfig) ConvertTo(dstRaw conversion.Hub) error`;
the result `none` is a run-time panic. -/
def v1alpha2.KubeadmConfig.ConvertTo (K : Consts) (X : KubeadmConfigExt)
    (src : v1alpha2.KubeadmConfig) (dstRaw : v1beta1.KubeadmConfig) :
    Option (Outcome v1beta1.KubeadmConfig) :=
  match X.Convert_v1alpha2_KubeadmConfig_To_v1beta1_KubeadmConfig src dstRaw with
  | ⟨dst, some err⟩ => some ⟨dst, some err⟩
  | ⟨dst, none⟩ =>
    -- Manually restore data.
    match UnmarshalData K X.Recall src.ObjectMeta with
    | .error err => some ⟨dst, some err⟩
    | .ok none => some ⟨dst, none⟩
    | .ok (some restored) =>
      let dst : v1beta1.KubeadmConfig :=
        match restored.Spec.JoinConfiguration with
        | none => dst
        | some restoredJoin =>
          match restoredJoin.NodeRegistration.IgnorePreflightErrors with
          | none => dst
          | some errors =>
            let join : v1beta1.JoinConfiguration := dst.Spec.JoinConfiguration.getD {}
            { dst with Spec := { dst.Spec with
                JoinConfiguration := some { join with
                  NodeRegistration := { join.NodeRegistration with
                    IgnorePreflightErrors := some errors } } } }
      let dst : v1beta1.KubeadmConfig :=
        match restored.Spec.InitConfiguration with
        | none => dst
        | some restoredInit =>
          match restoredInit.NodeRegistration.IgnorePreflightErrors with
          | none => dst
          | some errors =>
            let init : v1beta1.InitConfiguration := dst.Spec.InitConfiguration.getD {}
            { dst with Spec := { dst.Spec with
                InitConfiguration := some { init with
                  NodeRegistration := { init.NodeRegistration with
                    IgnorePreflightErrors := some errors } } } }
      let dst : v1beta1.KubeadmConfig :=
        { dst with
          Status := { dst.Status with
            DataSecretName := restored.Status.DataSecretName
            ObservedGeneration := restored.Status.ObservedGeneration
            Conditions := restored.Status.Conditions }
          Spec := { dst.Spec with
            Verbosity := restored.Spec.Verbosity
            UseExperimentalRetryJoin := restored.Spec.UseExperimentalRetryJoin
            DiskSetup := restored.Spec.DiskSetup
            Mounts := restored.Spec.Mounts
            Files := restored.Spec.Files } }
      -- Track files successfully up-converted, then restore contentFrom.
      match restoreFiles dst.Spec.Files with
      | none => none
      | some files => some ⟨{ dst with Spec := { dst.Spec with Files := files } }, none⟩

/-- The method `(dst *KubeadmConfig) ConvertFrom(srcRaw conversion.Hub) error`.
When the generated copier fails the method returns `nil`. -/
def v1alpha2.KubeadmConfig.ConvertFrom (K : Consts) (X : KubeadmConfigExt)
    (dst0 : v1alpha2.KubeadmConfig) (srcRaw : v1beta1.KubeadmConfig) :
    Outcome v1alpha2.KubeadmConfig :=
  match X.Convert_v1beta1_KubeadmConfig_To_v1alpha2_KubeadmConfig srcRaw dst0 with
  | ⟨dst, some _⟩ => ⟨dst, none⟩
  | ⟨dst, none⟩ =>
    -- Preserve Hub data on down-conversion.
    match MarshalData K X.Persist srcRaw dst.ObjectMeta with
    | ⟨meta, some err⟩ => ⟨{ dst with ObjectMeta := meta }, some err⟩
    | ⟨meta, none⟩ => ⟨{ dst with ObjectMeta := meta }, none⟩

/-- The generated KubeadmConfig copiers never return an error (spec 6). -/
def KubeadmConfigExt.Total (X : KubeadmConfigExt) : Prop :=
  (∀ s d, (X.Convert_v1alpha2_KubeadmConfig_To_v1beta1_KubeadmConfig s d).err = none) ∧
  (∀ h d, (X.Convert_v1beta1_KubeadmConfig_To_v1alpha2_KubeadmConfig h d).err = none)

/-- The round trip of the test `preserves fields from hub version`: `ConvertFrom`
into `d0`, then `ConvertTo` of the spoke object into a fresh hub object. -/
def v1alpha2.Cluster.roundTrip (K : Consts) (X : ClusterExt)
    (d0 : v1alpha2.Cluster) (H : v1beta1.Cluster) : Outcome v1beta1.Cluster :=
  v1alpha2.Cluster.ConvertTo K X (v1alpha2.Cluster.ConvertFrom K X d0 H).dst {}

/-- The generated Cluster copiers never return an error (spec 6: the structural
copier is total). -/
def ClusterExt.Total (X : ClusterExt) : Prop :=
  (∀ s d, (X.Convert_v1alpha2_Cluster_To_v1beta1_Cluster s d).err = none) ∧
  (∀ h d, (X.Convert_v1beta1_Cluster_To_v1alpha2_Cluster h d).err = none)

/-- The generated up-copier assigns only fields the spoke has: the hub-only
`Spec.Topology` of the destination is left as it was. -/
def ClusterExt.KeepsTopology (X : ClusterExt) : Prop :=
  ∀ s d, (X.Convert_v1alpha2_Cluster_To_v1beta1_Cluster s d).dst.Spec.Topology = d.Spec.Topology

/-- The round trip `ConvertFrom` into `d0`, then `ConvertTo` of the spoke object
into a fresh hub object, for a Machine. -/
def v1alpha2.Machine.roundTrip (K : Consts) (X : MachineExt)
    (d0 : v1alpha2.Machine) (H : v1beta1.Machine) :
    SrcOutcome v1alpha2.Machine v1beta1.Machine :=
  v1alpha2.Machine.ConvertTo K X (v1alpha2.Machine.ConvertFrom K X d0 H).dst {}

/-- The round trip `ConvertFrom` into `d0`, then `ConvertTo` of the spoke object
into a fresh hub object, for a MachineSet. -/
def v1alpha2.MachineSet.roundTrip (K : Consts) (X : MachineSetExt)
    (d0 : v1alpha2.MachineSet) (H : v1beta1.MachineSet) : Outcome v1beta1.MachineSet :=
  v1alpha2.MachineSet.ConvertTo K X (v1alpha2.MachineSet.ConvertFrom K X d0 H).dst {}

/-- The round trip `ConvertFrom` into `d0`, then `ConvertTo` of the spoke object
into a fresh hub object, for a MachineDeployment. -/
def v1alpha2.MachineDeployment.roundTrip (K : Consts) (X : MachineDeploymentExt)
    (d0 : v1alpha2.MachineDeployment) (H : v1beta1.MachineDeployment) :
    Outcome v1beta1.MachineDeployment :=
  v1alpha2.MachineDeployment.ConvertTo K X
    (v1alpha2.MachineDeployment.ConvertFrom K X d0 H).dst {}

/-- The generated Machine copiers never return an error (spec 6). -/
def MachineExt.Total (X : MachineExt) : Prop :=
  (∀ s d, (X.Convert_v1alpha2_Machine_To_v1beta1_Machine s d).err = none) ∧
  (∀ h d, (X.Convert_v1beta1_Machine_To_v1alpha2_Machine h d).err = none)

/-- The generated down-copier copies the labels, a field of the same shape in
both versions (spec 6). -/
def MachineExt.CopiesLabels (X : MachineExt) : Prop :=
  ∀ h d, (X.Convert_v1beta1_Machine_To_v1alpha2_Machine h d).dst.ObjectMeta.Labels
    = h.ObjectMeta.Labels

/-- The generated copiers assign the metadata as a whole
(`out.ObjectMeta = in.ObjectMeta`): the destination has the annotations of the
source, in both directions. -/
def MachineExt.CopiesAnnotations (X : MachineExt) : Prop :=
  (∀ s d, (X.Convert_v1alpha2_Machine_To_v1beta1_Machine s d).dst.ObjectMeta.Annotations
    = s.ObjectMeta.Annotations) ∧
  (∀ h d, (X.Convert_v1beta1_Machine_To_v1alpha2_Machine h d).dst.ObjectMeta.Annotations
    = h.ObjectMeta.Annotations)

/-- The generated up-copier leaves the hub-only `Spec.ClusterName` of the
destination as it was. -/
def MachineExt.KeepsClusterName (X : MachineExt) : Prop :=
  ∀ s d, (X.Convert_v1alpha2_Machine_To_v1beta1_Machine s d).dst.Spec.ClusterName
    = d.Spec.ClusterName

/-- The generated MachineSet copiers never return an error (spec 6). -/
def MachineSetExt.Total (X : MachineSetExt) : Prop :=
  (∀ s d, (X.Convert_v1alpha2_MachineSet_To_v1beta1_MachineSet s d).err = none) ∧
  (∀ h d, (X.Convert_v1beta1_MachineSet_To_v1alpha2_MachineSet h d).err = none)

/-- The generated down-copier copies the labels (spec 6). -/
def MachineSetExt.CopiesLabels (X : MachineSetExt) : Prop :=
  ∀ h d, (X.Convert_v1beta1_MachineSet_To_v1alpha2_MachineSet h d).dst.ObjectMeta.Labels
    = h.ObjectMeta.Labels

/-- The generated up-copier leaves the two hub-only cluster names of the
destination as they were. -/
def MachineSetExt.KeepsClusterName (X : MachineSetExt) : Prop :=
  ∀ s d,
    (X.Convert_v1alpha2_MachineSet_To_v1beta1_MachineSet s d).dst.Spec.ClusterName
      = d.Spec.ClusterName ∧
    (X.Convert_v1alpha2_MachineSet_To_v1beta1_MachineSet s d).dst.Spec.Template.Spec.ClusterName
      = d.Spec.Template.Spec.ClusterName

/-- The generated MachineDeployment copiers never return an error (spec 6). -/
def MachineDeploymentExt.Total (X : MachineDeploymentExt) : Prop :=
  (∀ s d, (X.Convert_v1alpha2_MachineDeployment_To_v1beta1_MachineDeployment s d).err = none) ∧
  (∀ h d, (X.Convert_v1beta1_MachineDeployment_To_v1alpha2_MachineDeployment h d).err = none)

/-- The generated down-copier copies the labels (spec 6). -/
def MachineDeploymentExt.CopiesLabels (X : MachineDeploymentExt) : Prop :=
  ∀ h d,
    (X.Convert_v1beta1_MachineDeployment_To_v1alpha2_MachineDeployment h d).dst.ObjectMeta.Labels
      = h.ObjectMeta.Labels

/-- The generated up-copier leaves the two hub-only cluster names of the
destination as they were. -/
def MachineDeploymentExt.KeepsClusterName (X : MachineDeploymentExt) : Prop :=
  ∀ s d,
    (X.Convert_v1alpha2_MachineDeployment_To_v1beta1_MachineDeployment s d).dst.Spec.ClusterName
      = d.Spec.ClusterName ∧
    (X.Convert_v1alpha2_MachineDeployment_To_v1beta1_MachineDeployment
        s d).dst.Spec.Template.Spec.ClusterName
      = d.Spec.Template.Spec.ClusterName

/-- The metadata-key rename rule of spec 4.2, read on two tables of keys: for
every pair of keys, a source key present in `before` has moved its value to the
target key of `after` and is gone from `after`; an absent source key is still
absent and the target key has kept what it had. -/
def KeysRenamed (fromTable toTable : List String) (before after : GoMap) : Prop :=
  ∀ p ∈ List.zip fromTable toTable,
    (∀ v, GoMap.lookup before p.1 = some v →
      GoMap.lookup after p.2 = some v ∧ GoMap.lookup after p.1 = none) ∧
    (GoMap.lookup before p.1 = none →
      GoMap.lookup after p.1 = none ∧ GoMap.lookup after p.2 = GoMap.lookup before p.2)

/-! ## KubeadmConfigTemplate -/

namespace v1beta1

/-- The hub type `KubeadmConfigTemplateResource`. -/
structure KubeadmConfigTemplateResource where
  Spec : KubeadmConfigSpec := {}

/-- The hub type `KubeadmConfigTemplateSpec`. -/
structure KubeadmConfigTemplateSpec where
  Template : KubeadmConfigTemplateResource := {}

/-- The hub type `KubeadmConfigTemplate`. -/
structure KubeadmConfigTemplate where
  ObjectMeta : ObjectMeta := {}
  Spec : KubeadmConfigTemplateSpec := {}

end v1beta1

namespace v1alpha2

/-- The spoke type `KubeadmConfigTemplateResource`. -/
structure KubeadmConfigTemplateResource where
  Spec : KubeadmConfigSpec := {}

/-- The spoke type `KubeadmConfigTemplateSpec`. -/
structure KubeadmConfigTemplateSpec where
  Template : KubeadmConfigTemplateResource := {}

/-- The spoke type `KubeadmConfigTemplate`. -/
structure KubeadmConfigTemplate where
  ObjectMeta : ObjectMeta := {}
  Spec : KubeadmConfigTemplateSpec := {}

end v1alpha2

/-- The collaborators of the KubeadmConfigTemplate conversions that live outside
the translated files. -/
structure KubeadmConfigTemplateExt where
  /-- The generated copier
  `Convert_v1alpha2_KubeadmConfigTemplate_To_v1beta1_KubeadmConfigTemplate(src, dst, nil)`. -/
  Convert_v1alpha2_KubeadmConfigTemplate_To_v1beta1_KubeadmConfigTemplate :
    v1alpha2.KubeadmConfigTemplate → v1beta1.KubeadmConfigTemplate →
      Outcome v1beta1.KubeadmConfigTemplate
  /-- The generated copier
  `Convert_v1beta1_KubeadmConfigTemplate_To_v1alpha2_KubeadmConfigTemplate(src, dst, nil)`. -/
  Convert_v1beta1_KubeadmConfigTemplate_To_v1alpha2_KubeadmConfigTemplate :
    v1beta1.KubeadmConfigTemplate → v1alpha2.KubeadmConfigTemplate →
      Outcome v1alpha2.KubeadmConfigTemplate
  /-- The serialiser behind `MarshalData` for a hub KubeadmConfigTemplate. -/
  Persist : v1beta1.KubeadmConfigTemplate → Except Error String
  /-- The parser behind `UnmarshalData` for a hub KubeadmConfigTemplate. -/
  Recall : String → Except Error v1beta1.KubeadmConfigTemplate

/-- The method `(src *KubeadmConfigTemplate) ConvertTo(dstRaw conversion.Hub) error`. -/
def v1alpha2.KubeadmConfigTemplate.ConvertTo (K : Consts) (X : KubeadmConfigTemplateExt)
    (src : v1alpha2.KubeadmConfigTemplate) (dstRaw : v1beta1.KubeadmConfigTemplate) :
    Outcome v1beta1.KubeadmConfigTemplate :=
  match X.Convert_v1alpha2_KubeadmConfigTemplate_To_v1beta1_KubeadmConfigTemplate src dstRaw with
  | ⟨dst, some err⟩ => ⟨dst, some err⟩
  | ⟨dst, none⟩ =>
    -- Manually restore data.
    match UnmarshalData K X.Recall src.ObjectMeta with
    | .error err => ⟨dst, some err⟩
    | .ok none => ⟨dst, none⟩
    | .ok (some restored) =>
      let dst : v1beta1.KubeadmConfigTemplate :=
        match restored.Spec.Template.Spec.JoinConfiguration with
        | none => dst
        | some restoredJoin =>
          match restoredJoin.NodeRegistration.IgnorePreflightErrors with
          | none => dst
          | some errors =>
            let join : v1beta1.JoinConfiguration :=
              dst.Spec.Template.Spec.JoinConfiguration.getD {}
            { dst with Spec := { dst.Spec with Template := { dst.Spec.Template with
                Spec := { dst.Spec.Template.Spec with
                  JoinConfiguration := some { join with
                    NodeRegistration := { join.NodeRegistration with
                      IgnorePreflightErrors := some errors } } } } } }
      let dst : v1beta1.KubeadmConfigTemplate :=
        match restored.Spec.Template.Spec.InitConfiguration with
        | none => dst
        | some restoredInit =>
          match restoredInit.NodeRegistration.IgnorePreflightErrors with
          | none => dst
          | some errors =>
            let init : v1beta1.InitConfiguration :=
              dst.Spec.Template.Spec.InitConfiguration.getD {}
            { dst with Spec := { dst.Spec with Template := { dst.Spec.Template with
                Spec := { dst.Spec.Template.Spec with
                  InitConfiguration := some { init with
                    NodeRegistration := { init.NodeRegistration with
                      IgnorePreflightErrors := some errors } } } } } }
      ⟨dst, none⟩

/-- The method `(dst *KubeadmConfigTemplate) ConvertFrom(srcRaw conversion.Hub) error`. -/
def v1alpha2.KubeadmConfigTemplate.ConvertFrom (K : Consts) (X : KubeadmConfigTemplateExt)
    (dst0 : v1alpha2.KubeadmConfigTemplate) (srcRaw : v1beta1.KubeadmConfigTemplate) :
    Outcome v1alpha2.KubeadmConfigTemplate :=
  match X.Convert_v1beta1_KubeadmConfigTemplate_To_v1alpha2_KubeadmConfigTemplate srcRaw dst0 with
  | ⟨dst, some err⟩ => ⟨dst, some err⟩
  | ⟨dst, none⟩ =>
    -- Preserve Hub data on down-conversion except for metadata
    match MarshalData K X.Persist srcRaw dst.ObjectMeta with
    | ⟨meta, some err⟩ => ⟨{ dst with ObjectMeta := meta }, some err⟩
    | ⟨meta, none⟩ => ⟨{ dst with ObjectMeta := meta }, none⟩

/-! ## Status conversions -/

/-- The generated `autoConvert_…Status_To_…Status` functions that the hand-written
status conversions call first; the conversion scope argument is left out. -/
structure StatusExt where
  /-- The generated `autoConvert_v1alpha2_ClusterStatus_To_v1beta1_ClusterStatus`. -/
  autoConvert_v1alpha2_ClusterStatus_To_v1beta1_ClusterStatus :
    v1alpha2.ClusterStatus → v1beta1.ClusterStatus → Outcome v1beta1.ClusterStatus
  /-- The generated `autoConvert_v1beta1_ClusterStatus_To_v1alpha2_ClusterStatus`. -/
  autoConvert_v1beta1_ClusterStatus_To_v1alpha2_ClusterStatus :
    v1beta1.ClusterStatus → v1alpha2.ClusterStatus → Outcome v1alpha2.ClusterStatus
  /-- The generated `autoConvert_v1alpha2_MachineSetStatus_To_v1beta1_MachineSetStatus`. -/
  autoConvert_v1alpha2_MachineSetStatus_To_v1beta1_MachineSetStatus :
    v1alpha2.MachineSetStatus → v1beta1.MachineSetStatus → Outcome v1beta1.MachineSetStatus
  /-- The generated `autoConvert_v1beta1_MachineSetStatus_To_v1alpha2_MachineSetStatus`. -/
  autoConvert_v1beta1_MachineSetStatus_To_v1alpha2_MachineSetStatus :
    v1beta1.MachineSetStatus → v1alpha2.MachineSetStatus → Outcome v1alpha2.MachineSetStatus
  /-- The generated `autoConvert_v1alpha2_MachineStatus_To_v1beta1_MachineStatus`. -/
  autoConvert_v1alpha2_MachineStatus_To_v1beta1_MachineStatus :
    v1alpha2.MachineStatus → v1beta1.MachineStatus → Outcome v1beta1.MachineStatus
  /-- The generated `autoConvert_v1beta1_MachineStatus_To_v1alpha2_MachineStatus`. -/
  autoConvert_v1beta1_MachineStatus_To_v1alpha2_MachineStatus :
    v1beta1.MachineStatus → v1alpha2.MachineStatus → Outcome v1alpha2.MachineStatus
  /-- The generated
  `autoConvert_v1alpha2_KubeadmConfigStatus_To_v1beta1_KubeadmConfigStatus`. -/
  autoConvert_v1alpha2_KubeadmConfigStatus_To_v1beta1_KubeadmConfigStatus :
    v1alpha2.KubeadmConfigStatus → v1beta1.KubeadmConfigStatus →
      Outcome v1beta1.KubeadmConfigStatus
  /-- The generated
  `autoConvert_v1beta1_KubeadmConfigStatus_To_v1alpha2_KubeadmConfigStatus`. -/
  autoConvert_v1beta1_KubeadmConfigStatus_To_v1alpha2_KubeadmConfigStatus :
    v1beta1.KubeadmConfigStatus → v1alpha2.KubeadmConfigStatus →
      Outcome v1alpha2.KubeadmConfigStatus

/-- The function `Convert_v1alpha2_ClusterStatus_To_v1beta1_ClusterStatus(in, out, s)`;
`inp` is its argument `in`. -/
def Convert_v1alpha2_ClusterStatus_To_v1beta1_ClusterStatus (X : StatusExt)
    (inp : v1alpha2.ClusterStatus) (out0 : v1beta1.ClusterStatus) :
    Outcome v1beta1.ClusterStatus :=
  match X.autoConvert_v1alpha2_ClusterStatus_To_v1beta1_ClusterStatus inp out0 with
  | ⟨out, some err⟩ => ⟨out, some err⟩
  | ⟨out, none⟩ =>
    -- Manually convert the Error fields to the Failure fields
    ⟨{ out with FailureMessage := inp.ErrorMessage, FailureReason := inp.ErrorReason }, none⟩

/-- The function `Convert_v1beta1_ClusterStatus_To_v1alpha2_ClusterStatus(in, out, s)`. -/
def Convert_v1beta1_ClusterStatus_To_v1alpha2_ClusterStatus (X : StatusExt)
    (inp : v1beta1.ClusterStatus) (out0 : v1alpha2.ClusterStatus) :
    Outcome v1alpha2.ClusterStatus :=
  match X.autoConvert_v1beta1_ClusterStatus_To_v1alpha2_ClusterStatus inp out0 with
  | ⟨out, some err⟩ => ⟨out, some err⟩
  | ⟨out, none⟩ =>
    -- Manually convert the Failure fields to the Error fields
    ⟨{ out with ErrorMessage := inp.FailureMessage, ErrorReason := inp.FailureReason }, none⟩

/-- The function
`Convert_v1alpha2_MachineSetStatus_To_v1beta1_MachineSetStatus(in, out, s)`. -/
def Convert_v1alpha2_MachineSetStatus_To_v1beta1_MachineSetStatus (X : StatusExt)
    (inp : v1alpha2.MachineSetStatus) (out0 : v1beta1.MachineSetStatus) :
    Outcome v1beta1.MachineSetStatus :=
  match X.autoConvert_v1alpha2_MachineSetStatus_To_v1beta1_MachineSetStatus inp out0 with
  | ⟨out, some err⟩ => ⟨out, some err⟩
  | ⟨out, none⟩ =>
    -- Manually convert the Error fields to the Failure fields
    ⟨{ out with FailureMessage := inp.ErrorMessage, FailureReason := inp.ErrorReason }, none⟩

/-- The function
`Convert_v1beta1_MachineSetStatus_To_v1alpha2_MachineSetStatus(in, out, s)`. -/
def Convert_v1beta1_MachineSetStatus_To_v1alpha2_MachineSetStatus (X : StatusExt)
    (inp : v1beta1.MachineSetStatus) (out0 : v1alpha2.MachineSetStatus) :
    Outcome v1alpha2.MachineSetStatus :=
  match X.autoConvert_v1beta1_MachineSetStatus_To_v1alpha2_MachineSetStatus inp out0 with
  | ⟨out, some err⟩ => ⟨out, some err⟩
  | ⟨out, none⟩ =>
    -- Manually convert the Failure fields to the Error fields
    ⟨{ out with ErrorMessage := inp.FailureMessage, ErrorReason := inp.FailureReason }, none⟩

/-- The function `Convert_v1alpha2_MachineStatus_To_v1beta1_MachineStatus(in, out, s)`. -/
def Convert_v1alpha2_MachineStatus_To_v1beta1_MachineStatus (X : StatusExt)
    (inp : v1alpha2.MachineStatus) (out0 : v1beta1.MachineStatus) :
    Outcome v1beta1.MachineStatus :=
  match X.autoConvert_v1alpha2_MachineStatus_To_v1beta1_MachineStatus inp out0 with
  | ⟨out, some err⟩ => ⟨out, some err⟩
  | ⟨out, none⟩ =>
    -- Manually convert the Error fields to the Failure fields
    ⟨{ out with FailureMessage := inp.ErrorMessage, FailureReason := inp.ErrorReason }, none⟩

/-- The function `Convert_v1beta1_MachineStatus_To_v1alpha2_MachineStatus(in, out, s)`. -/
def Convert_v1beta1_MachineStatus_To_v1alpha2_MachineStatus (X : StatusExt)
    (inp : v1beta1.MachineStatus) (out0 : v1alpha2.MachineStatus) :
    Outcome v1alpha2.MachineStatus :=
  match X.autoConvert_v1beta1_MachineStatus_To_v1alpha2_MachineStatus inp out0 with
  | ⟨out, some err⟩ => ⟨out, some err⟩
  | ⟨out, none⟩ =>
    -- Manually convert the Failure fields to the Error fields
    ⟨{ out with ErrorMessage := inp.FailureMessage, ErrorReason := inp.FailureReason }, none⟩

/-- The function
`Convert_v1alpha2_KubeadmConfigStatus_To_v1beta1_KubeadmConfigStatus(in, out, s)`. -/
def Convert_v1alpha2_KubeadmConfigStatus_To_v1beta1_KubeadmConfigStatus (X : StatusExt)
    (inp : v1alpha2.KubeadmConfigStatus) (out0 : v1beta1.KubeadmConfigStatus) :
    Outcome v1beta1.KubeadmConfigStatus :=
  match X.autoConvert_v1alpha2_KubeadmConfigStatus_To_v1beta1_KubeadmConfigStatus inp out0 with
  | ⟨out, some err⟩ => ⟨out, some err⟩
  | ⟨out, none⟩ =>
    -- Manually convert the Error fields to the Failure fields
    ⟨{ out with FailureMessage := inp.ErrorMessage, FailureReason := inp.ErrorReason }, none⟩

/-- The function
`Convert_v1beta1_KubeadmConfigStatus_To_v1alpha2_KubeadmConfigStatus(in, out, s)`. -/
def Convert_v1beta1_KubeadmConfigStatus_To_v1alpha2_KubeadmConfigStatus (X : StatusExt)
    (inp : v1beta1.KubeadmConfigStatus) (out0 : v1alpha2.KubeadmConfigStatus) :
    Outcome v1alpha2.KubeadmConfigStatus :=
  match X.autoConvert_v1beta1_KubeadmConfigStatus_To_v1alpha2_KubeadmConfigStatus inp out0 with
  | ⟨out, some err⟩ => ⟨out, some err⟩
  | ⟨out, none⟩ =>
    -- Manually convert the Failure fields to the Error fields
    ⟨{ out with ErrorMessage := inp.FailureMessage, ErrorReason := inp.FailureReason }, none⟩

/-! ## The relocation step on its own

Step 2 of the up-conversion of spec 4.3, written down separately for each kind
so that the conversions can be compared with "structural copy, then relocation
rules". -/

/-- The relocation rules of the Cluster up-conversion applied to the structural
copy `copied` of `src`: a set `ControlPlaneInitialized` flag is marked as a
condition, and the first entry of `Status.APIEndpoints` becomes the control
plane endpoint. -/
def v1alpha2.Cluster.relocated (K : Consts) (X : ClusterExt) (src : v1alpha2.Cluster)
    (copied : v1beta1.Cluster) : v1beta1.Cluster :=
  let marked : v1beta1.Cluster :=
    if src.Status.ControlPlaneInitialized then
      { copied with Status := { copied.Status with
          Conditions :=
            X.MarkTrue copied.Status.Conditions K.ControlPlaneInitializedCondition } }
    else copied
  match src.Status.APIEndpoints with
  | [] => marked
  | endpoint :: _ =>
    { marked with Spec := { marked.Spec with
        ControlPlaneEndpoint := { Host := endpoint.Host, Port := int32 endpoint.Port } } }

/-- The relocation rules of the Machine up-conversion applied to the structural
copy `copied` of `src`: the exclude-node-draining annotation, when `src` carries
it, is moved to its v1beta1 key; then the cluster-name label, when present, is
promoted to `Spec.ClusterName` and removed from the labels. -/
def v1alpha2.Machine.relocated (K : Consts) (src : v1alpha2.Machine)
    (copied : v1beta1.Machine) : v1beta1.Machine :=
  let renamed : v1beta1.Machine :=
    match GoMap.lookup src.ObjectMeta.Annotations K.ExcludeNodeDrainingAnnotation with
    | some val =>
      { copied with ObjectMeta := { copied.ObjectMeta with
          Annotations := GoMap.move copied.ObjectMeta.Annotations
            K.beta1ExcludeNodeDrainingAnnotation val K.ExcludeNodeDrainingAnnotation } }
    | none => copied
  match GoMap.lookup src.ObjectMeta.Labels K.MachineClusterLabelName with
  | some name =>
    { renamed with
      Spec := { renamed.Spec with ClusterName := name }
      ObjectMeta := { renamed.ObjectMeta with
        Labels := GoMap.delete renamed.ObjectMeta.Labels K.MachineClusterLabelName } }
  | none => renamed

/-- The relocation rules of the MachineSet up-conversion applied to the
structural copy `copied` of `src`: the cluster-name label, when present, is
promoted to both cluster names and removed from the labels; then the
annotation keys of the v1alpha2 table are renamed to those of the v1beta1
table. -/
def v1alpha2.MachineSet.relocated (K : Consts) (src : v1alpha2.MachineSet)
    (copied : v1beta1.MachineSet) : v1beta1.MachineSet :=
  let promoted : v1beta1.MachineSet :=
    match GoMap.lookup src.ObjectMeta.Labels K.MachineClusterLabelName with
    | some name =>
      { copied with
        Spec := { copied.Spec with
          ClusterName := name
          Template := { copied.Spec.Template with
            Spec := { copied.Spec.Template.Spec with ClusterName := name } } }
        ObjectMeta := { copied.ObjectMeta with
          Labels := GoMap.delete copied.ObjectMeta.Labels K.MachineClusterLabelName } }
    | none => copied
  { promoted with ObjectMeta := { promoted.ObjectMeta with
      Annotations := convertAnnotationTable (v2Annotations K) (beta1Annotations K)
        promoted.ObjectMeta.Annotations } }

/-- The relocation rules of the MachineDeployment up-conversion applied to the
structural copy `copied` of `src`: label promotion, then the annotation
renames. -/
def v1alpha2.MachineDeployment.relocated (K : Consts) (src : v1alpha2.MachineDeployment)
    (copied : v1beta1.MachineDeployment) : v1beta1.MachineDeployment :=
  let promoted : v1beta1.MachineDeployment :=
    match GoMap.lookup src.ObjectMeta.Labels K.MachineClusterLabelName with
    | some name =>
      { copied with
        Spec := { copied.Spec with
          ClusterName := name
          Template := { copied.Spec.Template with
            Spec := { copied.Spec.Template.Spec with ClusterName := name } } }
        ObjectMeta := { copied.ObjectMeta with
          Labels := GoMap.delete copied.ObjectMeta.Labels K.MachineClusterLabelName } }
    | none => copied
  { promoted with ObjectMeta := { promoted.ObjectMeta with
      Annotations := convertAnnotationTable (v2Annotations K) (beta1Annotations K)
        promoted.ObjectMeta.Annotations } }

/-- The source object of `Machine.ConvertTo` with the writes the method makes
through `src`, once the structural copy has succeeded: the exclude-node-draining
key is renamed in `src.Annotations`. `UnmarshalData` reads these annotations. -/
def v1alpha2.Machine.sourceAfterConvertTo (K : Consts) (src : v1alpha2.Machine) :
    v1alpha2.Machine :=
  match src.ObjectMeta.Annotations with
  | none => src
  | some annotations =>
    match annotations K.ExcludeNodeDrainingAnnotation with
    | some val =>
      { src with ObjectMeta := { src.ObjectMeta with
          Annotations := some (StrMap.erase
            (StrMap.insert annotations K.beta1ExcludeNodeDrainingAnnotation val)
            K.ExcludeNodeDrainingAnnotation) } }
    | none => src

/-- The source object of `Machine.ConvertFrom` with the writes the method makes
through `src`, once the structural copy has succeeded: the exclude-node-draining
key is renamed in `src.Annotations`. -/
def v1alpha2.Machine.sourceAfterConvertFrom (K : Consts) (src : v1beta1.Machine) :
    v1beta1.Machine :=
  match src.ObjectMeta.Annotations with
  | none => src
  | some annotations =>
    match annotations K.beta1ExcludeNodeDrainingAnnotation with
    | some val =>
      { src with ObjectMeta := { src.ObjectMeta with
          Annotations := some (StrMap.erase
            (StrMap.insert annotations K.ExcludeNodeDrainingAnnotation val)
            K.beta1ExcludeNodeDrainingAnnotation) } }
    | none => src

/-! ## List kinds -/

namespace v1beta1

/-- The hub type `ClusterList`, reduced to its items. -/
structure ClusterList where
  Items : List Cluster := []

/-- The hub type `MachineList`, reduced to its items. -/
structure MachineList where
  Items : List Machine := []

/-- The hub type `MachineSetList`, reduced to its items. -/
structure MachineSetList where
  Items : List MachineSet := []

/-- The hub type `MachineDeploymentList`, reduced to its items. -/
structure MachineDeploymentList where
  Items : List MachineDeployment := []

/-- The hub type `KubeadmConfigList`, reduced to its items. -/
structure KubeadmConfigList where
  Items : List KubeadmConfig := []

/-- The hub type `KubeadmConfigTemplateList`, reduced to its items. -/
structure KubeadmConfigTemplateList where
  Items : List KubeadmConfigTemplate := []

end v1beta1

namespace v1alpha2

/-- The spoke type `ClusterList`, reduced to its items. -/
structure ClusterList where
  Items : List Cluster := []

/-- The spoke type `MachineList`, reduced to its items. -/
structure MachineList where
  Items : List Machine := []

/-- The spoke type `MachineSetList`, reduced to its items. -/
structure MachineSetList where
  Items : List MachineSet := []

/-- The spoke type `MachineDeploymentList`, reduced to its items. -/
structure MachineDeploymentList where
  Items : List MachineDeployment := []

/-- The spoke type `KubeadmConfigList`, reduced to its items. -/
structure KubeadmConfigList where
  Items : List KubeadmConfig := []

/-- The spoke type `KubeadmConfigTemplateList`, reduced to its items. -/
structure KubeadmConfigTemplateList where
  Items : List KubeadmConfigTemplate := []

end v1alpha2

/-- The generated list copiers, which live outside the translated files; the
conversion scope argument is left out. -/
structure ListExt where
  /-- The generated copier
  `Convert_v1alpha2_ClusterList_To_v1beta1_ClusterList(src, dst, nil)`. -/
  Convert_v1alpha2_ClusterList_To_v1beta1_ClusterList :
    v1alpha2.ClusterList → v1beta1.ClusterList → Outcome v1beta1.ClusterList
  /-- The generated copier
  `Convert_v1beta1_ClusterList_To_v1alpha2_ClusterList(src, dst, nil)`. -/
  Convert_v1beta1_ClusterList_To_v1alpha2_ClusterList :
    v1beta1.ClusterList → v1alpha2.ClusterList → Outcome v1alpha2.ClusterList
  /-- The generated copier
  `Convert_v1alpha2_MachineList_To_v1beta1_MachineList(src, dst, nil)`. -/
  Convert_v1alpha2_MachineList_To_v1beta1_MachineList :
    v1alpha2.MachineList → v1beta1.MachineList → Outcome v1beta1.MachineList
  /-- The generated copier
  `Convert_v1beta1_MachineList_To_v1alpha2_MachineList(src, dst, nil)`. -/
  Convert_v1beta1_MachineList_To_v1alpha2_MachineList :
    v1beta1.MachineList → v1alpha2.MachineList → Outcome v1alpha2.MachineList
  /-- The generated copier
  `Convert_v1alpha2_MachineSetList_To_v1beta1_MachineSetList(src, dst, nil)`. -/
  Convert_v1alpha2_MachineSetList_To_v1beta1_MachineSetList :
    v1alpha2.MachineSetList → v1beta1.MachineSetList → Outcome v1beta1.MachineSetList
  /-- The generated copier
  `Convert_v1beta1_MachineSetList_To_v1alpha2_MachineSetList(src, dst, nil)`. -/
  Convert_v1beta1_MachineSetList_To_v1alpha2_MachineSetList :
    v1beta1.MachineSetList → v1alpha2.MachineSetList → Outcome v1alpha2.MachineSetList
  /-- The generated copier
  `Convert_v1alpha2_MachineDeploymentList_To_v1beta1_MachineDeploymentList(src, dst, nil)`. -/
  Convert_v1alpha2_MachineDeploymentList_To_v1beta1_MachineDeploymentList :
    v1alpha2.MachineDeploymentList → v1beta1.MachineDeploymentList → Outcome v1beta1.MachineDeploymentList
  /-- The generated copier
  `Convert_v1beta1_MachineDeploymentList_To_v1alpha2_MachineDeploymentList(src, dst, nil)`. -/
  Convert_v1beta1_MachineDeploymentList_To_v1alpha2_MachineDeploymentList :
    v1beta1.MachineDeploymentList → v1alpha2.MachineDeploymentList → Outcome v1alpha2.MachineDeploymentList
  /-- The generated copier
  `Convert_v1alpha2_KubeadmConfigList_To_v1beta1_KubeadmConfigList(src, dst, nil)`. -/
  Convert_v1alpha2_KubeadmConfigList_To_v1beta1_KubeadmConfigList :
    v1alpha2.KubeadmConfigList → v1beta1.KubeadmConfigList → Outcome v1beta1.KubeadmConfigList
  /-- The generated copier
  `Convert_v1beta1_KubeadmConfigList_To_v1alpha2_KubeadmConfigList(src, dst, nil)`. -/
  Convert_v1beta1_KubeadmConfigList_To_v1alpha2_KubeadmConfigList :
    v1beta1.KubeadmConfigList → v1alpha2.KubeadmConfigList → Outcome v1alpha2.KubeadmConfigList
  /-- The generated copier
  `Convert_v1alpha2_KubeadmConfigTemplateList_To_v1beta1_KubeadmConfigTemplateList(src, dst, nil)`. -/
  Convert_v1alpha2_KubeadmConfigTemplateList_To_v1beta1_KubeadmConfigTemplateList :
    v1alpha2.KubeadmConfigTemplateList → v1beta1.KubeadmConfigTemplateList → Outcome v1beta1.KubeadmConfigTemplateList
  /-- The generated copier
  `Convert_v1beta1_KubeadmConfigTemplateList_To_v1alpha2_KubeadmConfigTemplateList(src, dst, nil)`. -/
  Convert_v1beta1_KubeadmConfigTemplateList_To_v1alpha2_KubeadmConfigTemplateList :
    v1beta1.KubeadmConfigTemplateList → v1alpha2.KubeadmConfigTemplateList → Outcome v1alpha2.KubeadmConfigTemplateList

/-- The method `(src *ClusterList) ConvertTo(dstRaw conversion.Hub) error`. -/
def v1alpha2.ClusterList.ConvertTo (X : ListExt)
    (src : v1alpha2.ClusterList) (dstRaw : v1beta1.ClusterList) :
    Outcome v1beta1.ClusterList :=
  X.Convert_v1alpha2_ClusterList_To_v1beta1_ClusterList src dstRaw

/-- The method `(dst *ClusterList) ConvertFrom(srcRaw conversion.Hub) error`. -/
def v1alpha2.ClusterList.ConvertFrom (X : ListExt)
    (dst : v1alpha2.ClusterList) (srcRaw : v1beta1.ClusterList) :
    Outcome v1alpha2.ClusterList :=
  X.Convert_v1beta1_ClusterList_To_v1alpha2_ClusterList srcRaw dst

/-- The method `(src *MachineList) ConvertTo(dstRaw conversion.Hub) error`. -/
def v1alpha2.MachineList.ConvertTo (X : ListExt)
    (src : v1alpha2.MachineList) (dstRaw : v1beta1.MachineList) :
    Outcome v1beta1.MachineList :=
  X.Convert_v1alpha2_MachineList_To_v1beta1_MachineList src dstRaw

/-- The method `(dst *MachineList) ConvertFrom(srcRaw conversion.Hub) error`. -/
def v1alpha2.MachineList.ConvertFrom (X : ListExt)
    (dst : v1alpha2.MachineList) (srcRaw : v1beta1.MachineList) :
    Outcome v1alpha2.MachineList :=
  X.Convert_v1beta1_MachineList_To_v1alpha2_MachineList srcRaw dst

/-- The method `(src *MachineSetList) ConvertTo(dstRaw conversion.Hub) error`. -/
def v1alpha2.MachineSetList.ConvertTo (X : ListExt)
    (src : v1alpha2.MachineSetList) (dstRaw : v1beta1.MachineSetList) :
    Outcome v1beta1.MachineSetList :=
  X.Convert_v1alpha2_MachineSetList_To_v1beta1_MachineSetList src dstRaw

/-- The method `(dst *MachineSetList) ConvertFrom(srcRaw conversion.Hub) error`. -/
def v1alpha2.MachineSetList.ConvertFrom (X : ListExt)
    (dst : v1alpha2.MachineSetList) (srcRaw : v1beta1.MachineSetList) :
    Outcome v1alpha2.MachineSetList :=
  X.Convert_v1beta1_MachineSetList_To_v1alpha2_MachineSetList srcRaw dst

/-- The method `(src *MachineDeploymentList) ConvertTo(dstRaw conversion.Hub) error`. -/
def v1alpha2.MachineDeploymentList.ConvertTo (X : ListExt)
    (src : v1alpha2.MachineDeploymentList) (dstRaw : v1beta1.MachineDeploymentList) :
    Outcome v1beta1.MachineDeploymentList :=
  X.Convert_v1alpha2_MachineDeploymentList_To_v1beta1_MachineDeploymentList src dstRaw

/-- The method `(dst *MachineDeploymentList) ConvertFrom(srcRaw conversion.Hub) error`. -/
def v1alpha2.MachineDeploymentList.ConvertFrom (X : ListExt)
    (dst : v1alpha2.MachineDeploymentList) (srcRaw : v1beta1.MachineDeploymentList) :
    Outcome v1alpha2.MachineDeploymentList :=
  X.Convert_v1beta1_MachineDeploymentList_To_v1alpha2_MachineDeploymentList srcRaw dst

/-- The method `(src *KubeadmConfigList) ConvertTo(dstRaw conversion.Hub) error`. -/
def v1alpha2.KubeadmConfigList.ConvertTo (X : ListExt)
    (src : v1alpha2.KubeadmConfigList) (dstRaw : v1beta1.KubeadmConfigList) :
    Outcome v1beta1.KubeadmConfigList :=
  X.Convert_v1alpha2_KubeadmConfigList_To_v1beta1_KubeadmConfigList src dstRaw

/-- The method `(dst *KubeadmConfigList) ConvertFrom(srcRaw conversion.Hub) error`. -/
def v1alpha2.KubeadmConfigList.ConvertFrom (X : ListExt)
    (dst : v1alpha2.KubeadmConfigList) (srcRaw : v1beta1.KubeadmConfigList) :
    Outcome v1alpha2.KubeadmConfigList :=
  X.Convert_v1beta1_KubeadmConfigList_To_v1alpha2_KubeadmConfigList srcRaw dst

/-- The method `(src *KubeadmConfigTemplateList) ConvertTo(dstRaw conversion.Hub) error`. -/
def v1alpha2.KubeadmConfigTemplateList.ConvertTo (X : ListExt)
    (src : v1alpha2.KubeadmConfigTemplateList) (dstRaw : v1beta1.KubeadmConfigTemplateList) :
    Outcome v1beta1.KubeadmConfigTemplateList :=
  X.Convert_v1alpha2_KubeadmConfigTemplateList_To_v1beta1_KubeadmConfigTemplateList src dstRaw

/-- The method `(dst *KubeadmConfigTemplateList) ConvertFrom(srcRaw conversion.Hub) error`. -/
def v1alpha2.KubeadmConfigTemplateList.ConvertFrom (X : ListExt)
    (dst : v1alpha2.KubeadmConfigTemplateList) (srcRaw : v1beta1.KubeadmConfigTemplateList) :
    Outcome v1alpha2.KubeadmConfigTemplateList :=
  X.Convert_v1beta1_KubeadmConfigTemplateList_To_v1alpha2_KubeadmConfigTemplateList srcRaw dst

/-! ## Rules and round trips the later theorems refer to -/

/-- The cluster-name rule in the words of the specification: the stashed name
if a stash is present and its name is non-empty, otherwise the value of the
cluster-name label if the label is present, otherwise the value the structural
copier left. `stashed` is `none` when there is no stash. -/
def clusterNameRule (stashed : Option String) (label : Option String) (copied : String) :
    String :=
  match stashed with
  | some name => if name ≠ "" then name else label.getD copied
  | none => label.getD copied

/-- The round trip of a spoke Cluster: `ConvertTo` into a fresh hub object, then
`ConvertFrom` of that hub object into a fresh spoke object. -/
def v1alpha2.Cluster.spokeRoundTrip (K : Consts) (X : ClusterExt) (S : v1alpha2.Cluster) :
    Outcome v1alpha2.Cluster :=
  v1alpha2.Cluster.ConvertFrom K X {} (v1alpha2.Cluster.ConvertTo K X S {}).dst

/-- The round trip `ConvertFrom` into `d0`, then `ConvertTo` of the spoke object
into a fresh hub object, for a KubeadmConfigTemplate. -/
def v1alpha2.KubeadmConfigTemplate.roundTrip (K : Consts) (X : KubeadmConfigTemplateExt)
    (d0 : v1alpha2.KubeadmConfigTemplate) (H : v1beta1.KubeadmConfigTemplate) :
    Outcome v1beta1.KubeadmConfigTemplate :=
  v1alpha2.KubeadmConfigTemplate.ConvertTo K X
    (v1alpha2.KubeadmConfigTemplate.ConvertFrom K X d0 H).dst {}

/-! ## A reference instance of the collaborators

The copiers assign the fields both versions share, as `conversion-gen` emits
them; the codec knows one snapshot. They serve to run the conversions on concrete
objects. -/

namespace Sample

/-- Concrete, pairwise distinct values for the constants. -/
def consts : Consts where
  RevisionAnnotation := "machinedeployment.clusters.k8s.io/revision"
  RevisionHistoryAnnotation := "machinedeployment.clusters.k8s.io/revision-history"
  DesiredReplicasAnnotation := "machinedeployment.clusters.k8s.io/desired-replicas"
  MaxReplicasAnnotation := "machinedeployment.clusters.k8s.io/max-replicas"
  beta1RevisionAnnotation := "machinedeployment.clusters.x-k8s.io/revision"
  beta1RevisionHistoryAnnotation := "machinedeployment.clusters.x-k8s.io/revision-history"
  beta1DesiredReplicasAnnotation := "machinedeployment.clusters.x-k8s.io/desired-replicas"
  beta1MaxReplicasAnnotation := "machinedeployment.clusters.x-k8s.io/max-replicas"
  ExcludeNodeDrainingAnnotation := "machine.cluster.k8s.io/exclude-node-draining"
  beta1ExcludeNodeDrainingAnnotation := "machine.cluster.x-k8s.io/exclude-node-draining"
  MachineClusterLabelName := "cluster.k8s.io/cluster-name"
  ControlPlaneInitializedCondition := "ControlPlaneInitialized"
  DataAnnotation := "cluster.x-k8s.io/conversion-data"

/-- The text the sample codecs write for their snapshot. -/
def blob : String := "snapshot"

/-- Cluster collaborators whose codec stores and returns `stash` (without its
metadata). -/
def clusterExt (stash : v1beta1.Cluster) : ClusterExt where
  Convert_v1alpha2_Cluster_To_v1beta1_Cluster := fun src dst =>
    ⟨{ dst with
        ObjectMeta := src.ObjectMeta
        Spec := { dst.Spec with InfrastructureRef := src.Spec.InfrastructureRef }
        Status := { dst.Status with
          Phase := src.Status.Phase
          InfrastructureReady := src.Status.InfrastructureReady
          FailureReason := src.Status.ErrorReason
          FailureMessage := src.Status.ErrorMessage } }, none⟩
  Convert_v1beta1_Cluster_To_v1alpha2_Cluster := fun src dst =>
    ⟨{ dst with
        ObjectMeta := src.ObjectMeta
        Spec := { dst.Spec with InfrastructureRef := src.Spec.InfrastructureRef }
        Status := { dst.Status with
          Phase := src.Status.Phase
          InfrastructureReady := src.Status.InfrastructureReady
          ErrorReason := src.Status.FailureReason
          ErrorMessage := src.Status.FailureMessage } }, none⟩
  MarkTrue := fun cs t =>
    { CondType := t, Status := "True" } :: cs.filter (fun c => c.CondType != t)
  IsTrue := fun cs t => cs.any (fun c => c.CondType == t && c.Status == "True")
  IsZero := fun ep => ep.Host == "" && ep.Port == 0
  Persist := fun _ => .ok blob
  Recall := fun b =>
    if b = blob then .ok { stash with ObjectMeta := {} } else .error "invalid character"

/-- The hub Cluster of the test `preserves fields from hub version`, with an endpoint. -/
def hubCluster : v1beta1.Cluster where
  ObjectMeta := { Name := "hub" }
  Spec := { ControlPlaneRef := some { Name := "controlplane-1" }
            ControlPlaneEndpoint := { Host := "example.com", Port := 6443 } }
  Status := { ControlPlaneReady := true }

/-- The reference copy of the fields a spoke MachineSpec shares with the hub. -/
def machineSpecUp (src : v1alpha2.MachineSpec) (dst : v1beta1.MachineSpec) :
    v1beta1.MachineSpec :=
  { dst with
    Bootstrap := { dst.Bootstrap with ConfigRef := src.Bootstrap.ConfigRef }
    InfrastructureRef := src.InfrastructureRef
    Version := src.Version
    ProviderID := src.ProviderID }

/-- The reference copy of the fields a hub MachineSpec shares with the spoke. -/
def machineSpecDown (src : v1beta1.MachineSpec) (dst : v1alpha2.MachineSpec) :
    v1alpha2.MachineSpec :=
  { dst with
    Bootstrap := { dst.Bootstrap with ConfigRef := src.Bootstrap.ConfigRef }
    InfrastructureRef := src.InfrastructureRef
    Version := src.Version
    ProviderID := src.ProviderID }

/-- Machine collaborators whose codec stores and returns `stash` (without its
metadata). -/
def machineExt (stash : v1beta1.Machine) : MachineExt where
  Convert_v1alpha2_Machine_To_v1beta1_Machine := fun src dst =>
    ⟨{ dst with
        ObjectMeta := src.ObjectMeta
        Spec := machineSpecUp src.Spec dst.Spec
        Status := { dst.Status with
          NodeRef := src.Status.NodeRef
          Phase := src.Status.Phase
          BootstrapReady := src.Status.BootstrapReady
          InfrastructureReady := src.Status.InfrastructureReady
          FailureReason := src.Status.ErrorReason
          FailureMessage := src.Status.ErrorMessage } }, none⟩
  Convert_v1beta1_Machine_To_v1alpha2_Machine := fun src dst =>
    ⟨{ dst with
        ObjectMeta := src.ObjectMeta
        Spec := machineSpecDown src.Spec dst.Spec
        Status := { dst.Status with
          NodeRef := src.Status.NodeRef
          Phase := src.Status.Phase
          BootstrapReady := src.Status.BootstrapReady
          InfrastructureReady := src.Status.InfrastructureReady
          ErrorReason := src.Status.FailureReason
          ErrorMessage := src.Status.FailureMessage } }, none⟩
  Persist := fun _ => .ok blob
  Recall := fun b =>
    if b = blob then .ok { stash with ObjectMeta := {} } else .error "invalid character"

/-- MachineSet collaborators whose codec stores and returns `stash` (without its
metadata). -/
def machineSetExt (stash : v1beta1.MachineSet) : MachineSetExt where
  Convert_v1alpha2_MachineSet_To_v1beta1_MachineSet := fun src dst =>
    ⟨{ dst with
        ObjectMeta := src.ObjectMeta
        Spec := { dst.Spec with
          Replicas := src.Spec.Replicas
          MinReadySeconds := src.Spec.MinReadySeconds
          DeletePolicy := src.Spec.DeletePolicy
          Template := { ObjectMeta := src.Spec.Template.ObjectMeta
                        Spec := machineSpecUp src.Spec.Template.Spec dst.Spec.Template.Spec } }
        Status := { dst.Status with
          Replicas := src.Status.Replicas
          ObservedGeneration := src.Status.ObservedGeneration
          FailureReason := src.Status.ErrorReason
          FailureMessage := src.Status.ErrorMessage } }, none⟩
  Convert_v1beta1_MachineSet_To_v1alpha2_MachineSet := fun src dst =>
    ⟨{ dst with
        ObjectMeta := src.ObjectMeta
        Spec := { dst.Spec with
          Replicas := src.Spec.Replicas
          MinReadySeconds := src.Spec.MinReadySeconds
          DeletePolicy := src.Spec.DeletePolicy
          Template := { ObjectMeta := src.Spec.Template.ObjectMeta
                        Spec := machineSpecDown src.Spec.Template.Spec dst.Spec.Template.Spec } }
        Status := { dst.Status with
          Replicas := src.Status.Replicas
          ObservedGeneration := src.Status.ObservedGeneration
          ErrorReason := src.Status.FailureReason
          ErrorMessage := src.Status.FailureMessage } }, none⟩
  Persist := fun _ => .ok blob
  Recall := fun b =>
    if b = blob then .ok { stash with ObjectMeta := {} } else .error "invalid character"

/-- The reference copy of a spoke deployment strategy onto the hub one. -/
def strategyUp (src : Option v1alpha2.MachineDeploymentStrategy) :
    Option v1beta1.MachineDeploymentStrategy :=
  src.map fun st =>
    { StrategyType := st.StrategyType
      RollingUpdate := st.RollingUpdate.map fun ru =>
        { MaxUnavailable := ru.MaxUnavailable, MaxSurge := ru.MaxSurge } }

/-- The reference copy of a hub deployment strategy onto the spoke one. -/
def strategyDown (src : Option v1beta1.MachineDeploymentStrategy) :
    Option v1alpha2.MachineDeploymentStrategy :=
  src.map fun st =>
    { StrategyType := st.StrategyType
      RollingUpdate := st.RollingUpdate.map fun ru =>
        { MaxUnavailable := ru.MaxUnavailable, MaxSurge := ru.MaxSurge } }

/-- MachineDeployment collaborators whose codec stores and returns `stash`
(without its metadata). -/
def machineDeploymentExt (stash : v1beta1.MachineDeployment) : MachineDeploymentExt where
  Convert_v1alpha2_MachineDeployment_To_v1beta1_MachineDeployment := fun src dst =>
    ⟨{ dst with
        ObjectMeta := src.ObjectMeta
        Spec := { dst.Spec with
          Replicas := src.Spec.Replicas
          Template := { ObjectMeta := src.Spec.Template.ObjectMeta
                        Spec := machineSpecUp src.Spec.Template.Spec dst.Spec.Template.Spec }
          Strategy := strategyUp src.Spec.Strategy
          Paused := src.Spec.Paused }
        Status := { dst.Status with
          ObservedGeneration := src.Status.ObservedGeneration
          Replicas := src.Status.Replicas } }, none⟩
  Convert_v1beta1_MachineDeployment_To_v1alpha2_MachineDeployment := fun src dst =>
    ⟨{ dst with
        ObjectMeta := src.ObjectMeta
        Spec := { dst.Spec with
          Replicas := src.Spec.Replicas
          Template := { ObjectMeta := src.Spec.Template.ObjectMeta
                        Spec := machineSpecDown src.Spec.Template.Spec dst.Spec.Template.Spec }
          Strategy := strategyDown src.Spec.Strategy
          Paused := src.Spec.Paused }
        Status := { dst.Status with
          ObservedGeneration := src.Status.ObservedGeneration
          Replicas := src.Status.Replicas } }, none⟩
  Persist := fun _ => .ok blob
  Recall := fun b =>
    if b = blob then .ok { stash with ObjectMeta := {} } else .error "invalid character"

/-- The hub Machine of the test `preserves fields from hub version`. -/
def hubMachine : v1beta1.Machine where
  ObjectMeta := { Name := "hub" }
  Spec := { ClusterName := "test-cluster"
            Bootstrap := { DataSecretName := some "secret-data" }
            FailureDomain := some "my failure domain" }

/-- A hub Machine without a cluster name in its spec that carries the
cluster-name label. -/
def labelledMachine : v1beta1.Machine where
  ObjectMeta := { Name := "hub"
                  Labels := some (StrMap.ofList [(consts.MachineClusterLabelName, "test-cluster")]) }
  Spec := { ClusterName := "" }

/-- The hub MachineSet of the test `preserves field from hub version`. -/
def hubMachineSet : v1beta1.MachineSet where
  ObjectMeta := { Name := "hub" }
  Spec := { ClusterName := "test-cluster"
            Template := { Spec := { ClusterName := "test-cluster" } } }

/-- A hub MachineSet with a cluster name whose template has none. -/
def bareTemplateMachineSet : v1beta1.MachineSet where
  ObjectMeta := { Name := "hub" }
  Spec := { ClusterName := "test-cluster"
            Template := { Spec := { ClusterName := "" } } }

/-- The hub MachineDeployment of the test `preserves fields from hub version`,
with a rolling-update strategy. -/
def hubMachineDeployment : v1beta1.MachineDeployment where
  ObjectMeta := { Name := "hub" }
  Spec := { ClusterName := "test-cluster"
            Paused := true
            Template := { Spec := { ClusterName := "test-cluster" } }
            Strategy := some { StrategyType := "RollingUpdate"
                               RollingUpdate := some { DeletePolicy := some "Oldest" } } }
  Status := { Phase := "Running" }

/-- A hub MachineDeployment with a cluster name whose template has none. -/
def bareTemplateMachineDeployment : v1beta1.MachineDeployment where
  ObjectMeta := { Name := "hub" }
  Spec := { ClusterName := "test-cluster"
            Template := { Spec := { ClusterName := "" } } }

/-- The spoke MachineDeployment of the test `should convert the annotations`. -/
def annotatedMachineDeployment : v1alpha2.MachineDeployment where
  ObjectMeta := { Annotations := some (StrMap.ofList
    [ (consts.RevisionAnnotation, "test"), (consts.RevisionHistoryAnnotation, "test"),
      (consts.DesiredReplicasAnnotation, "test"), (consts.MaxReplicasAnnotation, "test")]) }

/-- The spoke MachineSet of the test `should convert the Spec.ClusterName from
label`. -/
def labelledSpokeMachineSet : v1alpha2.MachineSet where
  ObjectMeta := { Labels := some (StrMap.ofList
    [(consts.MachineClusterLabelName, "test-cluster")]) }

/-- The reference copy of a spoke file onto a hub file. -/
def fileUp (f : v1alpha2.File) : v1beta1.File :=
  { Path := f.Path, Owner := f.Owner, Permissions := f.Permissions, Encoding := f.Encoding,
    Content := f.Content }

/-- The reference copy of a hub file onto a spoke file; `ContentFrom` has no
counterpart. -/
def fileDown (f : v1beta1.File) : v1alpha2.File :=
  { Path := f.Path, Owner := f.Owner, Permissions := f.Permissions, Encoding := f.Encoding,
    Content := f.Content }

/-- KubeadmConfig collaborators whose codec stores and returns `stash` (without
its metadata). -/
def kubeadmConfigExt (stash : v1beta1.KubeadmConfig) : KubeadmConfigExt where
  Convert_v1alpha2_KubeadmConfig_To_v1beta1_KubeadmConfig := fun src dst =>
    ⟨{ dst with
        ObjectMeta := src.ObjectMeta
        Spec := { dst.Spec with
          InitConfiguration := src.Spec.InitConfiguration.map fun c =>
            { NodeRegistration :=
                { Name := c.NodeRegistration.Name, CRISocket := c.NodeRegistration.CRISocket } }
          JoinConfiguration := src.Spec.JoinConfiguration.map fun c =>
            { NodeRegistration :=
                { Name := c.NodeRegistration.Name, CRISocket := c.NodeRegistration.CRISocket }
              CACertPath := c.CACertPath }
          Files := src.Spec.Files.map fileUp
          PreKubeadmCommands := src.Spec.PreKubeadmCommands
          PostKubeadmCommands := src.Spec.PostKubeadmCommands }
        Status := { dst.Status with
          Ready := src.Status.Ready
          FailureReason := src.Status.ErrorReason
          FailureMessage := src.Status.ErrorMessage } }, none⟩
  Convert_v1beta1_KubeadmConfig_To_v1alpha2_KubeadmConfig := fun src dst =>
    ⟨{ dst with
        ObjectMeta := src.ObjectMeta
        Spec := { dst.Spec with
          InitConfiguration := src.Spec.InitConfiguration.map fun c =>
            { NodeRegistration :=
                { Name := c.NodeRegistration.Name, CRISocket := c.NodeRegistration.CRISocket } }
          JoinConfiguration := src.Spec.JoinConfiguration.map fun c =>
            { NodeRegistration :=
                { Name := c.NodeRegistration.Name, CRISocket := c.NodeRegistration.CRISocket }
              CACertPath := c.CACertPath }
          Files := src.Spec.Files.map fileDown
          PreKubeadmCommands := src.Spec.PreKubeadmCommands
          PostKubeadmCommands := src.Spec.PostKubeadmCommands }
        Status := { dst.Status with
          Ready := src.Status.Ready
          ErrorReason := src.Status.FailureReason
          ErrorMessage := src.Status.FailureMessage } }, none⟩
  Persist := fun _ => .ok blob
  Recall := fun b =>
    if b = blob then .ok { stash with ObjectMeta := {} } else .error "invalid character"

/-- A hub KubeadmConfig with one inline file and one file whose content comes
from a secret. -/
def hubKubeadmConfig : v1beta1.KubeadmConfig where
  ObjectMeta := { Name := "hub" }
  Spec := { Files :=
              [ { Path := "/etc/motd", Content := "hello" },
                { Path := "/etc/token",
                  ContentFrom := some { Secret := { Name := "token", Key := "value" } } } ]
            Verbosity := some 4
            UseExperimentalRetryJoin := true
            Mounts := [["LABEL=data", "/var/lib/data"]] }
  Status := { DataSecretName := some "bootstrap-data", ObservedGeneration := 3 }

/-- The reference copy of a spoke KubeadmConfigSpec onto a hub one. -/
def kubeadmConfigSpecUp (src : v1alpha2.KubeadmConfigSpec) (dst : v1beta1.KubeadmConfigSpec) :
    v1beta1.KubeadmConfigSpec :=
  { dst with
    InitConfiguration := src.InitConfiguration.map fun c =>
      { NodeRegistration :=
          { Name := c.NodeRegistration.Name, CRISocket := c.NodeRegistration.CRISocket } }
    JoinConfiguration := src.JoinConfiguration.map fun c =>
      { NodeRegistration :=
          { Name := c.NodeRegistration.Name, CRISocket := c.NodeRegistration.CRISocket }
        CACertPath := c.CACertPath }
    Files := src.Files.map fileUp
    PreKubeadmCommands := src.PreKubeadmCommands
    PostKubeadmCommands := src.PostKubeadmCommands }

/-- The reference copy of a hub KubeadmConfigSpec onto a spoke one. -/
def kubeadmConfigSpecDown (src : v1beta1.KubeadmConfigSpec) (dst : v1alpha2.KubeadmConfigSpec) :
    v1alpha2.KubeadmConfigSpec :=
  { dst with
    InitConfiguration := src.InitConfiguration.map fun c =>
      { NodeRegistration :=
          { Name := c.NodeRegistration.Name, CRISocket := c.NodeRegistration.CRISocket } }
    JoinConfiguration := src.JoinConfiguration.map fun c =>
      { NodeRegistration :=
          { Name := c.NodeRegistration.Name, CRISocket := c.NodeRegistration.CRISocket }
        CACertPath := c.CACertPath }
    Files := src.Files.map fileDown
    PreKubeadmCommands := src.PreKubeadmCommands
    PostKubeadmCommands := src.PostKubeadmCommands }

/-- KubeadmConfigTemplate collaborators whose codec stores and returns `stash`
(without its metadata). -/
def kubeadmConfigTemplateExt (stash : v1beta1.KubeadmConfigTemplate) :
    KubeadmConfigTemplateExt where
  Convert_v1alpha2_KubeadmConfigTemplate_To_v1beta1_KubeadmConfigTemplate := fun src dst =>
    ⟨{ dst with
        ObjectMeta := src.ObjectMeta
        Spec := { Template :=
          { Spec := kubeadmConfigSpecUp src.Spec.Template.Spec dst.Spec.Template.Spec } } },
      none⟩
  Convert_v1beta1_KubeadmConfigTemplate_To_v1alpha2_KubeadmConfigTemplate := fun src dst =>
    ⟨{ dst with
        ObjectMeta := src.ObjectMeta
        Spec := { Template :=
          { Spec := kubeadmConfigSpecDown src.Spec.Template.Spec dst.Spec.Template.Spec } } },
      none⟩
  Persist := fun _ => .ok blob
  Recall := fun b =>
    if b = blob then .ok { stash with ObjectMeta := {} } else .error "invalid character"

/-- KubeadmConfig collaborators whose down-copier reports an error and leaves
the destination as it was. -/
def failingKubeadmConfigExt : KubeadmConfigExt where
  Convert_v1alpha2_KubeadmConfig_To_v1beta1_KubeadmConfig :=
    (kubeadmConfigExt {}).Convert_v1alpha2_KubeadmConfig_To_v1beta1_KubeadmConfig
  Convert_v1beta1_KubeadmConfig_To_v1alpha2_KubeadmConfig := fun _ dst =>
    ⟨dst, some "conversion failed"⟩
  Persist := fun _ => .ok blob
  Recall := (kubeadmConfigExt {}).Recall

/-- The generated status copiers: they assign the fields of the same name and
leave the error and failure fields to the hand-written code. -/
def statusExt : StatusExt where
  autoConvert_v1alpha2_ClusterStatus_To_v1beta1_ClusterStatus := fun inp out =>
    ⟨{ out with Phase := inp.Phase, InfrastructureReady := inp.InfrastructureReady }, none⟩
  autoConvert_v1beta1_ClusterStatus_To_v1alpha2_ClusterStatus := fun inp out =>
    ⟨{ out with Phase := inp.Phase, InfrastructureReady := inp.InfrastructureReady }, none⟩
  autoConvert_v1alpha2_MachineSetStatus_To_v1beta1_MachineSetStatus := fun inp out =>
    ⟨{ out with Replicas := inp.Replicas, ObservedGeneration := inp.ObservedGeneration }, none⟩
  autoConvert_v1beta1_MachineSetStatus_To_v1alpha2_MachineSetStatus := fun inp out =>
    ⟨{ out with Replicas := inp.Replicas, ObservedGeneration := inp.ObservedGeneration }, none⟩
  autoConvert_v1alpha2_MachineStatus_To_v1beta1_MachineStatus := fun inp out =>
    ⟨{ out with
        NodeRef := inp.NodeRef, Phase := inp.Phase, BootstrapReady := inp.BootstrapReady,
        InfrastructureReady := inp.InfrastructureReady }, none⟩
  autoConvert_v1beta1_MachineStatus_To_v1alpha2_MachineStatus := fun inp out =>
    ⟨{ out with
        NodeRef := inp.NodeRef, Phase := inp.Phase, BootstrapReady := inp.BootstrapReady,
        InfrastructureReady := inp.InfrastructureReady }, none⟩
  autoConvert_v1alpha2_KubeadmConfigStatus_To_v1beta1_KubeadmConfigStatus := fun inp out =>
    ⟨{ out with Ready := inp.Ready }, none⟩
  autoConvert_v1beta1_KubeadmConfigStatus_To_v1alpha2_KubeadmConfigStatus := fun inp out =>
    ⟨{ out with Ready := inp.Ready }, none⟩

/-- The spoke Cluster of the test `should convert the first value in
Status.APIEndpoints to Spec.ControlPlaneEndpoint`: created at the spoke version,
it carries no stash. -/
def nativeCluster : v1alpha2.Cluster where
  Status := { APIEndpoints := [{ Host := "example.com", Port := 6443 }] }

/-- The same spoke Cluster with a stash entry that does not parse. -/
def corruptCluster : v1alpha2.Cluster where
  ObjectMeta := { Annotations := some (StrMap.ofList [(consts.DataAnnotation, "not json")]) }
  Status := { APIEndpoints := [{ Host := "example.com", Port := 6443 }] }

/-- A hub KubeadmConfig with one inline file, as it was when it was stashed. -/
def stashedKubeadmConfig : v1beta1.KubeadmConfig where
  Spec := { Files := [{ Path := "/etc/motd", Content := "stashed" }] }

/-- The spoke object made from `stashedKubeadmConfig` after its file has been
edited at the spoke version: the stash entry is still the old snapshot. -/
def editedKubeadmConfig : v1alpha2.KubeadmConfig where
  ObjectMeta := { Annotations := some (StrMap.ofList [(consts.DataAnnotation, blob)]) }
  Spec := { Files := [{ Path := "/etc/motd", Content := "live" }] }

/-- A spoke Machine that carries the v1alpha2 exclude-node-draining annotation. -/
def undrainedMachine : v1alpha2.Machine where
  ObjectMeta :=
    { Annotations := some (StrMap.ofList [(consts.ExcludeNodeDrainingAnnotation, "true")]) }

/-- A hub Machine that carries the v1beta1 exclude-node-draining annotation. -/
def undrainedHubMachine : v1beta1.Machine where
  ObjectMeta :=
    { Annotations :=
        some (StrMap.ofList [(consts.beta1ExcludeNodeDrainingAnnotation, "true")]) }
  Spec := { ClusterName := "test-cluster" }

/-- A spoke MachineDeployment without a strategy that carries a stash entry. -/
def stashOnlyMachineDeployment : v1alpha2.MachineDeployment where
  ObjectMeta :=
    { Annotations := some (StrMap.ofList [(consts.DataAnnotation, blob)]) }

/-- The generated list copiers: the items are copied one by one with the
generated copier of their kind into fresh objects, and an error of an item is
the error of the list. -/
def copyItems {α β : Type} (copy : α → Outcome β) (items : List α) : Outcome (List β) :=
  ⟨items.map fun a => (copy a).dst, items.findSome? fun a => (copy a).err⟩

/-- List collaborators built from the item copiers of this section. -/
def listExt : ListExt where
  Convert_v1alpha2_ClusterList_To_v1beta1_ClusterList := fun src _ =>
    let r := copyItems (fun a => (clusterExt {}).Convert_v1alpha2_Cluster_To_v1beta1_Cluster a {}) src.Items
    ⟨{ Items := r.dst }, r.err⟩
  Convert_v1beta1_ClusterList_To_v1alpha2_ClusterList := fun src _ =>
    let r := copyItems (fun a => (clusterExt {}).Convert_v1beta1_Cluster_To_v1alpha2_Cluster a {}) src.Items
    ⟨{ Items := r.dst }, r.err⟩
  Convert_v1alpha2_MachineList_To_v1beta1_MachineList := fun src _ =>
    let r := copyItems (fun a => (machineExt {}).Convert_v1alpha2_Machine_To_v1beta1_Machine a {}) src.Items
    ⟨{ Items := r.dst }, r.err⟩
  Convert_v1beta1_MachineList_To_v1alpha2_MachineList := fun src _ =>
    let r := copyItems (fun a => (machineExt {}).Convert_v1beta1_Machine_To_v1alpha2_Machine a {}) src.Items
    ⟨{ Items := r.dst }, r.err⟩
  Convert_v1alpha2_MachineSetList_To_v1beta1_MachineSetList := fun src _ =>
    let r := copyItems (fun a => (machineSetExt {}).Convert_v1alpha2_MachineSet_To_v1beta1_MachineSet a {}) src.Items
    ⟨{ Items := r.dst }, r.err⟩
  Convert_v1beta1_MachineSetList_To_v1alpha2_MachineSetList := fun src _ =>
    let r := copyItems (fun a => (machineSetExt {}).Convert_v1beta1_MachineSet_To_v1alpha2_MachineSet a {}) src.Items
    ⟨{ Items := r.dst }, r.err⟩
  Convert_v1alpha2_MachineDeploymentList_To_v1beta1_MachineDeploymentList := fun src _ =>
    let r := copyItems (fun a => (machineDeploymentExt {}).Convert_v1alpha2_MachineDeployment_To_v1beta1_MachineDeployment a {}) src.Items
    ⟨{ Items := r.dst }, r.err⟩
  Convert_v1beta1_MachineDeploymentList_To_v1alpha2_MachineDeploymentList := fun src _ =>
    let r := copyItems (fun a => (machineDeploymentExt {}).Convert_v1beta1_MachineDeployment_To_v1alpha2_MachineDeployment a {}) src.Items
    ⟨{ Items := r.dst }, r.err⟩
  Convert_v1alpha2_KubeadmConfigList_To_v1beta1_KubeadmConfigList := fun src _ =>
    let r := copyItems (fun a => (kubeadmConfigExt {}).Convert_v1alpha2_KubeadmConfig_To_v1beta1_KubeadmConfig a {}) src.Items
    ⟨{ Items := r.dst }, r.err⟩
  Convert_v1beta1_KubeadmConfigList_To_v1alpha2_KubeadmConfigList := fun src _ =>
    let r := copyItems (fun a => (kubeadmConfigExt {}).Convert_v1beta1_KubeadmConfig_To_v1alpha2_KubeadmConfig a {}) src.Items
    ⟨{ Items := r.dst }, r.err⟩
  Convert_v1alpha2_KubeadmConfigTemplateList_To_v1beta1_KubeadmConfigTemplateList := fun src _ =>
    let r := copyItems (fun a => (kubeadmConfigTemplateExt {}).Convert_v1alpha2_KubeadmConfigTemplate_To_v1beta1_KubeadmConfigTemplate a {}) src.Items
    ⟨{ Items := r.dst }, r.err⟩
  Convert_v1beta1_KubeadmConfigTemplateList_To_v1alpha2_KubeadmConfigTemplateList := fun src _ =>
    let r := copyItems (fun a => (kubeadmConfigTemplateExt {}).Convert_v1beta1_KubeadmConfigTemplate_To_v1alpha2_KubeadmConfigTemplate a {}) src.Items
    ⟨{ Items := r.dst }, r.err⟩

/-- A spoke Cluster whose first endpoint has a port beyond the `int32` range. -/
def farPortCluster : v1alpha2.Cluster where
  Status := { APIEndpoints := [{ Host := "example.com", Port := 4294973739 }] }

/-- A spoke Cluster with two endpoints and no stash entry. -/
def twoEndpointCluster : v1alpha2.Cluster where
  Status := { APIEndpoints := [{ Host := "example.com", Port := 6443 },
                               { Host := "backup.example.com", Port := 6443 }] }

/-- A spoke Cluster with the control-plane-initialized flag and no stash entry. -/
def initializedCluster : v1alpha2.Cluster where
  Status := { ControlPlaneInitialized := true }

/-- A spoke Cluster with the control-plane-initialized flag that carries a stash
entry. -/
def initializedStashedCluster : v1alpha2.Cluster where
  ObjectMeta := { Annotations := some (StrMap.ofList [(consts.DataAnnotation, blob)]) }
  Status := { ControlPlaneInitialized := true }

/-- A hub Cluster with one condition that is not the control-plane-initialized
one. -/
def readyCluster : v1beta1.Cluster where
  Status := { Conditions := [{ CondType := "Ready", Status := "True" }] }

/-- A hub KubeadmConfigTemplate whose template spec has hub-only fields set. -/
def hubKubeadmConfigTemplate : v1beta1.KubeadmConfigTemplate where
  ObjectMeta := { Name := "hub" }
  Spec := { Template := { Spec := hubKubeadmConfig.Spec } }

/-- A hub KubeadmConfig with one file that has neither content nor a content
source. -/
def emptyFileKubeadmConfig : v1beta1.KubeadmConfig where
  Spec := { Files := [{ Path := "/etc/empty" }] }

/-- A spoke KubeadmConfig without files that carries a stash entry. -/
def stashOnlyKubeadmConfig : v1alpha2.KubeadmConfig where
  ObjectMeta := { Annotations := some (StrMap.ofList [(consts.DataAnnotation, blob)]) }

/-- A spoke Machine with the cluster-name label that carries a stash entry. -/
def labelledStashedMachine : v1alpha2.Machine where
  ObjectMeta :=
    { Labels := some (StrMap.ofList [(consts.MachineClusterLabelName, "label-cluster")])
      Annotations := some (StrMap.ofList [(consts.DataAnnotation, blob)]) }

/-- A spoke MachineDeployment with a renamed-on-conversion annotation, as an item
of a list. -/
def annotatedList : v1alpha2.MachineDeploymentList where
  Items := [annotatedMachineDeployment]

/-- A spoke Machine that carries the v1alpha2 exclude-node-draining annotation
and a stash entry that does not parse. -/
def corruptUndrainedMachine : v1alpha2.Machine where
  ObjectMeta :=
    { Annotations := some (StrMap.ofList
        [(consts.ExcludeNodeDrainingAnnotation, "true"), (consts.DataAnnotation, "not json")]) }

end Sample

/-! ## Theorems -/

theorem ClusterExt.down_eq (X : ClusterExt) (h : X.Total) (H : v1beta1.Cluster)
    (d : v1alpha2.Cluster) :
    X.Convert_v1beta1_Cluster_To_v1alpha2_Cluster H d =
      ⟨(X.Convert_v1beta1_Cluster_To_v1alpha2_Cluster H d).dst, none⟩ := by
  have := h.2 H d
  rcases hx : X.Convert_v1beta1_Cluster_To_v1alpha2_Cluster H d with ⟨a, e⟩
  rw [hx] at this
  simp_all

theorem ClusterExt.up_eq (X : ClusterExt) (h : X.Total) (S : v1alpha2.Cluster)
    (d : v1beta1.Cluster) :
    X.Convert_v1alpha2_Cluster_To_v1beta1_Cluster S d =
      ⟨(X.Convert_v1alpha2_Cluster_To_v1beta1_Cluster S d).dst, none⟩ := by
  have := h.1 S d
  rcases hx : X.Convert_v1alpha2_Cluster_To_v1beta1_Cluster S d with ⟨a, e⟩
  rw [hx] at this
  simp_all

theorem Sample.clusterExt_total (stash : v1beta1.Cluster) :
    (Sample.clusterExt stash).Total :=
  ⟨fun _ _ => rfl, fun _ _ => rfl⟩

theorem Sample.clusterExt_keepsTopology (stash : v1beta1.Cluster) :
    (Sample.clusterExt stash).KeepsTopology :=
  fun _ _ => rfl

theorem GoMap.lookup_insert_self (m : StrMap) (k v : String) :
    GoMap.lookup (some (StrMap.insert m k v)) k = some v := by
  simp [GoMap.lookup, StrMap.insert]

theorem Cluster_ConvertFrom_stash (K : Consts) (X : ClusterExt) (H : v1beta1.Cluster)
    (d0 : v1alpha2.Cluster) (b : String) (htotal : X.Total)
    (hpersist : X.Persist H = .ok b) :
    (v1alpha2.Cluster.ConvertFrom K X d0 H).err = none ∧
    GoMap.lookup (v1alpha2.Cluster.ConvertFrom K X d0 H).dst.ObjectMeta.Annotations
      K.DataAnnotation = some b := by
  unfold v1alpha2.Cluster.ConvertFrom
  rw [X.down_eq htotal]
  simp only [MarshalData, hpersist, GoMap.lookup_insert_self, and_self]

theorem Cluster_ConvertTo_restore (K : Consts) (X : ClusterExt) (S : v1alpha2.Cluster)
    (d R : v1beta1.Cluster) (b : String) (htotal : X.Total)
    (hstash : GoMap.lookup S.ObjectMeta.Annotations K.DataAnnotation = some b)
    (hrecall : X.Recall b = .ok R) :
    (v1alpha2.Cluster.ConvertTo K X S d).err = none ∧
    (v1alpha2.Cluster.ConvertTo K X S d).dst.Spec.ControlPlaneRef = R.Spec.ControlPlaneRef ∧
    (v1alpha2.Cluster.ConvertTo K X S d).dst.Spec.Paused = R.Spec.Paused ∧
    (v1alpha2.Cluster.ConvertTo K X S d).dst.Spec.Topology =
      (match R.Spec.Topology with
        | some t => some t
        | none => (X.Convert_v1alpha2_Cluster_To_v1beta1_Cluster S d).dst.Spec.Topology) ∧
    (v1alpha2.Cluster.ConvertTo K X S d).dst.Status.ControlPlaneReady
      = R.Status.ControlPlaneReady ∧
    (v1alpha2.Cluster.ConvertTo K X S d).dst.Status.FailureDomains = R.Status.FailureDomains ∧
    (v1alpha2.Cluster.ConvertTo K X S d).dst.Status.Conditions = R.Status.Conditions ∧
    (v1alpha2.Cluster.ConvertTo K X S d).dst.Status.ObservedGeneration
      = R.Status.ObservedGeneration := by
  unfold v1alpha2.Cluster.ConvertTo
  rw [X.up_eq htotal]
  simp only [UnmarshalData, hstash, hrecall]
  cases S.Status.ControlPlaneInitialized <;> cases S.Status.APIEndpoints <;>
    cases R.Spec.Topology <;> simp

/-- C1. Down-converting a hub Cluster and up-converting the result into a fresh
hub object succeeds and gives back ControlPlaneRef, Paused, Topology,
ControlPlaneReady, FailureDomains, Conditions and ObservedGeneration, provided
the stash codec returns the spec and status of the hub object (the generated
copiers being total and leaving the hub-only Topology alone). -/
theorem Cluster_roundtrip_restores_hub_fields (K : Consts) (X : ClusterExt)
    (H R : v1beta1.Cluster) (d0 : v1alpha2.Cluster) (b : String)
    (htotal : X.Total) (hframe : X.KeepsTopology)
    (hpersist : X.Persist H = .ok b) (hrecall : X.Recall b = .ok R)
    (hspec : R.Spec = H.Spec) (hstatus : R.Status = H.Status) :
    (v1alpha2.Cluster.ConvertFrom K X d0 H).err = none ∧
    (v1alpha2.Cluster.roundTrip K X d0 H).err = none ∧
    (v1alpha2.Cluster.roundTrip K X d0 H).dst.Spec.ControlPlaneRef = H.Spec.ControlPlaneRef ∧
    (v1alpha2.Cluster.roundTrip K X d0 H).dst.Spec.Paused = H.Spec.Paused ∧
    (v1alpha2.Cluster.roundTrip K X d0 H).dst.Spec.Topology = H.Spec.Topology ∧
    (v1alpha2.Cluster.roundTrip K X d0 H).dst.Status.ControlPlaneReady
      = H.Status.ControlPlaneReady ∧
    (v1alpha2.Cluster.roundTrip K X d0 H).dst.Status.FailureDomains
      = H.Status.FailureDomains ∧
    (v1alpha2.Cluster.roundTrip K X d0 H).dst.Status.Conditions = H.Status.Conditions ∧
    (v1alpha2.Cluster.roundTrip K X d0 H).dst.Status.ObservedGeneration
      = H.Status.ObservedGeneration := by
  obtain ⟨hok, hstash⟩ := Cluster_ConvertFrom_stash K X H d0 b htotal hpersist
  have hup := Cluster_ConvertTo_restore K X (v1alpha2.Cluster.ConvertFrom K X d0 H).dst {} R b
    htotal hstash hrecall
  unfold v1alpha2.Cluster.roundTrip
  obtain ⟨h1, h2, h3, h4, h5, h6, h7, h8⟩ := hup
  refine ⟨hok, h1, ?_, ?_, ?_, ?_, ?_, ?_, ?_⟩
  · rw [h2, hspec]
  · rw [h3, hspec]
  · rw [h4, ← hspec]
    cases R.Spec.Topology with
    | some t => rfl
    | none => exact hframe _ _
  · rw [h5, hstatus]
  · rw [h6, hstatus]
  · rw [h7, hstatus]
  · rw [h8, hstatus]

/-- The fields of C1 on the hub Cluster of the test, with the reference copiers
and a codec that stores that object. -/
theorem Cluster_roundtrip_restores_hub_fields_witness :
    (v1alpha2.Cluster.roundTrip Sample.consts (Sample.clusterExt Sample.hubCluster) {}
        Sample.hubCluster).err = none ∧
    (v1alpha2.Cluster.roundTrip Sample.consts (Sample.clusterExt Sample.hubCluster) {}
        Sample.hubCluster).dst.Spec.ControlPlaneRef = Sample.hubCluster.Spec.ControlPlaneRef ∧
    (v1alpha2.Cluster.roundTrip Sample.consts (Sample.clusterExt Sample.hubCluster) {}
        Sample.hubCluster).dst.Status.ControlPlaneReady = true :=
  have h := Cluster_roundtrip_restores_hub_fields Sample.consts
    (Sample.clusterExt Sample.hubCluster) Sample.hubCluster
    { Sample.hubCluster with ObjectMeta := {} } {} Sample.blob
    (Sample.clusterExt_total _) (Sample.clusterExt_keepsTopology _) rfl rfl rfl rfl
  ⟨h.2.1, h.2.2.1, h.2.2.2.2.2.1⟩

theorem int32_of_isInt32 (x : Int) (h : IsInt32 x) : int32 x = x := by
  unfold IsInt32 at h
  unfold int32
  omega

/-- C2. A hub Cluster whose control plane endpoint is not zero down-converts to
a spoke whose Status.APIEndpoints is the one-element list with that host and
port, and up-converting that spoke gives back the same endpoint, for every
int32 port. -/
theorem Cluster_endpoint_roundtrip (K : Consts) (X : ClusterExt) (H d : v1beta1.Cluster)
    (d0 : v1alpha2.Cluster) (htotal : X.Total)
    (hzero : X.IsZero H.Spec.ControlPlaneEndpoint = false)
    (hport : IsInt32 H.Spec.ControlPlaneEndpoint.Port) :
    (v1alpha2.Cluster.ConvertFrom K X d0 H).dst.Status.APIEndpoints =
      [{ Host := H.Spec.ControlPlaneEndpoint.Host, Port := H.Spec.ControlPlaneEndpoint.Port }] ∧
    (v1alpha2.Cluster.ConvertTo K X (v1alpha2.Cluster.ConvertFrom K X d0 H).dst d).dst.Spec.ControlPlaneEndpoint
      = H.Spec.ControlPlaneEndpoint := by
  have hdown : (v1alpha2.Cluster.ConvertFrom K X d0 H).dst.Status.APIEndpoints =
      [{ Host := H.Spec.ControlPlaneEndpoint.Host,
         Port := H.Spec.ControlPlaneEndpoint.Port }] := by
    unfold v1alpha2.Cluster.ConvertFrom
    rw [X.down_eq htotal]
    simp only [hzero, MarshalData]
    cases X.Persist H <;>
      cases X.IsTrue H.Status.Conditions K.ControlPlaneInitializedCondition <;> simp
  refine ⟨hdown, ?_⟩
  generalize v1alpha2.Cluster.ConvertFrom K X d0 H = r at hdown
  unfold v1alpha2.Cluster.ConvertTo
  rw [X.up_eq htotal]
  simp only [hdown]
  have hp := int32_of_isInt32 _ hport
  cases r.dst.Status.ControlPlaneInitialized <;>
    cases UnmarshalData K X.Recall r.dst.ObjectMeta with
    | error e => simp [hp]
    | ok o =>
      cases o with
      | none => simp [hp]
      | some R => cases hT : R.Spec.Topology <;> simp [hp, hT]

/-- The scenario of the test `should convert Spec.ControlPlaneEndpoint to
Status.APIEndpoints[0]`: host `example.com`, port 6443. -/
theorem Cluster_endpoint_roundtrip_witness :
    (v1alpha2.Cluster.ConvertFrom Sample.consts (Sample.clusterExt Sample.hubCluster) {}
        Sample.hubCluster).dst.Status.APIEndpoints = [{ Host := "example.com", Port := 6443 }] ∧
    (v1alpha2.Cluster.ConvertTo Sample.consts (Sample.clusterExt Sample.hubCluster)
        (v1alpha2.Cluster.ConvertFrom Sample.consts (Sample.clusterExt Sample.hubCluster) {}
          Sample.hubCluster).dst {}).dst.Spec.ControlPlaneEndpoint
      = { Host := "example.com", Port := 6443 } :=
  Cluster_endpoint_roundtrip Sample.consts (Sample.clusterExt Sample.hubCluster)
    Sample.hubCluster {} {} (Sample.clusterExt_total _) (by decide) (by decide)

theorem Outcome.eq_of_err_none {σ : Type} (o : Outcome σ) (h : o.err = none) :
    o = ⟨o.dst, none⟩ := by
  cases o; simp_all

theorem Machine_ConvertFrom_meta (K : Consts) (X : MachineExt) (H : v1beta1.Machine)
    (d0 : v1alpha2.Machine) (b : String) (htotal : X.Total)
    (hpersist : X.Persist (v1alpha2.Machine.ConvertFrom K X d0 H).src = .ok b) :
    (v1alpha2.Machine.ConvertFrom K X d0 H).err = none ∧
    GoMap.lookup (v1alpha2.Machine.ConvertFrom K X d0 H).dst.ObjectMeta.Annotations
      K.DataAnnotation = some b ∧
    (v1alpha2.Machine.ConvertFrom K X d0 H).dst.ObjectMeta.Labels =
      (if H.Spec.ClusterName ≠ "" then
        some (StrMap.insert
          ((X.Convert_v1beta1_Machine_To_v1alpha2_Machine H d0).dst.ObjectMeta.Labels.getD
            StrMap.empty)
          K.MachineClusterLabelName H.Spec.ClusterName)
      else (X.Convert_v1beta1_Machine_To_v1alpha2_Machine H d0).dst.ObjectMeta.Labels) := by
  revert hpersist
  unfold v1alpha2.Machine.ConvertFrom
  rw [Outcome.eq_of_err_none _ (htotal.2 H d0)]
  simp only [MarshalData]
  rcases hA : H.ObjectMeta.Annotations with _ | a
  · simp only []
    cases hP : X.Persist H with
    | error e => simp [hP]
    | ok b2 =>
      simp only [hP]
      intro hb
      cases hb
      by_cases hn : H.Spec.ClusterName = "" <;> simp [hn, GoMap.lookup, StrMap.insert]
  · simp only []
    rcases hv : a K.beta1ExcludeNodeDrainingAnnotation with _ | val
    · simp only []
      cases hP : X.Persist H with
      | error e => simp [hP]
      | ok b2 =>
        simp only [hP]
        intro hb
        cases hb
        by_cases hn : H.Spec.ClusterName = "" <;> simp [hn, GoMap.lookup, StrMap.insert]
    · simp only []
      generalize hsrc : ({ ObjectMeta := _, Spec := H.Spec, Status := H.Status } : v1beta1.Machine) = src
      cases hP : X.Persist src with
      | error e => simp [hP]
      | ok b2 =>
        simp only [hP]
        intro hb
        cases hb
        by_cases hn : H.Spec.ClusterName = "" <;> simp [hn, GoMap.lookup, StrMap.insert]

/-- The stash survives the rename that `Machine.ConvertTo` applies to the
annotations of its source. -/
theorem Machine_ConvertTo_unmarshal (K : Consts) (X : MachineExt) (S : v1alpha2.Machine)
    (d : v1beta1.Machine)
    (hk1 : K.DataAnnotation ≠ K.ExcludeNodeDrainingAnnotation)
    (hk2 : K.DataAnnotation ≠ K.beta1ExcludeNodeDrainingAnnotation) :
    GoMap.lookup (v1alpha2.Machine.ConvertTo K X S d).src.ObjectMeta.Annotations K.DataAnnotation
      = GoMap.lookup S.ObjectMeta.Annotations K.DataAnnotation ∧
    (v1alpha2.Machine.ConvertTo K X S d).src.ObjectMeta.Labels = S.ObjectMeta.Labels := by
  unfold v1alpha2.Machine.ConvertTo
  split
  · simp
  · simp only []
    rcases hA : S.ObjectMeta.Annotations with _ | a
    · simp only []
      split <;> simp [hA]
    · simp only []
      rcases hv : a K.ExcludeNodeDrainingAnnotation with _ | val
      · simp only []
        split <;> simp [hA]
      · simp only []
        split <;> simp [GoMap.lookup, StrMap.erase, StrMap.insert, hk1, hk2]

theorem Machine_ConvertTo_restore (K : Consts) (X : MachineExt) (S : v1alpha2.Machine)
    (d R : v1beta1.Machine) (b : String) (htotal : X.Total)
    (hk1 : K.DataAnnotation ≠ K.ExcludeNodeDrainingAnnotation)
    (hk2 : K.DataAnnotation ≠ K.beta1ExcludeNodeDrainingAnnotation)
    (hstash : GoMap.lookup S.ObjectMeta.Annotations K.DataAnnotation = some b)
    (hrecall : X.Recall b = .ok R) :
    (v1alpha2.Machine.ConvertTo K X S d).err = none ∧
    (v1alpha2.Machine.ConvertTo K X S d).dst.Spec.ClusterName =
      (if R.Spec.ClusterName ≠ "" then R.Spec.ClusterName
       else match GoMap.lookup S.ObjectMeta.Labels K.MachineClusterLabelName with
        | some name => name
        | none => (X.Convert_v1alpha2_Machine_To_v1beta1_Machine S d).dst.Spec.ClusterName) ∧
    (v1alpha2.Machine.ConvertTo K X S d).dst.Spec.Bootstrap.DataSecretName
      = R.Spec.Bootstrap.DataSecretName ∧
    (v1alpha2.Machine.ConvertTo K X S d).dst.Spec.FailureDomain = R.Spec.FailureDomain ∧
    (v1alpha2.Machine.ConvertTo K X S d).dst.Spec.NodeDrainTimeout = R.Spec.NodeDrainTimeout ∧
    (v1alpha2.Machine.ConvertTo K X S d).dst.Status.ObservedGeneration
      = R.Status.ObservedGeneration ∧
    (v1alpha2.Machine.ConvertTo K X S d).dst.Status.Conditions = R.Status.Conditions ∧
    (v1alpha2.Machine.ConvertTo K X S d).dst.Status.NodeInfo = R.Status.NodeInfo := by
  unfold v1alpha2.Machine.ConvertTo
  rw [Outcome.eq_of_err_none _ (htotal.1 S d)]
  simp only []
  rcases hA : S.ObjectMeta.Annotations with _ | a
  · simp [hA, GoMap.lookup] at hstash
  · have ha : a K.DataAnnotation = some b := by simpa [hA, GoMap.lookup] using hstash
    simp only []
    rcases hv : a K.ExcludeNodeDrainingAnnotation with _ | val
    · simp only [UnmarshalData, hA, GoMap.lookup, ha, hrecall]
      by_cases hn : R.Spec.ClusterName = "" <;>
        cases hL : S.ObjectMeta.Labels with
        | none => simp [hn, restoreMachineSpec]
        | some l => cases hl : l K.MachineClusterLabelName <;> simp [hn, hl, restoreMachineSpec]
    · simp only [UnmarshalData, GoMap.lookup, StrMap.erase, StrMap.insert, hk1, hk2, ha, hrecall,
        if_false]
      by_cases hn : R.Spec.ClusterName = "" <;>
        cases hL : S.ObjectMeta.Labels with
        | none => simp [hn, restoreMachineSpec]
        | some l => cases hl : l K.MachineClusterLabelName <;> simp [hn, hl, restoreMachineSpec]

theorem MachineSet_ConvertFrom_meta (K : Consts) (X : MachineSetExt) (H : v1beta1.MachineSet)
    (d0 : v1alpha2.MachineSet) (b : String) (htotal : X.Total)
    (hpersist : X.Persist H = .ok b) :
    (v1alpha2.MachineSet.ConvertFrom K X d0 H).err = none ∧
    GoMap.lookup (v1alpha2.MachineSet.ConvertFrom K X d0 H).dst.ObjectMeta.Annotations
      K.DataAnnotation = some b ∧
    (v1alpha2.MachineSet.ConvertFrom K X d0 H).dst.ObjectMeta.Labels =
      (if H.Spec.ClusterName ≠ "" then
        some (StrMap.insert
          ((X.Convert_v1beta1_MachineSet_To_v1alpha2_MachineSet H d0).dst.ObjectMeta.Labels.getD
            StrMap.empty)
          K.MachineClusterLabelName H.Spec.ClusterName)
      else (X.Convert_v1beta1_MachineSet_To_v1alpha2_MachineSet H d0).dst.ObjectMeta.Labels) := by
  unfold v1alpha2.MachineSet.ConvertFrom
  rw [Outcome.eq_of_err_none _ (htotal.2 H d0)]
  simp only [MarshalData, hpersist]
  by_cases hn : H.Spec.ClusterName = "" <;> simp [hn, GoMap.lookup, StrMap.insert]

theorem MachineSet_ConvertTo_restore (K : Consts) (X : MachineSetExt) (S : v1alpha2.MachineSet)
    (d R : v1beta1.MachineSet) (b : String) (htotal : X.Total)
    (hstash : GoMap.lookup S.ObjectMeta.Annotations K.DataAnnotation = some b)
    (hrecall : X.Recall b = .ok R) :
    (v1alpha2.MachineSet.ConvertTo K X S d).err = none ∧
    (v1alpha2.MachineSet.ConvertTo K X S d).dst.Spec.ClusterName =
      (if R.Spec.ClusterName ≠ "" then R.Spec.ClusterName
       else match GoMap.lookup S.ObjectMeta.Labels K.MachineClusterLabelName with
        | some name => name
        | none =>
          (X.Convert_v1alpha2_MachineSet_To_v1beta1_MachineSet S d).dst.Spec.ClusterName) ∧
    (v1alpha2.MachineSet.ConvertTo K X S d).dst.Spec.Template.Spec.ClusterName =
      (if R.Spec.Template.Spec.ClusterName ≠ "" then R.Spec.Template.Spec.ClusterName
       else match GoMap.lookup S.ObjectMeta.Labels K.MachineClusterLabelName with
        | some name => name
        | none =>
          (X.Convert_v1alpha2_MachineSet_To_v1beta1_MachineSet
            S d).dst.Spec.Template.Spec.ClusterName) ∧
    (v1alpha2.MachineSet.ConvertTo K X S d).dst.Status.Conditions = R.Status.Conditions := by
  unfold v1alpha2.MachineSet.ConvertTo
  rw [Outcome.eq_of_err_none _ (htotal.1 S d)]
  simp only [UnmarshalData, hstash, hrecall]
  by_cases hn : R.Spec.ClusterName = "" <;>
    by_cases ht : R.Spec.Template.Spec.ClusterName = "" <;>
    cases hl : GoMap.lookup S.ObjectMeta.Labels K.MachineClusterLabelName <;>
    simp [hn, ht, restoreMachineSpec]

theorem MachineDeployment_ConvertFrom_meta (K : Consts) (X : MachineDeploymentExt)
    (H : v1beta1.MachineDeployment) (d0 : v1alpha2.MachineDeployment) (b : String)
    (htotal : X.Total) (hpersist : X.Persist H = .ok b) :
    (v1alpha2.MachineDeployment.ConvertFrom K X d0 H).err = none ∧
    GoMap.lookup (v1alpha2.MachineDeployment.ConvertFrom K X d0 H).dst.ObjectMeta.Annotations
      K.DataAnnotation = some b ∧
    (v1alpha2.MachineDeployment.ConvertFrom K X d0 H).dst.ObjectMeta.Labels =
      (if H.Spec.ClusterName ≠ "" then
        some (StrMap.insert
          ((X.Convert_v1beta1_MachineDeployment_To_v1alpha2_MachineDeployment
            H d0).dst.ObjectMeta.Labels.getD StrMap.empty)
          K.MachineClusterLabelName H.Spec.ClusterName)
      else (X.Convert_v1beta1_MachineDeployment_To_v1alpha2_MachineDeployment
        H d0).dst.ObjectMeta.Labels) := by
  unfold v1alpha2.MachineDeployment.ConvertFrom
  rw [Outcome.eq_of_err_none _ (htotal.2 H d0)]
  simp only [MarshalData, hpersist]
  by_cases hn : H.Spec.ClusterName = "" <;> simp [hn, GoMap.lookup, StrMap.insert]

theorem MachineDeployment_ConvertTo_restore (K : Consts) (X : MachineDeploymentExt)
    (S : v1alpha2.MachineDeployment) (d R : v1beta1.MachineDeployment) (b : String)
    (htotal : X.Total)
    (hstash : GoMap.lookup S.ObjectMeta.Annotations K.DataAnnotation = some b)
    (hrecall : X.Recall b = .ok R) :
    (v1alpha2.MachineDeployment.ConvertTo K X S d).err = none ∧
    (v1alpha2.MachineDeployment.ConvertTo K X S d).dst.Spec.ClusterName =
      (if R.Spec.ClusterName ≠ "" then R.Spec.ClusterName
       else match GoMap.lookup S.ObjectMeta.Labels K.MachineClusterLabelName with
        | some name => name
        | none =>
          (X.Convert_v1alpha2_MachineDeployment_To_v1beta1_MachineDeployment
            S d).dst.Spec.ClusterName) ∧
    (v1alpha2.MachineDeployment.ConvertTo K X S d).dst.Spec.Template.Spec.ClusterName =
      (if R.Spec.Template.Spec.ClusterName ≠ "" then R.Spec.Template.Spec.ClusterName
       else match GoMap.lookup S.ObjectMeta.Labels K.MachineClusterLabelName with
        | some name => name
        | none =>
          (X.Convert_v1alpha2_MachineDeployment_To_v1beta1_MachineDeployment
            S d).dst.Spec.Template.Spec.ClusterName) ∧
    (v1alpha2.MachineDeployment.ConvertTo K X S d).dst.Spec.Paused = R.Spec.Paused ∧
    (v1alpha2.MachineDeployment.ConvertTo K X S d).dst.Status.Phase = R.Status.Phase ∧
    (v1alpha2.MachineDeployment.ConvertTo K X S d).dst.Status.Conditions = R.Status.Conditions ∧
    (∀ st ru, R.Spec.Strategy = some st → st.RollingUpdate = some ru →
      ∃ st2 ru2, (v1alpha2.MachineDeployment.ConvertTo K X S d).dst.Spec.Strategy = some st2 ∧
        st2.RollingUpdate = some ru2 ∧ ru2.DeletePolicy = ru.DeletePolicy) := by
  unfold v1alpha2.MachineDeployment.ConvertTo
  rw [Outcome.eq_of_err_none _ (htotal.1 S d)]
  simp only [UnmarshalData, hstash, hrecall]
  refine ⟨?_, ?_, ?_, ?_, ?_, ?_, ?_⟩
  · trivial
  · by_cases hn : R.Spec.ClusterName = "" <;>
      cases hl : GoMap.lookup S.ObjectMeta.Labels K.MachineClusterLabelName <;>
      rcases hs : R.Spec.Strategy with _ | ⟨ty, _ | ru⟩ <;>
      simp [hn]
  · by_cases ht : R.Spec.Template.Spec.ClusterName = "" <;>
      by_cases hn : R.Spec.ClusterName = "" <;>
      cases hl : GoMap.lookup S.ObjectMeta.Labels K.MachineClusterLabelName <;>
      rcases hs : R.Spec.Strategy with _ | ⟨ty, _ | ru⟩ <;>
      simp [hn, ht, restoreMachineSpec]
  · rcases hs : R.Spec.Strategy with _ | ⟨ty, _ | ru⟩ <;> simp
  · rcases hs : R.Spec.Strategy with _ | ⟨ty, _ | ru⟩ <;> simp
  · trivial
  · intro st ru hst hru
    simp [hst, hru]

theorem Sample.machineExt_total (stash : v1beta1.Machine) :
    (Sample.machineExt stash).Total :=
  ⟨fun _ _ => rfl, fun _ _ => rfl⟩

theorem Sample.machineExt_copiesLabels (stash : v1beta1.Machine) :
    (Sample.machineExt stash).CopiesLabels :=
  fun _ _ => rfl

theorem Sample.machineExt_keepsClusterName (stash : v1beta1.Machine) :
    (Sample.machineExt stash).KeepsClusterName :=
  fun _ _ => rfl

theorem Sample.machineSetExt_total (stash : v1beta1.MachineSet) :
    (Sample.machineSetExt stash).Total :=
  ⟨fun _ _ => rfl, fun _ _ => rfl⟩

theorem Sample.machineSetExt_copiesLabels (stash : v1beta1.MachineSet) :
    (Sample.machineSetExt stash).CopiesLabels :=
  fun _ _ => rfl

theorem Sample.machineSetExt_keepsClusterName (stash : v1beta1.MachineSet) :
    (Sample.machineSetExt stash).KeepsClusterName :=
  fun _ _ => ⟨rfl, rfl⟩

theorem Sample.machineDeploymentExt_total (stash : v1beta1.MachineDeployment) :
    (Sample.machineDeploymentExt stash).Total :=
  ⟨fun _ _ => rfl, fun _ _ => rfl⟩

theorem Sample.machineDeploymentExt_copiesLabels (stash : v1beta1.MachineDeployment) :
    (Sample.machineDeploymentExt stash).CopiesLabels :=
  fun _ _ => rfl

theorem Sample.machineDeploymentExt_keepsClusterName (stash : v1beta1.MachineDeployment) :
    (Sample.machineDeploymentExt stash).KeepsClusterName :=
  fun _ _ => ⟨rfl, rfl⟩

/-- C3, as stated, fails: a hub Machine with an empty Spec.ClusterName that
carries the cluster-name label comes back from the round trip with the label
value as its Spec.ClusterName, although the codec returns its spec and status. -/
theorem Machine_roundtrip_label_counterexample :
    Sample.labelledMachine.Spec.ClusterName = "" ∧
    GoMap.lookup Sample.labelledMachine.ObjectMeta.Labels
      Sample.consts.MachineClusterLabelName = some "test-cluster" ∧
    (Sample.machineExt Sample.labelledMachine).Recall Sample.blob
      = .ok { Sample.labelledMachine with ObjectMeta := {} } ∧
    (v1alpha2.Machine.roundTrip Sample.consts (Sample.machineExt Sample.labelledMachine) {}
      Sample.labelledMachine).err = none ∧
    (v1alpha2.Machine.roundTrip Sample.consts (Sample.machineExt Sample.labelledMachine) {}
      Sample.labelledMachine).dst.Spec.ClusterName = "test-cluster" ∧
    (v1alpha2.Machine.roundTrip Sample.consts (Sample.machineExt Sample.labelledMachine) {}
      Sample.labelledMachine).dst.Spec.ClusterName ≠ Sample.labelledMachine.Spec.ClusterName :=
  ⟨rfl, by decide, rfl, rfl, by decide, by decide⟩

/-- C3, amended. Down-converting a hub Machine and up-converting the result into
a fresh hub object succeeds and gives back Bootstrap.DataSecretName,
FailureDomain, NodeDrainTimeout, ObservedGeneration, Conditions and NodeInfo;
Spec.ClusterName comes back when it is non-empty or the hub object carries no
cluster-name label, and is the label value when it is empty and the label is
present. The codec returns the spec and status of the hub object, the reserved
stash key differs from the exclude-node-draining keys, and the generated
copiers are total, copy the labels and leave the hub-only ClusterName alone. -/
theorem Machine_roundtrip_restores_hub_fields (K : Consts) (X : MachineExt)
    (H R : v1beta1.Machine) (d0 : v1alpha2.Machine) (b : String)
    (htotal : X.Total) (hlabels : X.CopiesLabels) (hkeep : X.KeepsClusterName)
    (hk1 : K.DataAnnotation ≠ K.ExcludeNodeDrainingAnnotation)
    (hk2 : K.DataAnnotation ≠ K.beta1ExcludeNodeDrainingAnnotation)
    (hpersist : X.Persist (v1alpha2.Machine.ConvertFrom K X d0 H).src = .ok b)
    (hrecall : X.Recall b = .ok R)
    (hspec : R.Spec = H.Spec) (hstatus : R.Status = H.Status) :
    (v1alpha2.Machine.ConvertFrom K X d0 H).err = none ∧
    (v1alpha2.Machine.roundTrip K X d0 H).err = none ∧
    ((H.Spec.ClusterName ≠ "" ∨
        GoMap.lookup H.ObjectMeta.Labels K.MachineClusterLabelName = none) →
      (v1alpha2.Machine.roundTrip K X d0 H).dst.Spec.ClusterName = H.Spec.ClusterName) ∧
    (∀ n, H.Spec.ClusterName = "" →
        GoMap.lookup H.ObjectMeta.Labels K.MachineClusterLabelName = some n →
      (v1alpha2.Machine.roundTrip K X d0 H).dst.Spec.ClusterName = n) ∧
    (v1alpha2.Machine.roundTrip K X d0 H).dst.Spec.Bootstrap.DataSecretName
      = H.Spec.Bootstrap.DataSecretName ∧
    (v1alpha2.Machine.roundTrip K X d0 H).dst.Spec.FailureDomain = H.Spec.FailureDomain ∧
    (v1alpha2.Machine.roundTrip K X d0 H).dst.Spec.NodeDrainTimeout
      = H.Spec.NodeDrainTimeout ∧
    (v1alpha2.Machine.roundTrip K X d0 H).dst.Status.ObservedGeneration
      = H.Status.ObservedGeneration ∧
    (v1alpha2.Machine.roundTrip K X d0 H).dst.Status.Conditions = H.Status.Conditions ∧
    (v1alpha2.Machine.roundTrip K X d0 H).dst.Status.NodeInfo = H.Status.NodeInfo := by
  obtain ⟨hok, hstash, hlab⟩ := Machine_ConvertFrom_meta K X H d0 b htotal hpersist
  obtain ⟨h1, h2, h3, h4, h5, h6, h7, h8⟩ := Machine_ConvertTo_restore K X
    (v1alpha2.Machine.ConvertFrom K X d0 H).dst {} R b htotal hk1 hk2 hstash hrecall
  unfold v1alpha2.Machine.roundTrip
  rw [hlab, hlabels H d0, hkeep, hspec] at h2
  refine ⟨hok, h1, ?_, ?_, ?_, ?_, ?_, ?_, ?_, ?_⟩
  · rintro (hn | hl)
    · rw [h2]; simp [hn]
    · rw [h2]
      by_cases hn : H.Spec.ClusterName = ""
      · simp [hn, hl]
      · simp [hn]
  · intro n hn hl
    rw [h2]; simp [hn, hl]
  · rw [h3, hspec]
  · rw [h4, hspec]
  · rw [h5, hspec]
  · rw [h6, hstatus]
  · rw [h7, hstatus]
  · rw [h8, hstatus]

/-- The fields of C3 on the hub Machine of the test `preserves fields from hub
version`, with the reference copiers and a codec that stores that object. -/
theorem Machine_roundtrip_restores_hub_fields_witness :
    (v1alpha2.Machine.roundTrip Sample.consts (Sample.machineExt Sample.hubMachine) {}
      Sample.hubMachine).err = none ∧
    (v1alpha2.Machine.roundTrip Sample.consts (Sample.machineExt Sample.hubMachine) {}
      Sample.hubMachine).dst.Spec.ClusterName = "test-cluster" ∧
    (v1alpha2.Machine.roundTrip Sample.consts (Sample.machineExt Sample.hubMachine) {}
      Sample.hubMachine).dst.Spec.Bootstrap.DataSecretName = some "secret-data" ∧
    (v1alpha2.Machine.roundTrip Sample.consts (Sample.machineExt Sample.hubMachine) {}
      Sample.hubMachine).dst.Spec.FailureDomain = some "my failure domain" :=
  have h := Machine_roundtrip_restores_hub_fields Sample.consts
    (Sample.machineExt Sample.hubMachine) Sample.hubMachine
    { Sample.hubMachine with ObjectMeta := {} } {} Sample.blob
    (Sample.machineExt_total _) (Sample.machineExt_copiesLabels _)
    (Sample.machineExt_keepsClusterName _) (by decide) (by decide) rfl rfl rfl rfl
  ⟨h.2.1, h.2.2.1 (Or.inl (by decide)), h.2.2.2.2.1, h.2.2.2.2.2.1⟩

/-- C4, as stated, fails: a hub MachineSet with a cluster name whose template
has an empty cluster name comes back from the round trip with the top-level
name in the template, although the codec returns its spec and status. -/
theorem MachineSet_roundtrip_template_counterexample :
    Sample.bareTemplateMachineSet.Spec.ClusterName = "test-cluster" ∧
    Sample.bareTemplateMachineSet.Spec.Template.Spec.ClusterName = "" ∧
    (Sample.machineSetExt Sample.bareTemplateMachineSet).Recall Sample.blob
      = .ok { Sample.bareTemplateMachineSet with ObjectMeta := {} } ∧
    (v1alpha2.MachineSet.roundTrip Sample.consts (Sample.machineSetExt Sample.bareTemplateMachineSet) {}
      Sample.bareTemplateMachineSet).err = none ∧
    (v1alpha2.MachineSet.roundTrip Sample.consts (Sample.machineSetExt Sample.bareTemplateMachineSet) {}
      Sample.bareTemplateMachineSet).dst.Spec.Template.Spec.ClusterName = "test-cluster" ∧
    (v1alpha2.MachineSet.roundTrip Sample.consts (Sample.machineSetExt Sample.bareTemplateMachineSet) {}
      Sample.bareTemplateMachineSet).dst.Spec.Template.Spec.ClusterName
      ≠ Sample.bareTemplateMachineSet.Spec.Template.Spec.ClusterName :=
  ⟨rfl, rfl, rfl, rfl, by decide, by decide⟩

/-- C4, amended. After down-converting a hub MachineSet and up-converting the
result into a fresh hub object, Spec.ClusterName comes back when it is
non-empty or the hub object carries no cluster-name label, and
Spec.Template.Spec.ClusterName comes back when it is non-empty, or when the
top-level name is empty and the hub object carries no cluster-name label; an
empty template name next to a non-empty top-level name comes back as the
top-level name. The codec returns the spec of the hub
object; the generated copiers are total, copy the labels and leave the hub-only
cluster names alone. -/
theorem MachineSet_roundtrip_restores_cluster_names (K : Consts) (X : MachineSetExt)
    (H R : v1beta1.MachineSet) (d0 : v1alpha2.MachineSet) (b : String)
    (htotal : X.Total) (hlabels : X.CopiesLabels) (hkeep : X.KeepsClusterName)
    (hpersist : X.Persist H = .ok b) (hrecall : X.Recall b = .ok R)
    (hspec : R.Spec = H.Spec) :
    (v1alpha2.MachineSet.ConvertFrom K X d0 H).err = none ∧
    (v1alpha2.MachineSet.roundTrip K X d0 H).err = none ∧
    ((H.Spec.ClusterName ≠ "" ∨
        GoMap.lookup H.ObjectMeta.Labels K.MachineClusterLabelName = none) →
      (v1alpha2.MachineSet.roundTrip K X d0 H).dst.Spec.ClusterName = H.Spec.ClusterName) ∧
    ((H.Spec.Template.Spec.ClusterName ≠ "" ∨ (H.Spec.ClusterName = "" ∧
        GoMap.lookup H.ObjectMeta.Labels K.MachineClusterLabelName = none)) →
      (v1alpha2.MachineSet.roundTrip K X d0 H).dst.Spec.Template.Spec.ClusterName = H.Spec.Template.Spec.ClusterName) ∧
    (H.Spec.Template.Spec.ClusterName = "" → H.Spec.ClusterName ≠ "" →
      (v1alpha2.MachineSet.roundTrip K X d0 H).dst.Spec.Template.Spec.ClusterName = H.Spec.ClusterName) := by
  obtain ⟨hok, hstash, hlab⟩ := MachineSet_ConvertFrom_meta K X H d0 b htotal hpersist
  obtain ⟨h1, h2, h3, _h4⟩ := MachineSet_ConvertTo_restore K X
    (v1alpha2.MachineSet.ConvertFrom K X d0 H).dst {} R b htotal hstash hrecall
  unfold v1alpha2.MachineSet.roundTrip
  rw [hlab, hlabels H d0, (hkeep _ _).1, hspec] at h2
  rw [hlab, hlabels H d0, (hkeep _ _).2, hspec] at h3
  refine ⟨hok, h1, ?_, ?_, ?_⟩
  · rintro (hn | hl)
    · rw [h2]; simp [hn]
    · rw [h2]
      by_cases hn : H.Spec.ClusterName = ""
      · simp [hn, hl]
      · simp [hn]
  · rintro (ht | ⟨hn, hl⟩)
    · rw [h3]; simp [ht]
    · rw [h3]
      by_cases ht : H.Spec.Template.Spec.ClusterName = ""
      · simp [hn, ht, hl]
      · simp [ht]
  · intro ht hn
    rw [h3]; simp [ht, hn, GoMap.lookup, StrMap.insert]

/-- The fields of C4 on the hub MachineSet of the test, with the reference
copiers and a codec that stores that object. -/
theorem MachineSet_roundtrip_restores_cluster_names_witness :
    (v1alpha2.MachineSet.roundTrip Sample.consts (Sample.machineSetExt Sample.hubMachineSet) {}
      Sample.hubMachineSet).err = none ∧
    (v1alpha2.MachineSet.roundTrip Sample.consts (Sample.machineSetExt Sample.hubMachineSet) {}
      Sample.hubMachineSet).dst.Spec.ClusterName = "test-cluster" ∧
    (v1alpha2.MachineSet.roundTrip Sample.consts (Sample.machineSetExt Sample.hubMachineSet) {}
      Sample.hubMachineSet).dst.Spec.Template.Spec.ClusterName = "test-cluster" :=
  have h := MachineSet_roundtrip_restores_cluster_names Sample.consts
    (Sample.machineSetExt Sample.hubMachineSet) Sample.hubMachineSet
    { Sample.hubMachineSet with ObjectMeta := {} } {} Sample.blob
    (Sample.machineSetExt_total _) (Sample.machineSetExt_copiesLabels _)
    (Sample.machineSetExt_keepsClusterName _) rfl rfl rfl
  ⟨h.2.1, h.2.2.1 (Or.inl (by decide)), h.2.2.2.1 (Or.inl (by decide))⟩

/-- C5, as stated, fails: a hub MachineDeployment with a cluster name whose template
has an empty cluster name comes back from the round trip with the top-level
name in the template, although the codec returns its spec and status. -/
theorem MachineDeployment_roundtrip_template_counterexample :
    Sample.bareTemplateMachineDeployment.Spec.ClusterName = "test-cluster" ∧
    Sample.bareTemplateMachineDeployment.Spec.Template.Spec.ClusterName = "" ∧
    (Sample.machineDeploymentExt Sample.bareTemplateMachineDeployment).Recall Sample.blob
      = .ok { Sample.bareTemplateMachineDeployment with ObjectMeta := {} } ∧
    (v1alpha2.MachineDeployment.roundTrip Sample.consts (Sample.machineDeploymentExt Sample.bareTemplateMachineDeployment) {}
      Sample.bareTemplateMachineDeployment).err = none ∧
    (v1alpha2.MachineDeployment.roundTrip Sample.consts (Sample.machineDeploymentExt Sample.bareTemplateMachineDeployment) {}
      Sample.bareTemplateMachineDeployment).dst.Spec.Template.Spec.ClusterName = "test-cluster" ∧
    (v1alpha2.MachineDeployment.roundTrip Sample.consts (Sample.machineDeploymentExt Sample.bareTemplateMachineDeployment) {}
      Sample.bareTemplateMachineDeployment).dst.Spec.Template.Spec.ClusterName
      ≠ Sample.bareTemplateMachineDeployment.Spec.Template.Spec.ClusterName :=
  ⟨rfl, rfl, rfl, rfl, by decide, by decide⟩

/-- C5, amended. After down-converting a hub MachineDeployment and up-converting the
result into a fresh hub object, Spec.ClusterName comes back when it is
non-empty or the hub object carries no cluster-name label, and
Spec.Template.Spec.ClusterName comes back when it is non-empty, or when the
top-level name is empty and the hub object carries no cluster-name label; an
empty template name next to a non-empty top-level name comes back as the
top-level name. Spec.Paused, Status.Phase and Status.Conditions come
back, and so does the DeletePolicy of a rolling-update strategy. The codec returns the spec and status of the hub
object; the generated copiers are total, copy the labels and leave the hub-only
cluster names alone. -/
theorem MachineDeployment_roundtrip_restores_cluster_names (K : Consts) (X : MachineDeploymentExt)
    (H R : v1beta1.MachineDeployment) (d0 : v1alpha2.MachineDeployment) (b : String)
    (htotal : X.Total) (hlabels : X.CopiesLabels) (hkeep : X.KeepsClusterName)
    (hpersist : X.Persist H = .ok b) (hrecall : X.Recall b = .ok R)
    (hspec : R.Spec = H.Spec) (hstatus : R.Status = H.Status) :
    (v1alpha2.MachineDeployment.ConvertFrom K X d0 H).err = none ∧
    (v1alpha2.MachineDeployment.roundTrip K X d0 H).err = none ∧
    ((H.Spec.ClusterName ≠ "" ∨
        GoMap.lookup H.ObjectMeta.Labels K.MachineClusterLabelName = none) →
      (v1alpha2.MachineDeployment.roundTrip K X d0 H).dst.Spec.ClusterName = H.Spec.ClusterName) ∧
    ((H.Spec.Template.Spec.ClusterName ≠ "" ∨ (H.Spec.ClusterName = "" ∧
        GoMap.lookup H.ObjectMeta.Labels K.MachineClusterLabelName = none)) →
      (v1alpha2.MachineDeployment.roundTrip K X d0 H).dst.Spec.Template.Spec.ClusterName = H.Spec.Template.Spec.ClusterName) ∧
    (H.Spec.Template.Spec.ClusterName = "" → H.Spec.ClusterName ≠ "" →
      (v1alpha2.MachineDeployment.roundTrip K X d0 H).dst.Spec.Template.Spec.ClusterName = H.Spec.ClusterName) ∧
    (v1alpha2.MachineDeployment.roundTrip K X d0 H).dst.Spec.Paused = H.Spec.Paused ∧
    (v1alpha2.MachineDeployment.roundTrip K X d0 H).dst.Status.Phase = H.Status.Phase ∧
    (v1alpha2.MachineDeployment.roundTrip K X d0 H).dst.Status.Conditions = H.Status.Conditions ∧
    (∀ st ru, H.Spec.Strategy = some st → st.RollingUpdate = some ru →
      ∃ st2 ru2, (v1alpha2.MachineDeployment.roundTrip K X d0 H).dst.Spec.Strategy = some st2 ∧
        st2.RollingUpdate = some ru2 ∧ ru2.DeletePolicy = ru.DeletePolicy) := by
  obtain ⟨hok, hstash, hlab⟩ := MachineDeployment_ConvertFrom_meta K X H d0 b htotal hpersist
  obtain ⟨h1, h2, h3, h4, h5, h6, h7⟩ := MachineDeployment_ConvertTo_restore K X
    (v1alpha2.MachineDeployment.ConvertFrom K X d0 H).dst {} R b htotal hstash hrecall
  unfold v1alpha2.MachineDeployment.roundTrip
  rw [hlab, hlabels H d0, (hkeep _ _).1, hspec] at h2
  rw [hlab, hlabels H d0, (hkeep _ _).2, hspec] at h3
  refine ⟨hok, h1, ?_, ?_, ?_, ?_, ?_, ?_, ?_⟩
  · rintro (hn | hl)
    · rw [h2]; simp [hn]
    · rw [h2]
      by_cases hn : H.Spec.ClusterName = ""
      · simp [hn, hl]
      · simp [hn]
  · rintro (ht | ⟨hn, hl⟩)
    · rw [h3]; simp [ht]
    · rw [h3]
      by_cases ht : H.Spec.Template.Spec.ClusterName = ""
      · simp [hn, ht, hl]
      · simp [ht]
  · intro ht hn
    rw [h3]; simp [ht, hn, GoMap.lookup, StrMap.insert]
  · rw [h4, hspec]
  · rw [h5, hstatus]
  · rw [h6, hstatus]
  · rw [← hspec]; exact h7

/-- The fields of C5 on the hub MachineDeployment of the test, with the reference
copiers and a codec that stores that object. -/
theorem MachineDeployment_roundtrip_restores_cluster_names_witness :
    (v1alpha2.MachineDeployment.roundTrip Sample.consts (Sample.machineDeploymentExt Sample.hubMachineDeployment) {}
      Sample.hubMachineDeployment).err = none ∧
    (v1alpha2.MachineDeployment.roundTrip Sample.consts (Sample.machineDeploymentExt Sample.hubMachineDeployment) {}
      Sample.hubMachineDeployment).dst.Spec.ClusterName = "test-cluster" ∧
    (v1alpha2.MachineDeployment.roundTrip Sample.consts (Sample.machineDeploymentExt Sample.hubMachineDeployment) {}
      Sample.hubMachineDeployment).dst.Spec.Template.Spec.ClusterName = "test-cluster" ∧
    (v1alpha2.MachineDeployment.roundTrip Sample.consts
      (Sample.machineDeploymentExt Sample.hubMachineDeployment) {}
      Sample.hubMachineDeployment).dst.Spec.Paused = true ∧
    (v1alpha2.MachineDeployment.roundTrip Sample.consts
      (Sample.machineDeploymentExt Sample.hubMachineDeployment) {}
      Sample.hubMachineDeployment).dst.Status.Phase = "Running" :=
  have h := MachineDeployment_roundtrip_restores_cluster_names Sample.consts
    (Sample.machineDeploymentExt Sample.hubMachineDeployment) Sample.hubMachineDeployment
    { Sample.hubMachineDeployment with ObjectMeta := {} } {} Sample.blob
    (Sample.machineDeploymentExt_total _) (Sample.machineDeploymentExt_copiesLabels _)
    (Sample.machineDeploymentExt_keepsClusterName _) rfl rfl rfl rfl
  ⟨h.2.1, h.2.2.1 (Or.inl (by decide)), h.2.2.2.1 (Or.inl (by decide)), h.2.2.2.2.2.1, h.2.2.2.2.2.2.1⟩

theorem GoMap.ext_iff (m1 m2 : GoMap) :
    m1 = m2 ↔ (m1.isSome = m2.isSome ∧ ∀ k, GoMap.lookup m1 k = GoMap.lookup m2 k) := by
  constructor
  · rintro rfl; exact ⟨rfl, fun _ => rfl⟩
  · rintro ⟨h1, h2⟩
    rcases m1 with _ | f <;> rcases m2 with _ | g <;> simp at h1
    · rfl
    · congr 1
      funext k
      exact h2 k

theorem convertAnnotations_isSome (a b : String) (m : GoMap) :
    (convertAnnotations a b m).isSome = m.isSome := by
  rcases m with _ | f
  · rfl
  · simp only [convertAnnotations]
    split <;> rfl

theorem lookup_convertAnnotations (a b : String) (hab : a ≠ b) (m : GoMap) (k : String) :
    GoMap.lookup (convertAnnotations a b m) k =
      if k = b then
        (match GoMap.lookup m a with
          | some v => some v
          | none => GoMap.lookup m b)
      else if k = a then none
      else GoMap.lookup m k := by
  rcases m with _ | f
  · simp [convertAnnotations, GoMap.lookup]
  · rcases hv : f a with _ | v
    · by_cases hkb : k = b
      · simp [convertAnnotations, GoMap.lookup, hv, hkb]
      · by_cases hka : k = a
        · simp [convertAnnotations, GoMap.lookup, hv, hkb, hka, hab]
        · simp [convertAnnotations, GoMap.lookup, hv, hkb, hka]
    · by_cases hkb : k = b
      · simp [convertAnnotations, GoMap.lookup, hv, hkb, StrMap.insert]
      · by_cases hka : k = a
        · simp [convertAnnotations, GoMap.lookup, hv, hkb, hka, hab, StrMap.insert, StrMap.erase]
        · simp [convertAnnotations, GoMap.lookup, hv, hkb, hka, StrMap.insert, StrMap.erase]

theorem convertAnnotations_same (a : String) (m : GoMap) : convertAnnotations a a m = m := by
  rcases m with _ | f
  · rfl
  · rcases hv : f a with _ | v
    · simp [convertAnnotations, hv]
    · simp only [convertAnnotations, hv]
      congr 1
      funext x
      by_cases hx : x = a <;> simp [hx, hv, StrMap.insert, StrMap.erase]

theorem convertAnnotationTable_lookup (a1 a2 a3 a4 b1 b2 b3 b4 : String)
    (h : [a1, a2, a3, a4, b1, b2, b3, b4].Nodup) (m : GoMap) (k : String) :
    GoMap.lookup (convertAnnotationTable [a1, a2, a3, a4] [b1, b2, b3, b4] m) k =
      if k = a1 ∨ k = a2 ∨ k = a3 ∨ k = a4 then none
      else if k = b1 then (GoMap.lookup m a1).orElse (fun _ => GoMap.lookup m b1)
      else if k = b2 then (GoMap.lookup m a2).orElse (fun _ => GoMap.lookup m b2)
      else if k = b3 then (GoMap.lookup m a3).orElse (fun _ => GoMap.lookup m b3)
      else if k = b4 then (GoMap.lookup m a4).orElse (fun _ => GoMap.lookup m b4)
      else GoMap.lookup m k := by
  simp only [List.nodup_cons, List.mem_cons, List.mem_singleton, not_or, List.not_mem_nil,
    not_false_eq_true, List.nodup_nil, and_true] at h
  obtain ⟨⟨h12, h13, h14, h15, h16, h17, h18⟩, ⟨h23, h24, h25, h26, h27, h28⟩,
    ⟨h34, h35, h36, h37, h38⟩, ⟨h45, h46, h47, h48⟩, ⟨h56, h57, h58⟩, ⟨h67, h68⟩, h78⟩ := h
  simp only [convertAnnotationTable, List.zip_cons_cons, List.zip_nil_right, List.foldl_cons,
    List.foldl_nil]
  simp only [lookup_convertAnnotations a4 b4 h48, lookup_convertAnnotations a3 b3 h37,
    lookup_convertAnnotations a2 b2 h26, lookup_convertAnnotations a1 b1 h15]
  have e12 := Ne.symm h12; have e13 := Ne.symm h13; have e14 := Ne.symm h14
  have e15 := Ne.symm h15; have e16 := Ne.symm h16; have e17 := Ne.symm h17
  have e18 := Ne.symm h18; have e23 := Ne.symm h23; have e24 := Ne.symm h24
  have e25 := Ne.symm h25; have e26 := Ne.symm h26; have e27 := Ne.symm h27
  have e28 := Ne.symm h28; have e34 := Ne.symm h34; have e35 := Ne.symm h35
  have e36 := Ne.symm h36; have e37 := Ne.symm h37; have e38 := Ne.symm h38
  have e45 := Ne.symm h45; have e46 := Ne.symm h46; have e47 := Ne.symm h47
  have e48 := Ne.symm h48; have e56 := Ne.symm h56; have e57 := Ne.symm h57
  have e58 := Ne.symm h58; have e67 := Ne.symm h67; have e68 := Ne.symm h68
  have e78 := Ne.symm h78
  by_cases k1 : k = a1
  · subst k1; simp [*]
  by_cases k2 : k = a2
  · subst k2; simp [*]
  by_cases k3 : k = a3
  · subst k3; simp [*]
  by_cases k4 : k = a4
  · subst k4; simp [*]
  by_cases k5 : k = b1
  · subst k5; cases hv : GoMap.lookup m a1 <;> simp [*]
  by_cases k6 : k = b2
  · subst k6; cases hv : GoMap.lookup m a2 <;> simp [*]
  by_cases k7 : k = b3
  · subst k7; cases hv : GoMap.lookup m a3 <;> simp [*]
  by_cases k8 : k = b4
  · subst k8; cases hv : GoMap.lookup m a4 <;> simp [*]
  simp [*]

theorem convertAnnotationTable_renamed (a1 a2 a3 a4 b1 b2 b3 b4 : String)
    (h : [a1, a2, a3, a4, b1, b2, b3, b4].Nodup) (m : GoMap) :
    KeysRenamed [a1, a2, a3, a4] [b1, b2, b3, b4] m
      (convertAnnotationTable [a1, a2, a3, a4] [b1, b2, b3, b4] m) ∧
    ∀ k, k ∉ [a1, a2, a3, a4, b1, b2, b3, b4] →
      GoMap.lookup (convertAnnotationTable [a1, a2, a3, a4] [b1, b2, b3, b4] m) k
        = GoMap.lookup m k := by
  have hl := convertAnnotationTable_lookup a1 a2 a3 a4 b1 b2 b3 b4 h m
  simp only [List.nodup_cons, List.mem_cons, List.mem_singleton, not_or, List.not_mem_nil,
    not_false_eq_true, List.nodup_nil, and_true] at h
  obtain ⟨⟨h12, h13, h14, h15, h16, h17, h18⟩, ⟨h23, h24, h25, h26, h27, h28⟩,
    ⟨h34, h35, h36, h37, h38⟩, ⟨h45, h46, h47, h48⟩, ⟨h56, h57, h58⟩, ⟨h67, h68⟩, h78⟩ := h
  have e15 := Ne.symm h15; have e16 := Ne.symm h16; have e17 := Ne.symm h17
  have e18 := Ne.symm h18; have e25 := Ne.symm h25; have e26 := Ne.symm h26
  have e27 := Ne.symm h27; have e28 := Ne.symm h28; have e35 := Ne.symm h35
  have e36 := Ne.symm h36; have e37 := Ne.symm h37; have e38 := Ne.symm h38
  have e45 := Ne.symm h45; have e46 := Ne.symm h46; have e47 := Ne.symm h47
  have e48 := Ne.symm h48; have e56 := Ne.symm h56; have e57 := Ne.symm h57
  have e58 := Ne.symm h58; have e67 := Ne.symm h67; have e68 := Ne.symm h68
  have e78 := Ne.symm h78
  constructor
  · intro p hp
    simp only [List.zip_cons_cons, List.zip_nil_right, List.mem_cons, List.mem_singleton,
      List.not_mem_nil, or_false] at hp
    rcases hp with rfl | rfl | rfl | rfl
    all_goals
      refine ⟨fun v hv => ?_, fun hv => ?_⟩ <;> simp [hl, hv, *]
  · intro k hk
    simp only [List.mem_cons, List.mem_singleton, List.not_mem_nil, or_false, not_or] at hk
    simp [hl, hk]

theorem MachineSet_ConvertTo_annotations (K : Consts) (X : MachineSetExt)
    (S : v1alpha2.MachineSet) (d : v1beta1.MachineSet) (htotal : X.Total) :
    (v1alpha2.MachineSet.ConvertTo K X S d).dst.ObjectMeta.Annotations =
      convertAnnotationTable (v2Annotations K) (beta1Annotations K)
        (X.Convert_v1alpha2_MachineSet_To_v1beta1_MachineSet S d).dst.ObjectMeta.Annotations := by
  unfold v1alpha2.MachineSet.ConvertTo
  rw [Outcome.eq_of_err_none _ (htotal.1 S d)]
  simp only []
  cases UnmarshalData K X.Recall S.ObjectMeta with
  | error e => cases hl : GoMap.lookup S.ObjectMeta.Labels K.MachineClusterLabelName <;> simp
  | ok o =>
    cases o with
    | none => cases hl : GoMap.lookup S.ObjectMeta.Labels K.MachineClusterLabelName <;> simp
    | some R =>
      by_cases hn : R.Spec.ClusterName = "" <;>
        cases hl : GoMap.lookup S.ObjectMeta.Labels K.MachineClusterLabelName <;> simp [hn]

theorem MachineSet_ConvertFrom_annotations (K : Consts) (X : MachineSetExt)
    (H : v1beta1.MachineSet) (d0 : v1alpha2.MachineSet) (htotal : X.Total) (k : String)
    (hk : k ≠ K.DataAnnotation) :
    GoMap.lookup (v1alpha2.MachineSet.ConvertFrom K X d0 H).dst.ObjectMeta.Annotations k =
      GoMap.lookup (convertAnnotationTable (beta1Annotations K) (v2Annotations K)
        (X.Convert_v1beta1_MachineSet_To_v1alpha2_MachineSet H d0).dst.ObjectMeta.Annotations)
        k := by
  unfold v1alpha2.MachineSet.ConvertFrom
  rw [Outcome.eq_of_err_none _ (htotal.2 H d0)]
  simp only [MarshalData]
  generalize convertAnnotationTable (beta1Annotations K) (v2Annotations K)
    (X.Convert_v1beta1_MachineSet_To_v1alpha2_MachineSet H d0).dst.ObjectMeta.Annotations = T
  cases X.Persist H <;> by_cases hn : H.Spec.ClusterName = "" <;>
    rcases T with _ | t <;> simp [hn, GoMap.lookup, StrMap.insert, StrMap.empty, hk]

theorem MachineDeployment_ConvertTo_annotations (K : Consts) (X : MachineDeploymentExt)
    (S : v1alpha2.MachineDeployment) (d : v1beta1.MachineDeployment) (htotal : X.Total) :
    (v1alpha2.MachineDeployment.ConvertTo K X S d).dst.ObjectMeta.Annotations =
      convertAnnotationTable (v2Annotations K) (beta1Annotations K)
        (X.Convert_v1alpha2_MachineDeployment_To_v1beta1_MachineDeployment
          S d).dst.ObjectMeta.Annotations := by
  unfold v1alpha2.MachineDeployment.ConvertTo
  rw [Outcome.eq_of_err_none _ (htotal.1 S d)]
  simp only []
  cases UnmarshalData K X.Recall S.ObjectMeta with
  | error e => cases hl : GoMap.lookup S.ObjectMeta.Labels K.MachineClusterLabelName <;> simp
  | ok o =>
    cases o with
    | none => cases hl : GoMap.lookup S.ObjectMeta.Labels K.MachineClusterLabelName <;> simp
    | some R =>
      by_cases hn : R.Spec.ClusterName = "" <;>
        cases hl : GoMap.lookup S.ObjectMeta.Labels K.MachineClusterLabelName <;>
        rcases hs : R.Spec.Strategy with _ | ⟨ty, _ | ru⟩ <;> simp [hn, hs]

theorem MachineDeployment_ConvertFrom_annotations (K : Consts) (X : MachineDeploymentExt)
    (H : v1beta1.MachineDeployment) (d0 : v1alpha2.MachineDeployment) (htotal : X.Total)
    (k : String) (hk : k ≠ K.DataAnnotation) :
    GoMap.lookup (v1alpha2.MachineDeployment.ConvertFrom K X d0 H).dst.ObjectMeta.Annotations k =
      GoMap.lookup (convertAnnotationTable (beta1Annotations K) (v2Annotations K)
        (X.Convert_v1beta1_MachineDeployment_To_v1alpha2_MachineDeployment
          H d0).dst.ObjectMeta.Annotations) k := by
  unfold v1alpha2.MachineDeployment.ConvertFrom
  rw [Outcome.eq_of_err_none _ (htotal.2 H d0)]
  simp only [MarshalData]
  generalize convertAnnotationTable (beta1Annotations K) (v2Annotations K)
    (X.Convert_v1beta1_MachineDeployment_To_v1alpha2_MachineDeployment
      H d0).dst.ObjectMeta.Annotations = T
  cases X.Persist H <;> by_cases hn : H.Spec.ClusterName = "" <;>
    rcases T with _ | t <;> simp [hn, GoMap.lookup, StrMap.insert, StrMap.empty, hk]

theorem KeysRenamed.congr (fromTable toTable : List String) (before after after2 : GoMap)
    (h : KeysRenamed fromTable toTable before after)
    (heq : ∀ p ∈ List.zip fromTable toTable,
      GoMap.lookup after2 p.1 = GoMap.lookup after p.1 ∧
      GoMap.lookup after2 p.2 = GoMap.lookup after p.2) :
    KeysRenamed fromTable toTable before after2 := by
  intro p hp
  obtain ⟨e1, e2⟩ := heq p hp
  rw [e1, e2]
  exact h p hp

theorem tables_nodup_swap (K : Consts)
    (hkeys : (v2Annotations K ++ beta1Annotations K).Nodup) :
    (beta1Annotations K ++ v2Annotations K).Nodup :=
  (List.perm_append_comm.nodup_iff).1 hkeys


theorem table_keys_ne_data (K : Consts)
    (hdata : K.DataAnnotation ∉ v2Annotations K ++ beta1Annotations K)
    (p : String × String) (hp : p ∈ List.zip (beta1Annotations K) (v2Annotations K)) :
    p.1 ≠ K.DataAnnotation ∧ p.2 ≠ K.DataAnnotation := by
  have h1 := (List.of_mem_zip hp).1
  have h2 := (List.of_mem_zip hp).2
  constructor
  · intro h; exact hdata (List.mem_append_right _ (h ▸ h1))
  · intro h; exact hdata (List.mem_append_left _ (h ▸ h2))

/-- C9. With the eight table keys pairwise distinct and the reserved stash key
outside the tables: MachineSet.ConvertTo and MachineDeployment.ConvertTo rename
every v1alpha2 key of the structurally copied annotations to its v1beta1 key
(value kept, source key gone; an absent source key is a no-op) and keep every
key outside the tables; ConvertFrom does the same with the tables swapped and
keeps every key outside the tables other than the stash key. -/
theorem annotation_tables_renamed (K : Consts) (XS : MachineSetExt)
    (XD : MachineDeploymentExt) (hS : XS.Total) (hD : XD.Total)
    (hkeys : (v2Annotations K ++ beta1Annotations K).Nodup)
    (hdata : K.DataAnnotation ∉ v2Annotations K ++ beta1Annotations K) :
    (∀ S d,
      KeysRenamed (v2Annotations K) (beta1Annotations K)
        (XS.Convert_v1alpha2_MachineSet_To_v1beta1_MachineSet S d).dst.ObjectMeta.Annotations
        (v1alpha2.MachineSet.ConvertTo K XS S d).dst.ObjectMeta.Annotations ∧
      ∀ k, k ∉ v2Annotations K ++ beta1Annotations K →
        GoMap.lookup (v1alpha2.MachineSet.ConvertTo K XS S d).dst.ObjectMeta.Annotations k =
        GoMap.lookup
          (XS.Convert_v1alpha2_MachineSet_To_v1beta1_MachineSet S d).dst.ObjectMeta.Annotations
          k) ∧
    (∀ H d0,
      KeysRenamed (beta1Annotations K) (v2Annotations K)
        (XS.Convert_v1beta1_MachineSet_To_v1alpha2_MachineSet H d0).dst.ObjectMeta.Annotations
        (v1alpha2.MachineSet.ConvertFrom K XS d0 H).dst.ObjectMeta.Annotations ∧
      ∀ k, k ∉ v2Annotations K ++ beta1Annotations K → k ≠ K.DataAnnotation →
        GoMap.lookup (v1alpha2.MachineSet.ConvertFrom K XS d0 H).dst.ObjectMeta.Annotations k =
        GoMap.lookup
          (XS.Convert_v1beta1_MachineSet_To_v1alpha2_MachineSet H d0).dst.ObjectMeta.Annotations
          k) ∧
    (∀ S d,
      KeysRenamed (v2Annotations K) (beta1Annotations K)
        (XD.Convert_v1alpha2_MachineDeployment_To_v1beta1_MachineDeployment
          S d).dst.ObjectMeta.Annotations
        (v1alpha2.MachineDeployment.ConvertTo K XD S d).dst.ObjectMeta.Annotations ∧
      ∀ k, k ∉ v2Annotations K ++ beta1Annotations K →
        GoMap.lookup (v1alpha2.MachineDeployment.ConvertTo K XD S d).dst.ObjectMeta.Annotations k =
        GoMap.lookup
          (XD.Convert_v1alpha2_MachineDeployment_To_v1beta1_MachineDeployment
            S d).dst.ObjectMeta.Annotations k) ∧
    (∀ H d0,
      KeysRenamed (beta1Annotations K) (v2Annotations K)
        (XD.Convert_v1beta1_MachineDeployment_To_v1alpha2_MachineDeployment
          H d0).dst.ObjectMeta.Annotations
        (v1alpha2.MachineDeployment.ConvertFrom K XD d0 H).dst.ObjectMeta.Annotations ∧
      ∀ k, k ∉ v2Annotations K ++ beta1Annotations K → k ≠ K.DataAnnotation →
        GoMap.lookup (v1alpha2.MachineDeployment.ConvertFrom K XD d0 H).dst.ObjectMeta.Annotations
          k =
        GoMap.lookup
          (XD.Convert_v1beta1_MachineDeployment_To_v1alpha2_MachineDeployment
            H d0).dst.ObjectMeta.Annotations k) := by
  have hup := convertAnnotationTable_renamed K.RevisionAnnotation K.RevisionHistoryAnnotation
    K.DesiredReplicasAnnotation K.MaxReplicasAnnotation K.beta1RevisionAnnotation
    K.beta1RevisionHistoryAnnotation K.beta1DesiredReplicasAnnotation
    K.beta1MaxReplicasAnnotation hkeys
  have hdown := convertAnnotationTable_renamed K.beta1RevisionAnnotation
    K.beta1RevisionHistoryAnnotation K.beta1DesiredReplicasAnnotation
    K.beta1MaxReplicasAnnotation K.RevisionAnnotation K.RevisionHistoryAnnotation
    K.DesiredReplicasAnnotation K.MaxReplicasAnnotation (tables_nodup_swap K hkeys)
  have hswap : ∀ k, k ∉ v2Annotations K ++ beta1Annotations K →
      k ∉ beta1Annotations K ++ v2Annotations K := by
    intro k hk hmem
    exact hk ((List.perm_append_comm.mem_iff).1 hmem)
  refine ⟨fun S d => ?_, fun H d0 => ?_, fun S d => ?_, fun H d0 => ?_⟩
  · rw [MachineSet_ConvertTo_annotations K XS S d hS]
    exact hup _
  · refine ⟨?_, fun k hk hkd => ?_⟩
    · refine KeysRenamed.congr _ _ _ _ _ (hdown _).1 (fun p hp => ?_)
      obtain ⟨n1, n2⟩ := table_keys_ne_data K hdata p hp
      exact ⟨MachineSet_ConvertFrom_annotations K XS H d0 hS p.1 n1,
        MachineSet_ConvertFrom_annotations K XS H d0 hS p.2 n2⟩
    · rw [MachineSet_ConvertFrom_annotations K XS H d0 hS k hkd]
      exact (hdown _).2 k (hswap k hk)
  · rw [MachineDeployment_ConvertTo_annotations K XD S d hD]
    exact hup _
  · refine ⟨?_, fun k hk hkd => ?_⟩
    · refine KeysRenamed.congr _ _ _ _ _ (hdown _).1 (fun p hp => ?_)
      obtain ⟨n1, n2⟩ := table_keys_ne_data K hdata p hp
      exact ⟨MachineDeployment_ConvertFrom_annotations K XD H d0 hD p.1 n1,
        MachineDeployment_ConvertFrom_annotations K XD H d0 hD p.2 n2⟩
    · rw [MachineDeployment_ConvertFrom_annotations K XD H d0 hD k hkd]
      exact (hdown _).2 k (hswap k hk)

/-- The test `should convert the annotations`: the revision annotation of the
spoke MachineDeployment is found under the v1beta1 key of the hub object and
no longer under the v1alpha2 key. -/
theorem annotation_tables_renamed_witness :
    GoMap.lookup (v1alpha2.MachineDeployment.ConvertTo Sample.consts
      (Sample.machineDeploymentExt {}) Sample.annotatedMachineDeployment {}).dst.ObjectMeta.Annotations
      Sample.consts.beta1RevisionAnnotation = some "test" ∧
    GoMap.lookup (v1alpha2.MachineDeployment.ConvertTo Sample.consts
      (Sample.machineDeploymentExt {}) Sample.annotatedMachineDeployment {}).dst.ObjectMeta.Annotations
      Sample.consts.RevisionAnnotation = none :=
  ((annotation_tables_renamed Sample.consts (Sample.machineSetExt {})
      (Sample.machineDeploymentExt {}) (Sample.machineSetExt_total _)
      (Sample.machineDeploymentExt_total _) (by decide) (by decide)).2.2.1
    Sample.annotatedMachineDeployment {}).1
    (Sample.consts.RevisionAnnotation, Sample.consts.beta1RevisionAnnotation)
    (by simp [v2Annotations, beta1Annotations]) |>.1 "test" (by decide)

/-- C10, as stated, fails: on a map that holds only the target key, renaming
the v1alpha2 revision key to the v1beta1 one is a no-op and renaming back moves
the entry to the v1alpha2 key. -/
theorem convertAnnotations_inverse_counterexample :
    convertAnnotations Sample.consts.beta1RevisionAnnotation Sample.consts.RevisionAnnotation
      (convertAnnotations Sample.consts.RevisionAnnotation Sample.consts.beta1RevisionAnnotation
        (some (StrMap.ofList [(Sample.consts.beta1RevisionAnnotation, "test")])))
      ≠ some (StrMap.ofList [(Sample.consts.beta1RevisionAnnotation, "test")]) := by
  intro h
  have h2 := congrArg (fun m => GoMap.lookup m Sample.consts.RevisionAnnotation) h
  exact absurd h2 (by decide)

/-- C10, amended. Renaming key A to B and then B back to A gives back the
original annotation map exactly when the map does not already hold the target
key B (or A and B are the same key). -/
theorem convertAnnotations_inverse_iff (A B : String) (m : GoMap) :
    convertAnnotations B A (convertAnnotations A B m) = m ↔
      (A = B ∨ GoMap.lookup m B = none) := by
  by_cases hab : A = B
  · subst hab
    simp [convertAnnotations_same]
  · have hba : B ≠ A := Ne.symm hab
    rw [GoMap.ext_iff]
    simp only [convertAnnotations_isSome, true_and, hab, false_or,
      lookup_convertAnnotations B A hba, lookup_convertAnnotations A B hab, if_true]
    constructor
    · intro h
      have h2 := h B
      simp only [hba, if_false, if_true] at h2
      exact h2.symm
    · intro hB k
      by_cases hka : k = A
      · subst hka
        cases hv : GoMap.lookup m k <;> simp [hv, hB, hab]
      · by_cases hkb : k = B
        · simp [hkb, hba, hB]
        · simp [hka, hkb]

theorem Machine_relocated_ClusterName (K : Consts) (S : v1alpha2.Machine)
    (c : v1beta1.Machine) :
    (v1alpha2.Machine.relocated K S c).Spec.ClusterName =
      (match GoMap.lookup S.ObjectMeta.Labels K.MachineClusterLabelName with
        | some name => name
        | none => c.Spec.ClusterName) := by
  unfold v1alpha2.Machine.relocated
  cases GoMap.lookup S.ObjectMeta.Labels K.MachineClusterLabelName <;>
    cases GoMap.lookup S.ObjectMeta.Annotations K.ExcludeNodeDrainingAnnotation <;> rfl

theorem Machine_relocated_labels (K : Consts) (S : v1alpha2.Machine) (c : v1beta1.Machine) :
    (v1alpha2.Machine.relocated K S c).ObjectMeta.Labels =
      (match GoMap.lookup S.ObjectMeta.Labels K.MachineClusterLabelName with
        | some _ => GoMap.delete c.ObjectMeta.Labels K.MachineClusterLabelName
        | none => c.ObjectMeta.Labels) := by
  unfold v1alpha2.Machine.relocated
  cases GoMap.lookup S.ObjectMeta.Labels K.MachineClusterLabelName <;>
    cases GoMap.lookup S.ObjectMeta.Annotations K.ExcludeNodeDrainingAnnotation <;> rfl

theorem Machine_relocated_annotations (K : Consts) (S : v1alpha2.Machine)
    (c : v1beta1.Machine) :
    (v1alpha2.Machine.relocated K S c).ObjectMeta.Annotations =
      (match GoMap.lookup S.ObjectMeta.Annotations K.ExcludeNodeDrainingAnnotation with
        | some val => GoMap.move c.ObjectMeta.Annotations
            K.beta1ExcludeNodeDrainingAnnotation val K.ExcludeNodeDrainingAnnotation
        | none => c.ObjectMeta.Annotations) := by
  unfold v1alpha2.Machine.relocated
  cases GoMap.lookup S.ObjectMeta.Labels K.MachineClusterLabelName <;>
    cases GoMap.lookup S.ObjectMeta.Annotations K.ExcludeNodeDrainingAnnotation <;> rfl

theorem Machine_ConvertTo_no_stash (K : Consts) (X : MachineExt) (S : v1alpha2.Machine)
    (d : v1beta1.Machine) (htotal : X.Total)
    (hk : K.DataAnnotation ≠ K.beta1ExcludeNodeDrainingAnnotation)
    (hstash : GoMap.lookup S.ObjectMeta.Annotations K.DataAnnotation = none) :
    (v1alpha2.Machine.ConvertTo K X S d).err = none ∧
    (v1alpha2.Machine.ConvertTo K X S d).dst =
      v1alpha2.Machine.relocated K S (X.Convert_v1alpha2_Machine_To_v1beta1_Machine S d).dst := by
  unfold v1alpha2.Machine.ConvertTo v1alpha2.Machine.relocated
  rw [Outcome.eq_of_err_none _ (htotal.1 S d)]
  simp only []
  rcases hA : S.ObjectMeta.Annotations with _ | a
  · simp only [UnmarshalData, hA, GoMap.lookup]
    cases hL : S.ObjectMeta.Labels with
    | none => simp
    | some l => cases hl : l K.MachineClusterLabelName <;> simp
  · have ha : a K.DataAnnotation = none := by simpa [hA, GoMap.lookup] using hstash
    rcases hv : a K.ExcludeNodeDrainingAnnotation with _ | val
    · simp only [hv, UnmarshalData, hA, GoMap.lookup, ha]
      cases hL : S.ObjectMeta.Labels with
      | none => simp
      | some l => cases hl : l K.MachineClusterLabelName <;> simp
    · have h3 : StrMap.erase (StrMap.insert a K.beta1ExcludeNodeDrainingAnnotation val)
          K.ExcludeNodeDrainingAnnotation K.DataAnnotation = none := by
        by_cases hke : K.DataAnnotation = K.ExcludeNodeDrainingAnnotation
        · simp [StrMap.erase, hke]
        · simp [StrMap.erase, StrMap.insert, hke, hk, ha]
      simp only [hv, UnmarshalData, GoMap.lookup, h3]
      cases hL : S.ObjectMeta.Labels with
      | none => simp
      | some l => cases hl : l K.MachineClusterLabelName <;> simp

theorem MachineSet_ConvertTo_no_stash (K : Consts) (X : MachineSetExt) (S : v1alpha2.MachineSet)
    (d : v1beta1.MachineSet) (htotal : X.Total)
    (hstash : GoMap.lookup S.ObjectMeta.Annotations K.DataAnnotation = none) :
    (v1alpha2.MachineSet.ConvertTo K X S d).err = none ∧
    (v1alpha2.MachineSet.ConvertTo K X S d).dst.Spec =
      (match GoMap.lookup S.ObjectMeta.Labels K.MachineClusterLabelName with
        | some name =>
          { (X.Convert_v1alpha2_MachineSet_To_v1beta1_MachineSet S d).dst.Spec with
            ClusterName := name
            Template :=
              { (X.Convert_v1alpha2_MachineSet_To_v1beta1_MachineSet S d).dst.Spec.Template with
                Spec :=
                  { (X.Convert_v1alpha2_MachineSet_To_v1beta1_MachineSet
                      S d).dst.Spec.Template.Spec with ClusterName := name } } }
        | none => (X.Convert_v1alpha2_MachineSet_To_v1beta1_MachineSet S d).dst.Spec) ∧
    (v1alpha2.MachineSet.ConvertTo K X S d).dst.ObjectMeta.Labels =
      (match GoMap.lookup S.ObjectMeta.Labels K.MachineClusterLabelName with
        | some _ => GoMap.delete
            (X.Convert_v1alpha2_MachineSet_To_v1beta1_MachineSet S d).dst.ObjectMeta.Labels
            K.MachineClusterLabelName
        | none => (X.Convert_v1alpha2_MachineSet_To_v1beta1_MachineSet S d).dst.ObjectMeta.Labels) ∧
    (v1alpha2.MachineSet.ConvertTo K X S d).dst.Status =
      (X.Convert_v1alpha2_MachineSet_To_v1beta1_MachineSet S d).dst.Status := by
  unfold v1alpha2.MachineSet.ConvertTo
  rw [Outcome.eq_of_err_none _ (htotal.1 S d)]
  simp only [UnmarshalData, hstash]
  cases hl : GoMap.lookup S.ObjectMeta.Labels K.MachineClusterLabelName <;> simp

theorem MachineDeployment_ConvertTo_no_stash (K : Consts) (X : MachineDeploymentExt)
    (S : v1alpha2.MachineDeployment) (d : v1beta1.MachineDeployment) (htotal : X.Total)
    (hstash : GoMap.lookup S.ObjectMeta.Annotations K.DataAnnotation = none) :
    (v1alpha2.MachineDeployment.ConvertTo K X S d).err = none ∧
    (v1alpha2.MachineDeployment.ConvertTo K X S d).dst.Spec =
      (match GoMap.lookup S.ObjectMeta.Labels K.MachineClusterLabelName with
        | some name =>
          { (X.Convert_v1alpha2_MachineDeployment_To_v1beta1_MachineDeployment S d).dst.Spec with
            ClusterName := name
            Template :=
              { (X.Convert_v1alpha2_MachineDeployment_To_v1beta1_MachineDeployment
                  S d).dst.Spec.Template with
                Spec :=
                  { (X.Convert_v1alpha2_MachineDeployment_To_v1beta1_MachineDeployment
                      S d).dst.Spec.Template.Spec with ClusterName := name } } }
        | none =>
          (X.Convert_v1alpha2_MachineDeployment_To_v1beta1_MachineDeployment S d).dst.Spec) ∧
    (v1alpha2.MachineDeployment.ConvertTo K X S d).dst.ObjectMeta.Labels =
      (match GoMap.lookup S.ObjectMeta.Labels K.MachineClusterLabelName with
        | some _ => GoMap.delete
            (X.Convert_v1alpha2_MachineDeployment_To_v1beta1_MachineDeployment
              S d).dst.ObjectMeta.Labels K.MachineClusterLabelName
        | none =>
          (X.Convert_v1alpha2_MachineDeployment_To_v1beta1_MachineDeployment
            S d).dst.ObjectMeta.Labels) ∧
    (v1alpha2.MachineDeployment.ConvertTo K X S d).dst.Status =
      (X.Convert_v1alpha2_MachineDeployment_To_v1beta1_MachineDeployment S d).dst.Status := by
  unfold v1alpha2.MachineDeployment.ConvertTo
  rw [Outcome.eq_of_err_none _ (htotal.1 S d)]
  simp only [UnmarshalData, hstash]
  cases hl : GoMap.lookup S.ObjectMeta.Labels K.MachineClusterLabelName <;> simp

theorem GoMap.lookup_delete_self (m : GoMap) (k : String) :
    GoMap.lookup (GoMap.delete m k) k = none := by
  rcases m with _ | f <;> simp [GoMap.lookup, GoMap.delete, StrMap.erase]

theorem GoMap.lookup_delete_of_ne (m : GoMap) (k x : String) (h : x ≠ k) :
    GoMap.lookup (GoMap.delete m k) x = GoMap.lookup m x := by
  rcases m with _ | f <;> simp [GoMap.lookup, GoMap.delete, StrMap.erase, h]

/-- C7. A spoke Machine, MachineSet or MachineDeployment without a stash entry
up-converts without error; when it carries the cluster-name label with value n,
the hub Spec.ClusterName (and, for MachineSet and MachineDeployment, the
template's ClusterName) is n, the hub labels no longer hold the cluster-name
label and hold every other label of the structural copy; when the label is
absent, the cluster names and the labels are those of the structural copy. The
copiers are total and the stash key is not the v1beta1 exclude-node-draining
key. -/
theorem label_promoted_to_ClusterName (K : Consts) (XM : MachineExt) (XS : MachineSetExt)
    (XD : MachineDeploymentExt) (hM : XM.Total) (hS : XS.Total) (hD : XD.Total)
    (hk : K.DataAnnotation ≠ K.beta1ExcludeNodeDrainingAnnotation) :
    (∀ S d, GoMap.lookup S.ObjectMeta.Annotations K.DataAnnotation = none →
      (v1alpha2.Machine.ConvertTo K XM S d).err = none ∧
      (∀ n, GoMap.lookup S.ObjectMeta.Labels K.MachineClusterLabelName = some n →
          (v1alpha2.Machine.ConvertTo K XM S d).dst.Spec.ClusterName = n ∧
          GoMap.lookup (v1alpha2.Machine.ConvertTo K XM S d).dst.ObjectMeta.Labels
            K.MachineClusterLabelName = none ∧
          ∀ k, k ≠ K.MachineClusterLabelName →
            GoMap.lookup (v1alpha2.Machine.ConvertTo K XM S d).dst.ObjectMeta.Labels k
              = GoMap.lookup (XM.Convert_v1alpha2_Machine_To_v1beta1_Machine S d).dst.ObjectMeta.Labels k) ∧
      (GoMap.lookup S.ObjectMeta.Labels K.MachineClusterLabelName = none →
          (v1alpha2.Machine.ConvertTo K XM S d).dst.Spec.ClusterName
            = (XM.Convert_v1alpha2_Machine_To_v1beta1_Machine S d).dst.Spec.ClusterName ∧
          (v1alpha2.Machine.ConvertTo K XM S d).dst.ObjectMeta.Labels
            = (XM.Convert_v1alpha2_Machine_To_v1beta1_Machine S d).dst.ObjectMeta.Labels)) ∧
    (∀ S d, GoMap.lookup S.ObjectMeta.Annotations K.DataAnnotation = none →
      (v1alpha2.MachineSet.ConvertTo K XS S d).err = none ∧
      (∀ n, GoMap.lookup S.ObjectMeta.Labels K.MachineClusterLabelName = some n →
          (v1alpha2.MachineSet.ConvertTo K XS S d).dst.Spec.ClusterName = n ∧
          (v1alpha2.MachineSet.ConvertTo K XS S d).dst.Spec.Template.Spec.ClusterName = n ∧
          GoMap.lookup (v1alpha2.MachineSet.ConvertTo K XS S d).dst.ObjectMeta.Labels
            K.MachineClusterLabelName = none ∧
          ∀ k, k ≠ K.MachineClusterLabelName →
            GoMap.lookup (v1alpha2.MachineSet.ConvertTo K XS S d).dst.ObjectMeta.Labels k
              = GoMap.lookup (XS.Convert_v1alpha2_MachineSet_To_v1beta1_MachineSet S d).dst.ObjectMeta.Labels k) ∧
      (GoMap.lookup S.ObjectMeta.Labels K.MachineClusterLabelName = none →
          (v1alpha2.MachineSet.ConvertTo K XS S d).dst.Spec.ClusterName
            = (XS.Convert_v1alpha2_MachineSet_To_v1beta1_MachineSet S d).dst.Spec.ClusterName ∧
          (v1alpha2.MachineSet.ConvertTo K XS S d).dst.Spec.Template.Spec.ClusterName
            = (XS.Convert_v1alpha2_MachineSet_To_v1beta1_MachineSet S d).dst.Spec.Template.Spec.ClusterName ∧
          (v1alpha2.MachineSet.ConvertTo K XS S d).dst.ObjectMeta.Labels
            = (XS.Convert_v1alpha2_MachineSet_To_v1beta1_MachineSet S d).dst.ObjectMeta.Labels)) ∧
    (∀ S d, GoMap.lookup S.ObjectMeta.Annotations K.DataAnnotation = none →
      (v1alpha2.MachineDeployment.ConvertTo K XD S d).err = none ∧
      (∀ n, GoMap.lookup S.ObjectMeta.Labels K.MachineClusterLabelName = some n →
          (v1alpha2.MachineDeployment.ConvertTo K XD S d).dst.Spec.ClusterName = n ∧
          (v1alpha2.MachineDeployment.ConvertTo K XD S d).dst.Spec.Template.Spec.ClusterName = n ∧
          GoMap.lookup (v1alpha2.MachineDeployment.ConvertTo K XD S d).dst.ObjectMeta.Labels
            K.MachineClusterLabelName = none ∧
          ∀ k, k ≠ K.MachineClusterLabelName →
            GoMap.lookup (v1alpha2.MachineDeployment.ConvertTo K XD S d).dst.ObjectMeta.Labels k
              = GoMap.lookup (XD.Convert_v1alpha2_MachineDeployment_To_v1beta1_MachineDeployment S d).dst.ObjectMeta.Labels k) ∧
      (GoMap.lookup S.ObjectMeta.Labels K.MachineClusterLabelName = none →
          (v1alpha2.MachineDeployment.ConvertTo K XD S d).dst.Spec.ClusterName
            = (XD.Convert_v1alpha2_MachineDeployment_To_v1beta1_MachineDeployment S d).dst.Spec.ClusterName ∧
          (v1alpha2.MachineDeployment.ConvertTo K XD S d).dst.Spec.Template.Spec.ClusterName
            = (XD.Convert_v1alpha2_MachineDeployment_To_v1beta1_MachineDeployment S d).dst.Spec.Template.Spec.ClusterName ∧
          (v1alpha2.MachineDeployment.ConvertTo K XD S d).dst.ObjectMeta.Labels
            = (XD.Convert_v1alpha2_MachineDeployment_To_v1beta1_MachineDeployment S d).dst.ObjectMeta.Labels)) := by
  refine ⟨fun S d hstash => ?_, fun S d hstash => ?_, fun S d hstash => ?_⟩
  · obtain ⟨h1, h2⟩ := Machine_ConvertTo_no_stash K XM S d hM hk hstash
    refine ⟨h1, fun n hn => ?_, fun hn => ?_⟩
    · rw [h2, Machine_relocated_ClusterName, Machine_relocated_labels]
      simp only [hn, GoMap.lookup_delete_self, true_and]
      exact fun k hk => GoMap.lookup_delete_of_ne _ _ _ hk
    · rw [h2, Machine_relocated_ClusterName, Machine_relocated_labels]
      simp only [hn, and_self]
  · obtain ⟨h1, h2, h3, _⟩ := MachineSet_ConvertTo_no_stash K XS S d hS hstash
    refine ⟨h1, fun n hn => ?_, fun hn => ?_⟩
    · rw [h2, h3]
      simp only [hn, GoMap.lookup_delete_self, true_and]
      exact fun k hk => GoMap.lookup_delete_of_ne _ _ _ hk
    · rw [h2, h3]
      simp only [hn, and_self]
  · obtain ⟨h1, h2, h3, _⟩ := MachineDeployment_ConvertTo_no_stash K XD S d hD hstash
    refine ⟨h1, fun n hn => ?_, fun hn => ?_⟩
    · rw [h2, h3]
      simp only [hn, GoMap.lookup_delete_self, true_and]
      exact fun k hk => GoMap.lookup_delete_of_ne _ _ _ hk
    · rw [h2, h3]
      simp only [hn, and_self]

/-- The test `should convert the Spec.ClusterName from label` for MachineSet. -/
theorem label_promoted_to_ClusterName_witness :
    (v1alpha2.MachineSet.ConvertTo Sample.consts (Sample.machineSetExt {})
      Sample.labelledSpokeMachineSet {}).dst.Spec.ClusterName = "test-cluster" ∧
    (v1alpha2.MachineSet.ConvertTo Sample.consts (Sample.machineSetExt {})
      Sample.labelledSpokeMachineSet {}).dst.Spec.Template.Spec.ClusterName = "test-cluster" ∧
    GoMap.lookup (v1alpha2.MachineSet.ConvertTo Sample.consts (Sample.machineSetExt {})
      Sample.labelledSpokeMachineSet {}).dst.ObjectMeta.Labels
      Sample.consts.MachineClusterLabelName = none :=
  have h := ((label_promoted_to_ClusterName Sample.consts (Sample.machineExt {})
    (Sample.machineSetExt {}) (Sample.machineDeploymentExt {}) (Sample.machineExt_total _)
    (Sample.machineSetExt_total _) (Sample.machineDeploymentExt_total _) (by decide)).2.1
    Sample.labelledSpokeMachineSet {} (by decide)).2.1 "test-cluster" (by decide)
  ⟨h.1, h.2.1, h.2.2.1⟩

theorem Machine_ConvertFrom_labels (K : Consts) (X : MachineExt) (H : v1beta1.Machine)
    (d0 : v1alpha2.Machine) (htotal : X.Total) :
    (v1alpha2.Machine.ConvertFrom K X d0 H).dst.ObjectMeta.Labels =
      (if H.Spec.ClusterName ≠ "" then
        some (StrMap.insert
          ((X.Convert_v1beta1_Machine_To_v1alpha2_Machine H d0).dst.ObjectMeta.Labels.getD
            StrMap.empty)
          K.MachineClusterLabelName H.Spec.ClusterName)
      else (X.Convert_v1beta1_Machine_To_v1alpha2_Machine H d0).dst.ObjectMeta.Labels) := by
  unfold v1alpha2.Machine.ConvertFrom
  rw [Outcome.eq_of_err_none _ (htotal.2 H d0)]
  simp only [MarshalData]
  rcases hA : H.ObjectMeta.Annotations with _ | a
  · simp only []
    cases X.Persist H <;> by_cases hn : H.Spec.ClusterName = "" <;> simp [hn]
  · simp only []
    rcases hv : a K.beta1ExcludeNodeDrainingAnnotation with _ | val
    · simp only []
      cases X.Persist H <;> by_cases hn : H.Spec.ClusterName = "" <;> simp [hn]
    · simp only []
      generalize hsrc :
        ({ ObjectMeta := _, Spec := H.Spec, Status := H.Status } : v1beta1.Machine) = src
      cases X.Persist src <;> by_cases hn : H.Spec.ClusterName = "" <;> simp [hn]

theorem MachineSet_ConvertFrom_labels (K : Consts) (X : MachineSetExt) (H : v1beta1.MachineSet)
    (d0 : v1alpha2.MachineSet) (htotal : X.Total) :
    (v1alpha2.MachineSet.ConvertFrom K X d0 H).dst.ObjectMeta.Labels =
      (if H.Spec.ClusterName ≠ "" then
        some (StrMap.insert
          ((X.Convert_v1beta1_MachineSet_To_v1alpha2_MachineSet H d0).dst.ObjectMeta.Labels.getD
            StrMap.empty)
          K.MachineClusterLabelName H.Spec.ClusterName)
      else (X.Convert_v1beta1_MachineSet_To_v1alpha2_MachineSet H d0).dst.ObjectMeta.Labels) := by
  unfold v1alpha2.MachineSet.ConvertFrom
  rw [Outcome.eq_of_err_none _ (htotal.2 H d0)]
  simp only [MarshalData]
  cases X.Persist H <;> by_cases hn : H.Spec.ClusterName = "" <;> simp [hn]

theorem MachineDeployment_ConvertFrom_labels (K : Consts) (X : MachineDeploymentExt)
    (H : v1beta1.MachineDeployment) (d0 : v1alpha2.MachineDeployment) (htotal : X.Total) :
    (v1alpha2.MachineDeployment.ConvertFrom K X d0 H).dst.ObjectMeta.Labels =
      (if H.Spec.ClusterName ≠ "" then
        some (StrMap.insert
          ((X.Convert_v1beta1_MachineDeployment_To_v1alpha2_MachineDeployment
            H d0).dst.ObjectMeta.Labels.getD StrMap.empty)
          K.MachineClusterLabelName H.Spec.ClusterName)
      else (X.Convert_v1beta1_MachineDeployment_To_v1alpha2_MachineDeployment
        H d0).dst.ObjectMeta.Labels) := by
  unfold v1alpha2.MachineDeployment.ConvertFrom
  rw [Outcome.eq_of_err_none _ (htotal.2 H d0)]
  simp only [MarshalData]
  cases X.Persist H <;> by_cases hn : H.Spec.ClusterName = "" <;> simp [hn]

/-- The labels after `labels[k] = v`, with the map allocated when it was nil. -/
theorem labels_after_write (labels : GoMap) (k v : String) :
    (some (StrMap.insert (labels.getD StrMap.empty) k v) : GoMap).isSome = true ∧
    GoMap.lookup (some (StrMap.insert (labels.getD StrMap.empty) k v)) k = some v ∧
    ∀ x, x ≠ k →
      GoMap.lookup (some (StrMap.insert (labels.getD StrMap.empty) k v)) x
        = GoMap.lookup labels x := by
  refine ⟨rfl, by simp [GoMap.lookup, StrMap.insert], fun x hx => ?_⟩
  rcases labels with _ | f <;> simp [GoMap.lookup, StrMap.insert, StrMap.empty, hx]


/-- C8. Down-converting a hub Machine, MachineSet or MachineDeployment with a
non-empty Spec.ClusterName gives a spoke whose label map is allocated, maps the
cluster-name label to that name (whatever was under the label before) and
agrees with the structural copy on every other label; with an empty
Spec.ClusterName the labels are exactly those of the structural copy. The
copiers are total. -/
theorem ClusterName_written_to_label (K : Consts) (XM : MachineExt) (XS : MachineSetExt)
    (XD : MachineDeploymentExt) (hM : XM.Total) (hS : XS.Total) (hD : XD.Total) :
    (∀ H d0,
      (H.Spec.ClusterName ≠ "" →
        (v1alpha2.Machine.ConvertFrom K XM d0 H).dst.ObjectMeta.Labels.isSome = true ∧
        GoMap.lookup (v1alpha2.Machine.ConvertFrom K XM d0 H).dst.ObjectMeta.Labels
          K.MachineClusterLabelName = some H.Spec.ClusterName ∧
        ∀ k, k ≠ K.MachineClusterLabelName →
          GoMap.lookup (v1alpha2.Machine.ConvertFrom K XM d0 H).dst.ObjectMeta.Labels k
            = GoMap.lookup (XM.Convert_v1beta1_Machine_To_v1alpha2_Machine H d0).dst.ObjectMeta.Labels k) ∧
      (H.Spec.ClusterName = "" →
        (v1alpha2.Machine.ConvertFrom K XM d0 H).dst.ObjectMeta.Labels
          = (XM.Convert_v1beta1_Machine_To_v1alpha2_Machine H d0).dst.ObjectMeta.Labels)) ∧
    (∀ H d0,
      (H.Spec.ClusterName ≠ "" →
        (v1alpha2.MachineSet.ConvertFrom K XS d0 H).dst.ObjectMeta.Labels.isSome = true ∧
        GoMap.lookup (v1alpha2.MachineSet.ConvertFrom K XS d0 H).dst.ObjectMeta.Labels
          K.MachineClusterLabelName = some H.Spec.ClusterName ∧
        ∀ k, k ≠ K.MachineClusterLabelName →
          GoMap.lookup (v1alpha2.MachineSet.ConvertFrom K XS d0 H).dst.ObjectMeta.Labels k
            = GoMap.lookup (XS.Convert_v1beta1_MachineSet_To_v1alpha2_MachineSet H d0).dst.ObjectMeta.Labels k) ∧
      (H.Spec.ClusterName = "" →
        (v1alpha2.MachineSet.ConvertFrom K XS d0 H).dst.ObjectMeta.Labels
          = (XS.Convert_v1beta1_MachineSet_To_v1alpha2_MachineSet H d0).dst.ObjectMeta.Labels)) ∧
    (∀ H d0,
      (H.Spec.ClusterName ≠ "" →
        (v1alpha2.MachineDeployment.ConvertFrom K XD d0 H).dst.ObjectMeta.Labels.isSome = true ∧
        GoMap.lookup (v1alpha2.MachineDeployment.ConvertFrom K XD d0 H).dst.ObjectMeta.Labels
          K.MachineClusterLabelName = some H.Spec.ClusterName ∧
        ∀ k, k ≠ K.MachineClusterLabelName →
          GoMap.lookup (v1alpha2.MachineDeployment.ConvertFrom K XD d0 H).dst.ObjectMeta.Labels k
            = GoMap.lookup (XD.Convert_v1beta1_MachineDeployment_To_v1alpha2_MachineDeployment H d0).dst.ObjectMeta.Labels k) ∧
      (H.Spec.ClusterName = "" →
        (v1alpha2.MachineDeployment.ConvertFrom K XD d0 H).dst.ObjectMeta.Labels
          = (XD.Convert_v1beta1_MachineDeployment_To_v1alpha2_MachineDeployment H d0).dst.ObjectMeta.Labels)) := by
  refine ⟨fun H d0 => ?_, fun H d0 => ?_, fun H d0 => ?_⟩
  · rw [Machine_ConvertFrom_labels K XM H d0 hM]
    refine ⟨fun hn => ?_, fun hn => ?_⟩
    · rw [if_pos hn]; exact labels_after_write _ _ _
    · rw [if_neg (not_not.2 hn)]
  · rw [MachineSet_ConvertFrom_labels K XS H d0 hS]
    refine ⟨fun hn => ?_, fun hn => ?_⟩
    · rw [if_pos hn]; exact labels_after_write _ _ _
    · rw [if_neg (not_not.2 hn)]
  · rw [MachineDeployment_ConvertFrom_labels K XD H d0 hD]
    refine ⟨fun hn => ?_, fun hn => ?_⟩
    · rw [if_pos hn]; exact labels_after_write _ _ _
    · rw [if_neg (not_not.2 hn)]

/-- The hub Machine of the test, whose structural copy has a nil label map:
the spoke labels are allocated and hold the cluster name. -/
theorem ClusterName_written_to_label_witness :
    (v1alpha2.Machine.ConvertFrom Sample.consts (Sample.machineExt Sample.hubMachine) {}
      Sample.hubMachine).dst.ObjectMeta.Labels.isSome = true ∧
    GoMap.lookup (v1alpha2.Machine.ConvertFrom Sample.consts
      (Sample.machineExt Sample.hubMachine) {} Sample.hubMachine).dst.ObjectMeta.Labels
      Sample.consts.MachineClusterLabelName = some "test-cluster" :=
  have h := ((ClusterName_written_to_label Sample.consts (Sample.machineExt Sample.hubMachine)
    (Sample.machineSetExt {}) (Sample.machineDeploymentExt {}) (Sample.machineExt_total _)
    (Sample.machineSetExt_total _) (Sample.machineDeploymentExt_total _)).1
    Sample.hubMachine {}).1 (by decide)
  ⟨h.1, h.2.1⟩

theorem trackPaths_of_not_mem (files : List v1beta1.File) (i : Nat)
    (m : String → Option Nat) (p : String) (hp : p ∉ files.map (fun f => f.Path)) :
    trackPaths i files m p = m p := by
  induction files generalizing i m with
  | nil => rfl
  | cons f rest ih =>
    simp only [List.map_cons, List.mem_cons, not_or] at hp
    rw [trackPaths, ih _ _ hp.2]
    simp [hp.1]

theorem trackPaths_of_nodup (files : List v1beta1.File) (i : Nat)
    (m : String → Option Nat) (hn : (files.map (fun f => f.Path)).Nodup)
    (j : Nat) (f : v1beta1.File) (hj : files[j]? = some f) :
    trackPaths i files m f.Path = some (i + j) := by
  induction files generalizing i m j with
  | nil => simp at hj
  | cons g rest ih =>
    simp only [List.map_cons, List.nodup_cons] at hn
    rw [trackPaths]
    cases j with
    | zero =>
      simp only [List.getElem?_cons_zero, Option.some.injEq] at hj
      subst hj
      rw [trackPaths_of_not_mem _ _ _ _ hn.1]
      simp
    | succ j =>
      simp only [List.getElem?_cons_succ] at hj
      rw [ih _ _ hn.2 j hj]
      congr 1
      omega

theorem restoreFile_eq_self (files : List v1beta1.File)
    (hn : (files.map (fun f => f.Path)).Nodup)
    (hc : ∀ f ∈ files, f.Content = "" → f.ContentFrom ≠ none) (i : Nat) :
    restoreFile (trackPaths 0 files (fun _ => none)) files i = some files := by
  unfold restoreFile
  cases hi : files[i]? with
  | none => rfl
  | some f =>
    simp only [trackPaths_of_nodup files 0 _ hn i f hi, Nat.zero_add, hi]
    by_cases hcontent : f.Content = ""
    · have hmem : f ∈ files := List.getElem?_mem hi
      cases hsrc : f.ContentFrom with
      | none => exact absurd hsrc (hc f hmem hcontent)
      | some source =>
        simp only [hcontent, if_true]
        congr 1
        have hf : ({ f with ContentFrom := some source } : v1beta1.File) = f := by
          cases f; simp_all
        simp only [hcontent] at hf
        rw [hf]
        apply List.ext_getElem?
        intro n
        by_cases hni : i = n
        · subst hni
          rw [List.getElem?_set_eq_of_lt]
          · exact hi.symm
          · exact (List.getElem?_eq_some.1 hi).1
        · rw [List.getElem?_set_ne hni]
    · simp [hcontent]

theorem foldlM_eq_self {α β : Type} (step : α → β → Option α) (a : α)
    (h : ∀ b, step a b = some a) (l : List β) : l.foldlM step a = some a := by
  induction l with
  | nil => rfl
  | cons b rest ih => simp [List.foldlM, h b, ih]

theorem restoreFiles_eq_self (files : List v1beta1.File)
    (hn : (files.map (fun f => f.Path)).Nodup)
    (hc : ∀ f ∈ files, f.Content = "" → f.ContentFrom ≠ none) :
    restoreFiles files = some files :=
  foldlM_eq_self _ _ (restoreFile_eq_self files hn hc) _


theorem KubeadmConfig_ConvertFrom_stash (K : Consts) (X : KubeadmConfigExt)
    (H : v1beta1.KubeadmConfig) (d0 : v1alpha2.KubeadmConfig) (b : String)
    (htotal : X.Total) (hpersist : X.Persist H = .ok b) :
    (v1alpha2.KubeadmConfig.ConvertFrom K X d0 H).err = none ∧
    GoMap.lookup (v1alpha2.KubeadmConfig.ConvertFrom K X d0 H).dst.ObjectMeta.Annotations
      K.DataAnnotation = some b := by
  unfold v1alpha2.KubeadmConfig.ConvertFrom
  rw [Outcome.eq_of_err_none _ (htotal.2 H d0)]
  simp only [MarshalData, hpersist, GoMap.lookup_insert_self, and_self]

/-- C6. For a hub KubeadmConfig whose files have pairwise distinct paths and
whose files with empty Content all have a ContentFrom, down-conversion followed
by up-conversion returns without panic or error and gives back Spec.Files,
Verbosity, UseExperimentalRetryJoin, DiskSetup, Mounts, Status.DataSecretName,
Status.ObservedGeneration and Status.Conditions, provided the copiers succeed
and the codec returns the spec and status of the hub object. -/
theorem KubeadmConfig_roundtrip_restores_hub_fields (K : Consts) (X : KubeadmConfigExt)
    (H R d : v1beta1.KubeadmConfig) (d0 : v1alpha2.KubeadmConfig) (b : String)
    (htotal : X.Total)
    (hpersist : X.Persist H = .ok b) (hrecall : X.Recall b = .ok R)
    (hspec : R.Spec = H.Spec) (hstatus : R.Status = H.Status)
    (hpaths : (H.Spec.Files.map (fun f => f.Path)).Nodup)
    (hcontent : ∀ f ∈ H.Spec.Files, f.Content = "" → f.ContentFrom ≠ none) :
    (v1alpha2.KubeadmConfig.ConvertFrom K X d0 H).err = none ∧
    ∃ r, v1alpha2.KubeadmConfig.ConvertTo K X
        (v1alpha2.KubeadmConfig.ConvertFrom K X d0 H).dst d = some r ∧
      r.err = none ∧
      r.dst.Spec.Files = H.Spec.Files ∧
      r.dst.Spec.Verbosity = H.Spec.Verbosity ∧
      r.dst.Spec.UseExperimentalRetryJoin = H.Spec.UseExperimentalRetryJoin ∧
      r.dst.Spec.DiskSetup = H.Spec.DiskSetup ∧
      r.dst.Spec.Mounts = H.Spec.Mounts ∧
      r.dst.Status.DataSecretName = H.Status.DataSecretName ∧
      r.dst.Status.ObservedGeneration = H.Status.ObservedGeneration ∧
      r.dst.Status.Conditions = H.Status.Conditions := by
  obtain ⟨hok, hstash⟩ := KubeadmConfig_ConvertFrom_stash K X H d0 b htotal hpersist
  refine ⟨hok, ?_⟩
  generalize (v1alpha2.KubeadmConfig.ConvertFrom K X d0 H).dst = S at hstash
  have hfiles : restoreFiles R.Spec.Files = some R.Spec.Files := by
    rw [hspec]; exact restoreFiles_eq_self _ hpaths hcontent
  unfold v1alpha2.KubeadmConfig.ConvertTo
  rw [Outcome.eq_of_err_none _ (htotal.1 S d)]
  simp only [UnmarshalData, hstash, hrecall]
  rcases hj : R.Spec.JoinConfiguration with _ | ⟨⟨jn, jc, _ | je⟩, jp⟩ <;>
    rcases hi : R.Spec.InitConfiguration with _ | ⟨⟨inn, ic, _ | ie⟩⟩ <;>
    simp [hfiles, ← hspec, ← hstatus]

/-- The fields of C6 on a hub KubeadmConfig with an inline file and a file
taken from a secret. -/
theorem KubeadmConfig_roundtrip_restores_hub_fields_witness :
    ∃ r, v1alpha2.KubeadmConfig.ConvertTo Sample.consts
        (Sample.kubeadmConfigExt Sample.hubKubeadmConfig)
        (v1alpha2.KubeadmConfig.ConvertFrom Sample.consts
          (Sample.kubeadmConfigExt Sample.hubKubeadmConfig) {} Sample.hubKubeadmConfig).dst {}
        = some r ∧
      r.err = none ∧
      r.dst.Spec.Files = Sample.hubKubeadmConfig.Spec.Files ∧
      r.dst.Spec.Verbosity = some 4 :=
  have h := (KubeadmConfig_roundtrip_restores_hub_fields Sample.consts
    (Sample.kubeadmConfigExt Sample.hubKubeadmConfig) Sample.hubKubeadmConfig
    { Sample.hubKubeadmConfig with ObjectMeta := {} } {} {} Sample.blob
    ⟨fun _ _ => rfl, fun _ _ => rfl⟩ rfl rfl rfl rfl (by decide) (by decide)).2
  h.elim fun r hr => ⟨r, hr.1, hr.2.1, hr.2.2.1, hr.2.2.2.1⟩

/-! ## The branches of the up-conversions -/

theorem Outcome.eq_of_err_some {σ : Type} (o : Outcome σ) (e : Error) (h : o.err = some e) :
    o = ⟨o.dst, some e⟩ := by
  cases o; simp_all

theorem UnmarshalData_of_absent {H : Type} (K : Consts) (Recall : String → Except Error H)
    (m : ObjectMeta) (h : GoMap.lookup m.Annotations K.DataAnnotation = none) :
    UnmarshalData K Recall m = .ok none := by
  simp [UnmarshalData, h]

theorem UnmarshalData_of_corrupt {H : Type} (K : Consts) (Recall : String → Except Error H)
    (m : ObjectMeta) (b : String) (e : Error)
    (h : GoMap.lookup m.Annotations K.DataAnnotation = some b) (hr : Recall b = .error e) :
    UnmarshalData K Recall m = .error e := by
  simp [UnmarshalData, h, hr]

/-! ### Cluster -/

theorem Cluster_ConvertTo_of_copier_error (K : Consts) (X : ClusterExt) (S : v1alpha2.Cluster)
    (d : v1beta1.Cluster) (e : Error)
    (h : (X.Convert_v1alpha2_Cluster_To_v1beta1_Cluster S d).err = some e) :
    v1alpha2.Cluster.ConvertTo K X S d =
      ⟨(X.Convert_v1alpha2_Cluster_To_v1beta1_Cluster S d).dst, some e⟩ := by
  unfold v1alpha2.Cluster.ConvertTo
  rw [Outcome.eq_of_err_some _ e h]

theorem Cluster_ConvertTo_of_not_found (K : Consts) (X : ClusterExt) (S : v1alpha2.Cluster)
    (d : v1beta1.Cluster)
    (h : (X.Convert_v1alpha2_Cluster_To_v1beta1_Cluster S d).err = none)
    (hu : UnmarshalData K X.Recall S.ObjectMeta = .ok none) :
    v1alpha2.Cluster.ConvertTo K X S d =
      ⟨v1alpha2.Cluster.relocated K X S
        (X.Convert_v1alpha2_Cluster_To_v1beta1_Cluster S d).dst, none⟩ := by
  unfold v1alpha2.Cluster.ConvertTo v1alpha2.Cluster.relocated
  rw [Outcome.eq_of_err_none _ h]
  simp only [hu]

theorem Cluster_ConvertTo_of_corrupt (K : Consts) (X : ClusterExt) (S : v1alpha2.Cluster)
    (d : v1beta1.Cluster) (e : Error)
    (h : (X.Convert_v1alpha2_Cluster_To_v1beta1_Cluster S d).err = none)
    (hu : UnmarshalData K X.Recall S.ObjectMeta = .error e) :
    v1alpha2.Cluster.ConvertTo K X S d =
      ⟨v1alpha2.Cluster.relocated K X S
        (X.Convert_v1alpha2_Cluster_To_v1beta1_Cluster S d).dst, some e⟩ := by
  unfold v1alpha2.Cluster.ConvertTo v1alpha2.Cluster.relocated
  rw [Outcome.eq_of_err_none _ h]
  simp only [hu]

theorem Cluster_ConvertTo_of_found (K : Consts) (X : ClusterExt) (S : v1alpha2.Cluster)
    (d R : v1beta1.Cluster)
    (h : (X.Convert_v1alpha2_Cluster_To_v1beta1_Cluster S d).err = none)
    (hu : UnmarshalData K X.Recall S.ObjectMeta = .ok (some R)) :
    (v1alpha2.Cluster.ConvertTo K X S d).err = none := by
  unfold v1alpha2.Cluster.ConvertTo
  rw [Outcome.eq_of_err_none _ h]
  simp only [hu]

/-! ### MachineSet -/

theorem MachineSet_ConvertTo_of_copier_error (K : Consts) (X : MachineSetExt)
    (S : v1alpha2.MachineSet) (d : v1beta1.MachineSet) (e : Error)
    (h : (X.Convert_v1alpha2_MachineSet_To_v1beta1_MachineSet S d).err = some e) :
    v1alpha2.MachineSet.ConvertTo K X S d =
      ⟨(X.Convert_v1alpha2_MachineSet_To_v1beta1_MachineSet S d).dst, some e⟩ := by
  unfold v1alpha2.MachineSet.ConvertTo
  rw [Outcome.eq_of_err_some _ e h]

theorem MachineSet_ConvertTo_of_not_found (K : Consts) (X : MachineSetExt)
    (S : v1alpha2.MachineSet) (d : v1beta1.MachineSet)
    (h : (X.Convert_v1alpha2_MachineSet_To_v1beta1_MachineSet S d).err = none)
    (hu : UnmarshalData K X.Recall S.ObjectMeta = .ok none) :
    v1alpha2.MachineSet.ConvertTo K X S d =
      ⟨v1alpha2.MachineSet.relocated K S
        (X.Convert_v1alpha2_MachineSet_To_v1beta1_MachineSet S d).dst, none⟩ := by
  unfold v1alpha2.MachineSet.ConvertTo v1alpha2.MachineSet.relocated
  rw [Outcome.eq_of_err_none _ h]
  simp only [hu]

theorem MachineSet_ConvertTo_of_corrupt (K : Consts) (X : MachineSetExt)
    (S : v1alpha2.MachineSet) (d : v1beta1.MachineSet) (e : Error)
    (h : (X.Convert_v1alpha2_MachineSet_To_v1beta1_MachineSet S d).err = none)
    (hu : UnmarshalData K X.Recall S.ObjectMeta = .error e) :
    v1alpha2.MachineSet.ConvertTo K X S d =
      ⟨v1alpha2.MachineSet.relocated K S
        (X.Convert_v1alpha2_MachineSet_To_v1beta1_MachineSet S d).dst, some e⟩ := by
  unfold v1alpha2.MachineSet.ConvertTo v1alpha2.MachineSet.relocated
  rw [Outcome.eq_of_err_none _ h]
  simp only [hu]

theorem MachineSet_ConvertTo_of_found (K : Consts) (X : MachineSetExt)
    (S : v1alpha2.MachineSet) (d R : v1beta1.MachineSet)
    (h : (X.Convert_v1alpha2_MachineSet_To_v1beta1_MachineSet S d).err = none)
    (hu : UnmarshalData K X.Recall S.ObjectMeta = .ok (some R)) :
    (v1alpha2.MachineSet.ConvertTo K X S d).err = none := by
  unfold v1alpha2.MachineSet.ConvertTo
  rw [Outcome.eq_of_err_none _ h]
  simp only [hu]

/-! ### MachineDeployment -/

theorem MachineDeployment_ConvertTo_of_copier_error (K : Consts) (X : MachineDeploymentExt)
    (S : v1alpha2.MachineDeployment) (d : v1beta1.MachineDeployment) (e : Error)
    (h : (X.Convert_v1alpha2_MachineDeployment_To_v1beta1_MachineDeployment S d).err = some e) :
    v1alpha2.MachineDeployment.ConvertTo K X S d =
      ⟨(X.Convert_v1alpha2_MachineDeployment_To_v1beta1_MachineDeployment S d).dst, some e⟩ := by
  unfold v1alpha2.MachineDeployment.ConvertTo
  rw [Outcome.eq_of_err_some _ e h]

theorem MachineDeployment_ConvertTo_of_not_found (K : Consts) (X : MachineDeploymentExt)
    (S : v1alpha2.MachineDeployment) (d : v1beta1.MachineDeployment)
    (h : (X.Convert_v1alpha2_MachineDeployment_To_v1beta1_MachineDeployment S d).err = none)
    (hu : UnmarshalData K X.Recall S.ObjectMeta = .ok none) :
    v1alpha2.MachineDeployment.ConvertTo K X S d =
      ⟨v1alpha2.MachineDeployment.relocated K S
        (X.Convert_v1alpha2_MachineDeployment_To_v1beta1_MachineDeployment S d).dst, none⟩ := by
  unfold v1alpha2.MachineDeployment.ConvertTo v1alpha2.MachineDeployment.relocated
  rw [Outcome.eq_of_err_none _ h]
  simp only [hu]

theorem MachineDeployment_ConvertTo_of_corrupt (K : Consts) (X : MachineDeploymentExt)
    (S : v1alpha2.MachineDeployment) (d : v1beta1.MachineDeployment) (e : Error)
    (h : (X.Convert_v1alpha2_MachineDeployment_To_v1beta1_MachineDeployment S d).err = none)
    (hu : UnmarshalData K X.Recall S.ObjectMeta = .error e) :
    v1alpha2.MachineDeployment.ConvertTo K X S d =
      ⟨v1alpha2.MachineDeployment.relocated K S
        (X.Convert_v1alpha2_MachineDeployment_To_v1beta1_MachineDeployment S d).dst, some e⟩ := by
  unfold v1alpha2.MachineDeployment.ConvertTo v1alpha2.MachineDeployment.relocated
  rw [Outcome.eq_of_err_none _ h]
  simp only [hu]

theorem MachineDeployment_ConvertTo_of_found (K : Consts) (X : MachineDeploymentExt)
    (S : v1alpha2.MachineDeployment) (d R : v1beta1.MachineDeployment)
    (h : (X.Convert_v1alpha2_MachineDeployment_To_v1beta1_MachineDeployment S d).err = none)
    (hu : UnmarshalData K X.Recall S.ObjectMeta = .ok (some R)) :
    (v1alpha2.MachineDeployment.ConvertTo K X S d).err = none := by
  unfold v1alpha2.MachineDeployment.ConvertTo
  rw [Outcome.eq_of_err_none _ h]
  simp only [hu]

theorem Machine_ConvertTo_of_copier_error (K : Consts) (X : MachineExt)
    (S : v1alpha2.Machine) (d : v1beta1.Machine) (e : Error)
    (h : (X.Convert_v1alpha2_Machine_To_v1beta1_Machine S d).err = some e) :
    v1alpha2.Machine.ConvertTo K X S d =
      ⟨S, (X.Convert_v1alpha2_Machine_To_v1beta1_Machine S d).dst, some e⟩ := by
  unfold v1alpha2.Machine.ConvertTo
  rw [Outcome.eq_of_err_some _ e h]

theorem Machine_sourceAfterConvertTo_labels (K : Consts) (S : v1alpha2.Machine) :
    (v1alpha2.Machine.sourceAfterConvertTo K S).ObjectMeta.Labels = S.ObjectMeta.Labels := by
  unfold v1alpha2.Machine.sourceAfterConvertTo
  split
  · rfl
  · split <;> rfl

theorem Machine_ConvertTo_src (K : Consts) (X : MachineExt)
    (S : v1alpha2.Machine) (d : v1beta1.Machine)
    (h : (X.Convert_v1alpha2_Machine_To_v1beta1_Machine S d).err = none) :
    (v1alpha2.Machine.ConvertTo K X S d).src = v1alpha2.Machine.sourceAfterConvertTo K S := by
  unfold v1alpha2.Machine.ConvertTo v1alpha2.Machine.sourceAfterConvertTo
  rw [Outcome.eq_of_err_none _ h]
  simp only []
  split <;> rfl

/-- `Machine.ConvertTo` after a successful structural copy: the source with the
renamed key, the relocated structural copy, and the restore on top of it when a
stash is found. -/
theorem Machine_ConvertTo_eq (K : Consts) (X : MachineExt)
    (S : v1alpha2.Machine) (d : v1beta1.Machine)
    (h : (X.Convert_v1alpha2_Machine_To_v1beta1_Machine S d).err = none) :
    v1alpha2.Machine.ConvertTo K X S d =
      (match UnmarshalData K X.Recall (v1alpha2.Machine.sourceAfterConvertTo K S).ObjectMeta with
        | .error err =>
          ⟨v1alpha2.Machine.sourceAfterConvertTo K S,
           v1alpha2.Machine.relocated K S
            (X.Convert_v1alpha2_Machine_To_v1beta1_Machine S d).dst, some err⟩
        | .ok none =>
          ⟨v1alpha2.Machine.sourceAfterConvertTo K S,
           v1alpha2.Machine.relocated K S
            (X.Convert_v1alpha2_Machine_To_v1beta1_Machine S d).dst, none⟩
        | .ok (some restored) =>
          ⟨v1alpha2.Machine.sourceAfterConvertTo K S,
           { v1alpha2.Machine.relocated K S
              (X.Convert_v1alpha2_Machine_To_v1beta1_Machine S d).dst with
             Spec := restoreMachineSpec restored.Spec
              (v1alpha2.Machine.relocated K S
                (X.Convert_v1alpha2_Machine_To_v1beta1_Machine S d).dst).Spec
             Status := { (v1alpha2.Machine.relocated K S
                (X.Convert_v1alpha2_Machine_To_v1beta1_Machine S d).dst).Status with
               ObservedGeneration := restored.Status.ObservedGeneration
               Conditions := restored.Status.Conditions
               NodeInfo := restored.Status.NodeInfo } },
           none⟩) := by
  unfold v1alpha2.Machine.ConvertTo v1alpha2.Machine.relocated
    v1alpha2.Machine.sourceAfterConvertTo
  rw [Outcome.eq_of_err_none _ h]
  simp only []
  rcases hA : S.ObjectMeta.Annotations with _ | a
  · simp only [GoMap.lookup]
  · rcases hv : a K.ExcludeNodeDrainingAnnotation with _ | val <;>
      simp only [GoMap.lookup, hv]

theorem Machine_ConvertTo_of_not_found (K : Consts) (X : MachineExt)
    (S : v1alpha2.Machine) (d : v1beta1.Machine)
    (h : (X.Convert_v1alpha2_Machine_To_v1beta1_Machine S d).err = none)
    (hu : UnmarshalData K X.Recall (v1alpha2.Machine.sourceAfterConvertTo K S).ObjectMeta
      = .ok none) :
    v1alpha2.Machine.ConvertTo K X S d =
      ⟨v1alpha2.Machine.sourceAfterConvertTo K S,
       v1alpha2.Machine.relocated K S
        (X.Convert_v1alpha2_Machine_To_v1beta1_Machine S d).dst, none⟩ := by
  rw [Machine_ConvertTo_eq K X S d h, hu]

theorem Machine_ConvertTo_of_corrupt (K : Consts) (X : MachineExt)
    (S : v1alpha2.Machine) (d : v1beta1.Machine) (e : Error)
    (h : (X.Convert_v1alpha2_Machine_To_v1beta1_Machine S d).err = none)
    (hu : UnmarshalData K X.Recall (v1alpha2.Machine.sourceAfterConvertTo K S).ObjectMeta
      = .error e) :
    v1alpha2.Machine.ConvertTo K X S d =
      ⟨v1alpha2.Machine.sourceAfterConvertTo K S,
       v1alpha2.Machine.relocated K S
        (X.Convert_v1alpha2_Machine_To_v1beta1_Machine S d).dst, some e⟩ := by
  rw [Machine_ConvertTo_eq K X S d h, hu]

theorem Machine_ConvertTo_of_found (K : Consts) (X : MachineExt)
    (S : v1alpha2.Machine) (d R : v1beta1.Machine)
    (h : (X.Convert_v1alpha2_Machine_To_v1beta1_Machine S d).err = none)
    (hu : UnmarshalData K X.Recall (v1alpha2.Machine.sourceAfterConvertTo K S).ObjectMeta
      = .ok (some R)) :
    (v1alpha2.Machine.ConvertTo K X S d).err = none := by
  rw [Machine_ConvertTo_eq K X S d h, hu]

/-- Reading the stash key from the annotations that `Machine.ConvertTo` leaves
on its source. -/
theorem Machine_sourceAfterConvertTo_lookup (K : Consts) (S : v1alpha2.Machine) :
    GoMap.lookup (v1alpha2.Machine.sourceAfterConvertTo K S).ObjectMeta.Annotations
      K.DataAnnotation =
    (match GoMap.lookup S.ObjectMeta.Annotations K.ExcludeNodeDrainingAnnotation with
      | none => GoMap.lookup S.ObjectMeta.Annotations K.DataAnnotation
      | some val =>
        if K.DataAnnotation = K.ExcludeNodeDrainingAnnotation then none
        else if K.DataAnnotation = K.beta1ExcludeNodeDrainingAnnotation then some val
        else GoMap.lookup S.ObjectMeta.Annotations K.DataAnnotation) := by
  unfold v1alpha2.Machine.sourceAfterConvertTo
  rcases hA : S.ObjectMeta.Annotations with _ | a
  · simp [GoMap.lookup, hA]
  · rcases hv : a K.ExcludeNodeDrainingAnnotation with _ | val
    · simp [GoMap.lookup, hA, hv]
    · simp only [GoMap.lookup, hv, StrMap.erase, StrMap.insert]

/-! ### KubeadmConfig -/

theorem KubeadmConfig_ConvertTo_of_copier_error (K : Consts) (X : KubeadmConfigExt)
    (S : v1alpha2.KubeadmConfig) (d : v1beta1.KubeadmConfig) (e : Error)
    (h : (X.Convert_v1alpha2_KubeadmConfig_To_v1beta1_KubeadmConfig S d).err = some e) :
    v1alpha2.KubeadmConfig.ConvertTo K X S d =
      some ⟨(X.Convert_v1alpha2_KubeadmConfig_To_v1beta1_KubeadmConfig S d).dst, some e⟩ := by
  unfold v1alpha2.KubeadmConfig.ConvertTo
  rw [Outcome.eq_of_err_some _ e h]

theorem KubeadmConfig_ConvertTo_of_not_found (K : Consts) (X : KubeadmConfigExt)
    (S : v1alpha2.KubeadmConfig) (d : v1beta1.KubeadmConfig)
    (h : (X.Convert_v1alpha2_KubeadmConfig_To_v1beta1_KubeadmConfig S d).err = none)
    (hu : UnmarshalData K X.Recall S.ObjectMeta = .ok none) :
    v1alpha2.KubeadmConfig.ConvertTo K X S d =
      some ⟨(X.Convert_v1alpha2_KubeadmConfig_To_v1beta1_KubeadmConfig S d).dst, none⟩ := by
  unfold v1alpha2.KubeadmConfig.ConvertTo
  rw [Outcome.eq_of_err_none _ h]
  simp only [hu]

theorem KubeadmConfig_ConvertTo_of_corrupt (K : Consts) (X : KubeadmConfigExt)
    (S : v1alpha2.KubeadmConfig) (d : v1beta1.KubeadmConfig) (e : Error)
    (h : (X.Convert_v1alpha2_KubeadmConfig_To_v1beta1_KubeadmConfig S d).err = none)
    (hu : UnmarshalData K X.Recall S.ObjectMeta = .error e) :
    v1alpha2.KubeadmConfig.ConvertTo K X S d =
      some ⟨(X.Convert_v1alpha2_KubeadmConfig_To_v1beta1_KubeadmConfig S d).dst, some e⟩ := by
  unfold v1alpha2.KubeadmConfig.ConvertTo
  rw [Outcome.eq_of_err_none _ h]
  simp only [hu]

theorem KubeadmConfig_ConvertTo_of_found (K : Consts) (X : KubeadmConfigExt)
    (S : v1alpha2.KubeadmConfig) (d R : v1beta1.KubeadmConfig)
    (h : (X.Convert_v1alpha2_KubeadmConfig_To_v1beta1_KubeadmConfig S d).err = none)
    (hu : UnmarshalData K X.Recall S.ObjectMeta = .ok (some R)) :
    (v1alpha2.KubeadmConfig.ConvertTo K X S d).map (fun r => r.err) =
      (restoreFiles R.Spec.Files).map (fun _ => none) := by
  unfold v1alpha2.KubeadmConfig.ConvertTo
  rw [Outcome.eq_of_err_none _ h]
  simp only [hu]
  cases restoreFiles R.Spec.Files <;> rfl

/-! ### KubeadmConfigTemplate -/

theorem KubeadmConfigTemplate_ConvertTo_of_copier_error (K : Consts)
    (X : KubeadmConfigTemplateExt) (S : v1alpha2.KubeadmConfigTemplate)
    (d : v1beta1.KubeadmConfigTemplate) (e : Error)
    (h : (X.Convert_v1alpha2_KubeadmConfigTemplate_To_v1beta1_KubeadmConfigTemplate
      S d).err = some e) :
    v1alpha2.KubeadmConfigTemplate.ConvertTo K X S d =
      ⟨(X.Convert_v1alpha2_KubeadmConfigTemplate_To_v1beta1_KubeadmConfigTemplate S d).dst,
        some e⟩ := by
  unfold v1alpha2.KubeadmConfigTemplate.ConvertTo
  rw [Outcome.eq_of_err_some _ e h]

theorem KubeadmConfigTemplate_ConvertTo_of_not_found (K : Consts)
    (X : KubeadmConfigTemplateExt) (S : v1alpha2.KubeadmConfigTemplate)
    (d : v1beta1.KubeadmConfigTemplate)
    (h : (X.Convert_v1alpha2_KubeadmConfigTemplate_To_v1beta1_KubeadmConfigTemplate
      S d).err = none)
    (hu : UnmarshalData K X.Recall S.ObjectMeta = .ok none) :
    v1alpha2.KubeadmConfigTemplate.ConvertTo K X S d =
      ⟨(X.Convert_v1alpha2_KubeadmConfigTemplate_To_v1beta1_KubeadmConfigTemplate S d).dst,
        none⟩ := by
  unfold v1alpha2.KubeadmConfigTemplate.ConvertTo
  rw [Outcome.eq_of_err_none _ h]
  simp only [hu]

theorem KubeadmConfigTemplate_ConvertTo_of_corrupt (K : Consts)
    (X : KubeadmConfigTemplateExt) (S : v1alpha2.KubeadmConfigTemplate)
    (d : v1beta1.KubeadmConfigTemplate) (e : Error)
    (h : (X.Convert_v1alpha2_KubeadmConfigTemplate_To_v1beta1_KubeadmConfigTemplate
      S d).err = none)
    (hu : UnmarshalData K X.Recall S.ObjectMeta = .error e) :
    v1alpha2.KubeadmConfigTemplate.ConvertTo K X S d =
      ⟨(X.Convert_v1alpha2_KubeadmConfigTemplate_To_v1beta1_KubeadmConfigTemplate S d).dst,
        some e⟩ := by
  unfold v1alpha2.KubeadmConfigTemplate.ConvertTo
  rw [Outcome.eq_of_err_none _ h]
  simp only [hu]

theorem KubeadmConfigTemplate_ConvertTo_of_found (K : Consts)
    (X : KubeadmConfigTemplateExt) (S : v1alpha2.KubeadmConfigTemplate)
    (d R : v1beta1.KubeadmConfigTemplate)
    (h : (X.Convert_v1alpha2_KubeadmConfigTemplate_To_v1beta1_KubeadmConfigTemplate
      S d).err = none)
    (hu : UnmarshalData K X.Recall S.ObjectMeta = .ok (some R)) :
    (v1alpha2.KubeadmConfigTemplate.ConvertTo K X S d).err = none := by
  unfold v1alpha2.KubeadmConfigTemplate.ConvertTo
  rw [Outcome.eq_of_err_none _ h]
  simp only [hu]

/-- C12. For each of the six kinds, when the structural copier succeeds and the
spoke object has no stash entry, ConvertTo returns no error and the hub object
is the structural copy with the relocation rules applied (for Machine, the
rename of the exclude-node-draining annotation and the label promotion; for
KubeadmConfig and KubeadmConfigTemplate, the structural copy itself): no
restore assignment is made. For Machine the stash key is not the v1beta1
exclude-node-draining key. -/
theorem ConvertTo_without_stash (K : Consts) (XC : ClusterExt) (XM : MachineExt) (XS : MachineSetExt) (XD : MachineDeploymentExt) (XK : KubeadmConfigExt) (XT : KubeadmConfigTemplateExt)
    (hk : K.DataAnnotation ≠ K.beta1ExcludeNodeDrainingAnnotation) :
    (∀ S d, (XC.Convert_v1alpha2_Cluster_To_v1beta1_Cluster S d).err = none →
      GoMap.lookup S.ObjectMeta.Annotations K.DataAnnotation = none →
      v1alpha2.Cluster.ConvertTo K XC S d =
        ⟨v1alpha2.Cluster.relocated K XC S (XC.Convert_v1alpha2_Cluster_To_v1beta1_Cluster S d).dst, none⟩) ∧
    (∀ S d, (XM.Convert_v1alpha2_Machine_To_v1beta1_Machine S d).err = none →
      GoMap.lookup S.ObjectMeta.Annotations K.DataAnnotation = none →
      (v1alpha2.Machine.ConvertTo K XM S d).err = none ∧
      (v1alpha2.Machine.ConvertTo K XM S d).dst =
        v1alpha2.Machine.relocated K S (XM.Convert_v1alpha2_Machine_To_v1beta1_Machine S d).dst) ∧
    (∀ S d, (XS.Convert_v1alpha2_MachineSet_To_v1beta1_MachineSet S d).err = none →
      GoMap.lookup S.ObjectMeta.Annotations K.DataAnnotation = none →
      v1alpha2.MachineSet.ConvertTo K XS S d =
        ⟨v1alpha2.MachineSet.relocated K S (XS.Convert_v1alpha2_MachineSet_To_v1beta1_MachineSet S d).dst, none⟩) ∧
    (∀ S d, (XD.Convert_v1alpha2_MachineDeployment_To_v1beta1_MachineDeployment S d).err = none →
      GoMap.lookup S.ObjectMeta.Annotations K.DataAnnotation = none →
      v1alpha2.MachineDeployment.ConvertTo K XD S d =
        ⟨v1alpha2.MachineDeployment.relocated K S (XD.Convert_v1alpha2_MachineDeployment_To_v1beta1_MachineDeployment S d).dst, none⟩) ∧
    (∀ S d, (XK.Convert_v1alpha2_KubeadmConfig_To_v1beta1_KubeadmConfig S d).err = none →
      GoMap.lookup S.ObjectMeta.Annotations K.DataAnnotation = none →
      v1alpha2.KubeadmConfig.ConvertTo K XK S d =
        some ⟨(XK.Convert_v1alpha2_KubeadmConfig_To_v1beta1_KubeadmConfig S d).dst, none⟩) ∧
    (∀ S d, (XT.Convert_v1alpha2_KubeadmConfigTemplate_To_v1beta1_KubeadmConfigTemplate S d).err = none →
      GoMap.lookup S.ObjectMeta.Annotations K.DataAnnotation = none →
      v1alpha2.KubeadmConfigTemplate.ConvertTo K XT S d =
        ⟨(XT.Convert_v1alpha2_KubeadmConfigTemplate_To_v1beta1_KubeadmConfigTemplate S d).dst, none⟩) := by
  refine ⟨fun S d hc hs => ?_, fun S d hc hs => ?_, fun S d hc hs => ?_,
    fun S d hc hs => ?_, fun S d hc hs => ?_, fun S d hc hs => ?_⟩
  · exact Cluster_ConvertTo_of_not_found K XC S d hc (UnmarshalData_of_absent K _ _ hs)
  · have hs2 : GoMap.lookup (v1alpha2.Machine.sourceAfterConvertTo K S).ObjectMeta.Annotations
        K.DataAnnotation = none := by
      rw [Machine_sourceAfterConvertTo_lookup]
      cases GoMap.lookup S.ObjectMeta.Annotations K.ExcludeNodeDrainingAnnotation with
      | none => exact hs
      | some val =>
        by_cases h1 : K.DataAnnotation = K.ExcludeNodeDrainingAnnotation
        · simp [h1]
        · simp [h1, hk, hs]
    rw [Machine_ConvertTo_of_not_found K XM S d hc (UnmarshalData_of_absent K _ _ hs2)]
    exact ⟨rfl, rfl⟩
  · exact MachineSet_ConvertTo_of_not_found K XS S d hc (UnmarshalData_of_absent K _ _ hs)
  · exact MachineDeployment_ConvertTo_of_not_found K XD S d hc
      (UnmarshalData_of_absent K _ _ hs)
  · exact KubeadmConfig_ConvertTo_of_not_found K XK S d hc (UnmarshalData_of_absent K _ _ hs)
  · exact KubeadmConfigTemplate_ConvertTo_of_not_found K XT S d hc
      (UnmarshalData_of_absent K _ _ hs)

/-- The spoke Cluster of the test `should convert the first value in
Status.APIEndpoints to Spec.ControlPlaneEndpoint`, which was never
down-converted: no error, and the hub object is the relocated structural copy.
A spoke Machine with the v1alpha2 exclude-node-draining annotation and no
stash: no error, and the hub object is the relocated structural copy, which
holds the annotation under its v1beta1 key. -/
theorem ConvertTo_without_stash_witness :
    v1alpha2.Cluster.ConvertTo Sample.consts (Sample.clusterExt {}) Sample.nativeCluster {} =
      ⟨v1alpha2.Cluster.relocated Sample.consts (Sample.clusterExt {}) Sample.nativeCluster
        ((Sample.clusterExt {}).Convert_v1alpha2_Cluster_To_v1beta1_Cluster
          Sample.nativeCluster {}).dst, none⟩ ∧
    ((v1alpha2.Machine.ConvertTo Sample.consts (Sample.machineExt {}) Sample.undrainedMachine
        {}).err = none ∧
      (v1alpha2.Machine.ConvertTo Sample.consts (Sample.machineExt {}) Sample.undrainedMachine
        {}).dst =
        v1alpha2.Machine.relocated Sample.consts Sample.undrainedMachine
          ((Sample.machineExt {}).Convert_v1alpha2_Machine_To_v1beta1_Machine
            Sample.undrainedMachine {}).dst) ∧
    GoMap.lookup (v1alpha2.Machine.relocated Sample.consts Sample.undrainedMachine
      ((Sample.machineExt {}).Convert_v1alpha2_Machine_To_v1beta1_Machine
        Sample.undrainedMachine {}).dst).ObjectMeta.Annotations
      Sample.consts.beta1ExcludeNodeDrainingAnnotation = some "true" ∧
    GoMap.lookup (v1alpha2.Machine.relocated Sample.consts Sample.undrainedMachine
      ((Sample.machineExt {}).Convert_v1alpha2_Machine_To_v1beta1_Machine
        Sample.undrainedMachine {}).dst).ObjectMeta.Annotations
      Sample.consts.ExcludeNodeDrainingAnnotation = none :=
  ⟨(ConvertTo_without_stash Sample.consts (Sample.clusterExt {}) (Sample.machineExt {})
      (Sample.machineSetExt {}) (Sample.machineDeploymentExt {}) (Sample.kubeadmConfigExt {})
      (Sample.kubeadmConfigTemplateExt {}) (by decide)).1 Sample.nativeCluster {} rfl
      (by decide),
   (ConvertTo_without_stash Sample.consts (Sample.clusterExt {}) (Sample.machineExt {})
      (Sample.machineSetExt {}) (Sample.machineDeploymentExt {}) (Sample.kubeadmConfigExt {})
      (Sample.kubeadmConfigTemplateExt {}) (by decide)).2.1 Sample.undrainedMachine {} rfl
      (by decide),
   by decide, by decide⟩

/-- C13. For each of the six kinds, the error ConvertTo returns is the error of
the structural copier when that failed, otherwise the error of UnmarshalData
when the stash entry did not parse, and nil in every other case; so ConvertTo
returns an error exactly when one of the two did, and an unparsable stash entry
gives back exactly the parser's error. Machine.ConvertTo reads the stash from
its source after the annotation rename; KubeadmConfig.ConvertTo can end in a
panic only inside the restore of a parsed stash. -/
theorem ConvertTo_error_origin (K : Consts) (XC : ClusterExt) (XM : MachineExt) (XS : MachineSetExt) (XD : MachineDeploymentExt) (XK : KubeadmConfigExt) (XT : KubeadmConfigTemplateExt) :
    (∀ S d,
      (v1alpha2.Cluster.ConvertTo K XC S d).err =
        match (XC.Convert_v1alpha2_Cluster_To_v1beta1_Cluster S d).err with
        | some e => some e
        | none =>
          match UnmarshalData K XC.Recall S.ObjectMeta with
          | .error e => some e
          | .ok _ => none) ∧
    (∀ S d,
      (v1alpha2.Machine.ConvertTo K XM S d).err =
        match (XM.Convert_v1alpha2_Machine_To_v1beta1_Machine S d).err with
        | some e => some e
        | none =>
          match UnmarshalData K XM.Recall (v1alpha2.Machine.sourceAfterConvertTo K S).ObjectMeta with
          | .error e => some e
          | .ok _ => none) ∧
    (∀ S d,
      (v1alpha2.MachineSet.ConvertTo K XS S d).err =
        match (XS.Convert_v1alpha2_MachineSet_To_v1beta1_MachineSet S d).err with
        | some e => some e
        | none =>
          match UnmarshalData K XS.Recall S.ObjectMeta with
          | .error e => some e
          | .ok _ => none) ∧
    (∀ S d,
      (v1alpha2.MachineDeployment.ConvertTo K XD S d).err =
        match (XD.Convert_v1alpha2_MachineDeployment_To_v1beta1_MachineDeployment S d).err with
        | some e => some e
        | none =>
          match UnmarshalData K XD.Recall S.ObjectMeta with
          | .error e => some e
          | .ok _ => none) ∧
    (∀ S d,
      (v1alpha2.KubeadmConfig.ConvertTo K XK S d).map (fun r => r.err) =
        match (XK.Convert_v1alpha2_KubeadmConfig_To_v1beta1_KubeadmConfig S d).err with
        | some e => some (some e)
        | none =>
          match UnmarshalData K XK.Recall S.ObjectMeta with
          | .error e => some (some e)
          | .ok none => some none
          | .ok (some R) => (restoreFiles R.Spec.Files).map (fun _ => none)) ∧
    (∀ S d,
      (v1alpha2.KubeadmConfigTemplate.ConvertTo K XT S d).err =
        match (XT.Convert_v1alpha2_KubeadmConfigTemplate_To_v1beta1_KubeadmConfigTemplate S d).err with
        | some e => some e
        | none =>
          match UnmarshalData K XT.Recall S.ObjectMeta with
          | .error e => some e
          | .ok _ => none) := by
  refine ⟨fun S d => ?_, fun S d => ?_, fun S d => ?_, fun S d => ?_, fun S d => ?_,
    fun S d => ?_⟩
  · cases hc : (XC.Convert_v1alpha2_Cluster_To_v1beta1_Cluster S d).err with
    | some e => rw [Cluster_ConvertTo_of_copier_error K XC S d e hc]
    | none =>
      cases hu : UnmarshalData K XC.Recall S.ObjectMeta with
      | error e => rw [Cluster_ConvertTo_of_corrupt K XC S d e hc hu]
      | ok o =>
        cases o with
        | none => rw [Cluster_ConvertTo_of_not_found K XC S d hc hu]
        | some R => exact Cluster_ConvertTo_of_found K XC S d R hc hu
  · cases hc : (XM.Convert_v1alpha2_Machine_To_v1beta1_Machine S d).err with
    | some e => rw [Machine_ConvertTo_of_copier_error K XM S d e hc]
    | none =>
      cases hu : UnmarshalData K XM.Recall (v1alpha2.Machine.sourceAfterConvertTo K S).ObjectMeta with
      | error e => rw [Machine_ConvertTo_of_corrupt K XM S d e hc hu]
      | ok o =>
        cases o with
        | none => rw [Machine_ConvertTo_of_not_found K XM S d hc hu]
        | some R => exact Machine_ConvertTo_of_found K XM S d R hc hu
  · cases hc : (XS.Convert_v1alpha2_MachineSet_To_v1beta1_MachineSet S d).err with
    | some e => rw [MachineSet_ConvertTo_of_copier_error K XS S d e hc]
    | none =>
      cases hu : UnmarshalData K XS.Recall S.ObjectMeta with
      | error e => rw [MachineSet_ConvertTo_of_corrupt K XS S d e hc hu]
      | ok o =>
        cases o with
        | none => rw [MachineSet_ConvertTo_of_not_found K XS S d hc hu]
        | some R => exact MachineSet_ConvertTo_of_found K XS S d R hc hu
  · cases hc : (XD.Convert_v1alpha2_MachineDeployment_To_v1beta1_MachineDeployment S d).err with
    | some e => rw [MachineDeployment_ConvertTo_of_copier_error K XD S d e hc]
    | none =>
      cases hu : UnmarshalData K XD.Recall S.ObjectMeta with
      | error e => rw [MachineDeployment_ConvertTo_of_corrupt K XD S d e hc hu]
      | ok o =>
        cases o with
        | none => rw [MachineDeployment_ConvertTo_of_not_found K XD S d hc hu]
        | some R => exact MachineDeployment_ConvertTo_of_found K XD S d R hc hu
  · cases hc : (XK.Convert_v1alpha2_KubeadmConfig_To_v1beta1_KubeadmConfig S d).err with
    | some e => rw [KubeadmConfig_ConvertTo_of_copier_error K XK S d e hc]; rfl
    | none =>
      cases hu : UnmarshalData K XK.Recall S.ObjectMeta with
      | error e => rw [KubeadmConfig_ConvertTo_of_corrupt K XK S d e hc hu]; rfl
      | ok o =>
        cases o with
        | none => rw [KubeadmConfig_ConvertTo_of_not_found K XK S d hc hu]; rfl
        | some R => exact KubeadmConfig_ConvertTo_of_found K XK S d R hc hu
  · cases hc : (XT.Convert_v1alpha2_KubeadmConfigTemplate_To_v1beta1_KubeadmConfigTemplate S d).err with
    | some e => rw [KubeadmConfigTemplate_ConvertTo_of_copier_error K XT S d e hc]
    | none =>
      cases hu : UnmarshalData K XT.Recall S.ObjectMeta with
      | error e => rw [KubeadmConfigTemplate_ConvertTo_of_corrupt K XT S d e hc hu]
      | ok o =>
        cases o with
        | none => rw [KubeadmConfigTemplate_ConvertTo_of_not_found K XT S d hc hu]
        | some R => exact KubeadmConfigTemplate_ConvertTo_of_found K XT S d R hc hu

/-- C14, as stated, fails: up-converting a spoke Cluster whose stash entry does
not parse returns the stash error, and the destination, a fresh hub object
before the call, then holds the endpoint of the spoke object. -/
theorem ConvertTo_corrupt_stash_counterexample :
    (v1alpha2.Cluster.ConvertTo Sample.consts (Sample.clusterExt {}) Sample.corruptCluster
      {}).err = some "invalid character" ∧
    UnmarshalData Sample.consts (Sample.clusterExt {}).Recall Sample.corruptCluster.ObjectMeta
      = .error "invalid character" ∧
    (v1alpha2.Cluster.ConvertTo Sample.consts (Sample.clusterExt {}) Sample.corruptCluster
      {}).dst.Spec.ControlPlaneEndpoint.Host = "example.com" ∧
    (v1alpha2.Cluster.ConvertTo Sample.consts (Sample.clusterExt {}) Sample.corruptCluster
      {}).dst.Spec.ControlPlaneEndpoint.Host
      ≠ ({} : v1beta1.Cluster).Spec.ControlPlaneEndpoint.Host :=
  ⟨rfl, rfl, by decide, by decide⟩

/-- C14, amended. For each of the six kinds, when the structural copier succeeds
and the stash entry of the spoke object does not parse, ConvertTo returns the
parser's error and leaves in the destination the structural copy with the
relocation rules applied and none of the restore assignments (for Machine, the
rename of the exclude-node-draining annotation and the label promotion; for
KubeadmConfig and KubeadmConfigTemplate, the structural copy itself); the
destination is not put back to its value before the call. For Machine the
stash key is neither of the exclude-node-draining keys. -/
theorem ConvertTo_corrupt_stash (K : Consts) (XC : ClusterExt) (XM : MachineExt) (XS : MachineSetExt) (XD : MachineDeploymentExt) (XK : KubeadmConfigExt) (XT : KubeadmConfigTemplateExt)
    (hk1 : K.DataAnnotation ≠ K.ExcludeNodeDrainingAnnotation)
    (hk2 : K.DataAnnotation ≠ K.beta1ExcludeNodeDrainingAnnotation) :
    (∀ S d b e, (XC.Convert_v1alpha2_Cluster_To_v1beta1_Cluster S d).err = none →
      GoMap.lookup S.ObjectMeta.Annotations K.DataAnnotation = some b →
      XC.Recall b = .error e →
      v1alpha2.Cluster.ConvertTo K XC S d =
        ⟨v1alpha2.Cluster.relocated K XC S (XC.Convert_v1alpha2_Cluster_To_v1beta1_Cluster S d).dst, some e⟩) ∧
    (∀ S d b e, (XM.Convert_v1alpha2_Machine_To_v1beta1_Machine S d).err = none →
      GoMap.lookup S.ObjectMeta.Annotations K.DataAnnotation = some b →
      XM.Recall b = .error e →
      (v1alpha2.Machine.ConvertTo K XM S d).err = some e ∧
      (v1alpha2.Machine.ConvertTo K XM S d).dst =
        v1alpha2.Machine.relocated K S (XM.Convert_v1alpha2_Machine_To_v1beta1_Machine S d).dst) ∧
    (∀ S d b e, (XS.Convert_v1alpha2_MachineSet_To_v1beta1_MachineSet S d).err = none →
      GoMap.lookup S.ObjectMeta.Annotations K.DataAnnotation = some b →
      XS.Recall b = .error e →
      v1alpha2.MachineSet.ConvertTo K XS S d =
        ⟨v1alpha2.MachineSet.relocated K S (XS.Convert_v1alpha2_MachineSet_To_v1beta1_MachineSet S d).dst, some e⟩) ∧
    (∀ S d b e, (XD.Convert_v1alpha2_MachineDeployment_To_v1beta1_MachineDeployment S d).err = none →
      GoMap.lookup S.ObjectMeta.Annotations K.DataAnnotation = some b →
      XD.Recall b = .error e →
      v1alpha2.MachineDeployment.ConvertTo K XD S d =
        ⟨v1alpha2.MachineDeployment.relocated K S (XD.Convert_v1alpha2_MachineDeployment_To_v1beta1_MachineDeployment S d).dst, some e⟩) ∧
    (∀ S d b e, (XK.Convert_v1alpha2_KubeadmConfig_To_v1beta1_KubeadmConfig S d).err = none →
      GoMap.lookup S.ObjectMeta.Annotations K.DataAnnotation = some b →
      XK.Recall b = .error e →
      v1alpha2.KubeadmConfig.ConvertTo K XK S d =
        some ⟨(XK.Convert_v1alpha2_KubeadmConfig_To_v1beta1_KubeadmConfig S d).dst, some e⟩) ∧
    (∀ S d b e, (XT.Convert_v1alpha2_KubeadmConfigTemplate_To_v1beta1_KubeadmConfigTemplate S d).err = none →
      GoMap.lookup S.ObjectMeta.Annotations K.DataAnnotation = some b →
      XT.Recall b = .error e →
      v1alpha2.KubeadmConfigTemplate.ConvertTo K XT S d =
        ⟨(XT.Convert_v1alpha2_KubeadmConfigTemplate_To_v1beta1_KubeadmConfigTemplate S d).dst, some e⟩) := by
  refine ⟨fun S d b e hc hs hr => ?_, fun S d b e hc hs hr => ?_, fun S d b e hc hs hr => ?_,
    fun S d b e hc hs hr => ?_, fun S d b e hc hs hr => ?_, fun S d b e hc hs hr => ?_⟩
  · exact Cluster_ConvertTo_of_corrupt K XC S d e hc (UnmarshalData_of_corrupt K _ _ b e hs hr)
  · have hs2 : GoMap.lookup (v1alpha2.Machine.sourceAfterConvertTo K S).ObjectMeta.Annotations
        K.DataAnnotation = some b := by
      rw [Machine_sourceAfterConvertTo_lookup]
      cases GoMap.lookup S.ObjectMeta.Annotations K.ExcludeNodeDrainingAnnotation with
      | none => exact hs
      | some val => simp [hk1, hk2, hs]
    rw [Machine_ConvertTo_of_corrupt K XM S d e hc (UnmarshalData_of_corrupt K _ _ b e hs2 hr)]
    exact ⟨rfl, rfl⟩
  · exact MachineSet_ConvertTo_of_corrupt K XS S d e hc
      (UnmarshalData_of_corrupt K _ _ b e hs hr)
  · exact MachineDeployment_ConvertTo_of_corrupt K XD S d e hc
      (UnmarshalData_of_corrupt K _ _ b e hs hr)
  · exact KubeadmConfig_ConvertTo_of_corrupt K XK S d e hc
      (UnmarshalData_of_corrupt K _ _ b e hs hr)
  · exact KubeadmConfigTemplate_ConvertTo_of_corrupt K XT S d e hc
      (UnmarshalData_of_corrupt K _ _ b e hs hr)

/-- The spoke Cluster with the unparsable stash entry: the parser's error comes
back and the destination is the relocated structural copy. A spoke Machine with
the v1alpha2 exclude-node-draining annotation and an unparsable stash entry:
the parser's error comes back and the destination is the relocated structural
copy, which holds the annotation under its v1beta1 key. -/
theorem ConvertTo_corrupt_stash_witness :
    v1alpha2.Cluster.ConvertTo Sample.consts (Sample.clusterExt {}) Sample.corruptCluster {} =
      ⟨v1alpha2.Cluster.relocated Sample.consts (Sample.clusterExt {}) Sample.corruptCluster
        ((Sample.clusterExt {}).Convert_v1alpha2_Cluster_To_v1beta1_Cluster
          Sample.corruptCluster {}).dst, some "invalid character"⟩ ∧
    ((v1alpha2.Machine.ConvertTo Sample.consts (Sample.machineExt {})
        Sample.corruptUndrainedMachine {}).err = some "invalid character" ∧
      (v1alpha2.Machine.ConvertTo Sample.consts (Sample.machineExt {})
        Sample.corruptUndrainedMachine {}).dst =
        v1alpha2.Machine.relocated Sample.consts Sample.corruptUndrainedMachine
          ((Sample.machineExt {}).Convert_v1alpha2_Machine_To_v1beta1_Machine
            Sample.corruptUndrainedMachine {}).dst) ∧
    GoMap.lookup (v1alpha2.Machine.relocated Sample.consts Sample.corruptUndrainedMachine
      ((Sample.machineExt {}).Convert_v1alpha2_Machine_To_v1beta1_Machine
        Sample.corruptUndrainedMachine {}).dst).ObjectMeta.Annotations
      Sample.consts.beta1ExcludeNodeDrainingAnnotation = some "true" ∧
    GoMap.lookup (v1alpha2.Machine.relocated Sample.consts Sample.corruptUndrainedMachine
      ((Sample.machineExt {}).Convert_v1alpha2_Machine_To_v1beta1_Machine
        Sample.corruptUndrainedMachine {}).dst).ObjectMeta.Annotations
      Sample.consts.ExcludeNodeDrainingAnnotation = none :=
  ⟨(ConvertTo_corrupt_stash Sample.consts (Sample.clusterExt {}) (Sample.machineExt {})
      (Sample.machineSetExt {}) (Sample.machineDeploymentExt {}) (Sample.kubeadmConfigExt {})
      (Sample.kubeadmConfigTemplateExt {}) (by decide) (by decide)).1 Sample.corruptCluster {}
      "not json" "invalid character" rfl (by decide) rfl,
   (ConvertTo_corrupt_stash Sample.consts (Sample.clusterExt {}) (Sample.machineExt {})
      (Sample.machineSetExt {}) (Sample.machineDeploymentExt {}) (Sample.kubeadmConfigExt {})
      (Sample.kubeadmConfigTemplateExt {}) (by decide) (by decide)).2.1
      Sample.corruptUndrainedMachine {} "not json" "invalid character" rfl (by decide) rfl,
   by decide, by decide⟩

theorem convertAnnotations_of_absent (a b : String) (m : GoMap)
    (h : GoMap.lookup m a = none) : convertAnnotations a b m = m := by
  rcases m with _ | f
  · rfl
  · have h2 : f a = none := h
    simp [convertAnnotations, h2]

theorem convertAnnotations_source_absent (a b : String) (hab : a ≠ b) (m : GoMap) :
    GoMap.lookup (convertAnnotations a b m) a = none := by
  rw [lookup_convertAnnotations a b hab]
  simp [hab]

/-- The rename is idempotent. -/
theorem convertAnnotations_idem (a b : String) (m : GoMap) :
    convertAnnotations a b (convertAnnotations a b m) = convertAnnotations a b m := by
  by_cases hab : a = b
  · subst hab
    rw [convertAnnotations_same, convertAnnotations_same]
  · exact convertAnnotations_of_absent a b _ (convertAnnotations_source_absent a b hab m)

/-- A key that is absent stays absent under a rename whose target is another
key. -/
theorem convertAnnotations_keeps_absent (a b k : String) (m : GoMap)
    (hk : GoMap.lookup m k = none) (hb : b = k → a = k) :
    GoMap.lookup (convertAnnotations a b m) k = none := by
  by_cases hab : a = b
  · subst hab
    rw [convertAnnotations_same]; exact hk
  · rw [lookup_convertAnnotations a b hab]
    by_cases hkb : k = b
    · exact absurd ((hb hkb.symm).trans hkb) hab
    · simp [hkb, hk]

theorem foldl_convertAnnotations_keeps_absent (ps : List (String × String)) (k : String)
    (m : GoMap) (hk : GoMap.lookup m k = none) (hb : ∀ q ∈ ps, q.2 = k → q.1 = k) :
    GoMap.lookup (ps.foldl (fun a p => convertAnnotations p.1 p.2 a) m) k = none := by
  induction ps generalizing m with
  | nil => exact hk
  | cons p rest ih =>
    simp only [List.foldl_cons]
    apply ih
    · exact convertAnnotations_keeps_absent _ _ _ _ hk (hb p (List.mem_cons_self _ _))
    · exact fun q hq => hb q (List.mem_cons_of_mem _ hq)

/-- After the table has been applied, every source key of a pair that really
renames is absent. -/
theorem foldl_convertAnnotations_sources_absent (ps : List (String × String))
    (hsep : ∀ p ∈ ps, ∀ q ∈ ps, q.2 = p.1 → q.1 = p.1) (m : GoMap) :
    ∀ p ∈ ps, p.1 ≠ p.2 →
      GoMap.lookup (ps.foldl (fun a p => convertAnnotations p.1 p.2 a) m) p.1 = none := by
  induction ps generalizing m with
  | nil => intro p hp; simp at hp
  | cons p0 rest ih =>
    intro p hp hne
    simp only [List.foldl_cons]
    rcases List.mem_cons.1 hp with rfl | hrest
    · apply foldl_convertAnnotations_keeps_absent
      · exact convertAnnotations_source_absent _ _ hne m
      · exact fun q hq => hsep p (List.mem_cons_self _ _) q (List.mem_cons_of_mem _ hq)
    · exact ih (fun p hp q hq => hsep p (List.mem_cons_of_mem _ hp) q
        (List.mem_cons_of_mem _ hq)) _ p hrest hne

theorem foldl_convertAnnotations_of_absent (ps : List (String × String)) (m : GoMap)
    (h : ∀ p ∈ ps, p.1 ≠ p.2 → GoMap.lookup m p.1 = none) :
    ps.foldl (fun a p => convertAnnotations p.1 p.2 a) m = m := by
  induction ps with
  | nil => rfl
  | cons p rest ih =>
    simp only [List.foldl_cons]
    have hp : convertAnnotations p.1 p.2 m = m := by
      by_cases hne : p.1 = p.2
      · rw [hne, convertAnnotations_same]
      · exact convertAnnotations_of_absent _ _ _ (h p (List.mem_cons_self _ _) hne)
    rw [hp]
    exact ih (fun q hq => h q (List.mem_cons_of_mem _ hq))

/-- Applying a rename table twice is applying it once, when no source key is the
target key of another pair. -/
theorem convertAnnotationTable_idem (fromTable toTable : List String)
    (hsep : ∀ p ∈ List.zip fromTable toTable, ∀ q ∈ List.zip fromTable toTable,
      q.2 = p.1 → q.1 = p.1) (m : GoMap) :
    convertAnnotationTable fromTable toTable (convertAnnotationTable fromTable toTable m) =
      convertAnnotationTable fromTable toTable m := by
  unfold convertAnnotationTable
  exact foldl_convertAnnotations_of_absent _ _
    (foldl_convertAnnotations_sources_absent _ hsep m)


/-- C11. Applying convertAnnotations(A, B, ·) twice gives the same map as applying
it once, for every map and every pair of keys; and applying the whole
four-entry table twice gives the same map as applying it once, in the
v1alpha2-to-v1beta1 direction and in the opposite one, provided a v1alpha2 key
of the tables equals a v1beta1 key of the tables only within one pair. -/
theorem rename_idempotent (K : Consts)
    (hsep : ∀ p ∈ List.zip (v2Annotations K) (beta1Annotations K),
      ∀ q ∈ List.zip (v2Annotations K) (beta1Annotations K), p.1 = q.2 → p = q) :
    (∀ (A B : String) (m : GoMap),
      convertAnnotations A B (convertAnnotations A B m) = convertAnnotations A B m) ∧
    (∀ m : GoMap,
      convertAnnotationTable (v2Annotations K) (beta1Annotations K)
        (convertAnnotationTable (v2Annotations K) (beta1Annotations K) m) =
      convertAnnotationTable (v2Annotations K) (beta1Annotations K) m) ∧
    (∀ m : GoMap,
      convertAnnotationTable (beta1Annotations K) (v2Annotations K)
        (convertAnnotationTable (beta1Annotations K) (v2Annotations K) m) =
      convertAnnotationTable (beta1Annotations K) (v2Annotations K) m) := by
  refine ⟨convertAnnotations_idem, fun m => ?_, fun m => ?_⟩
  · apply convertAnnotationTable_idem
    intro p hp q hq h
    rw [hsep p hp q hq h.symm]
  · apply convertAnnotationTable_idem
    intro p hp q hq h
    have hp2 : p.swap ∈ List.zip (v2Annotations K) (beta1Annotations K) := by
      rw [← List.zip_swap, List.mem_map]
      exact ⟨p, hp, rfl⟩
    have hq2 : q.swap ∈ List.zip (v2Annotations K) (beta1Annotations K) := by
      rw [← List.zip_swap, List.mem_map]
      exact ⟨q, hq, rfl⟩
    have := hsep q.swap hq2 p.swap hp2 h
    have h3 := congrArg Prod.snd this
    exact h3

/-- The tables with the reference constants, on the annotations of the test
`should convert the annotations`. -/
theorem rename_idempotent_witness :
    convertAnnotationTable (v2Annotations Sample.consts) (beta1Annotations Sample.consts)
      (convertAnnotationTable (v2Annotations Sample.consts) (beta1Annotations Sample.consts)
        Sample.annotatedMachineDeployment.ObjectMeta.Annotations) =
    convertAnnotationTable (v2Annotations Sample.consts) (beta1Annotations Sample.consts)
      Sample.annotatedMachineDeployment.ObjectMeta.Annotations :=
  (rename_idempotent Sample.consts (by decide)).2.1 _

/-! ## The down-conversion of KubeadmConfig -/

/-- C15. The code at the failing input: the generated copier returns an error
for the hub KubeadmConfig and KubeadmConfig.ConvertFrom returns nil. -/
theorem KubeadmConfig_ConvertFrom_drops_copier_error :
    (Sample.failingKubeadmConfigExt.Convert_v1beta1_KubeadmConfig_To_v1alpha2_KubeadmConfig
      Sample.hubKubeadmConfig {}).err = some "conversion failed" ∧
    (v1alpha2.KubeadmConfig.ConvertFrom Sample.consts Sample.failingKubeadmConfigExt {}
      Sample.hubKubeadmConfig).err = none :=
  ⟨rfl, rfl⟩

/-- C16. The code at the failing input: with a failing copier
KubeadmConfig.ConvertFrom returns success and the returned spoke object carries
no stash entry. -/
theorem KubeadmConfig_ConvertFrom_success_without_stash :
    (v1alpha2.KubeadmConfig.ConvertFrom Sample.consts Sample.failingKubeadmConfigExt {}
      Sample.hubKubeadmConfig).err = none ∧
    GoMap.lookup (v1alpha2.KubeadmConfig.ConvertFrom Sample.consts
      Sample.failingKubeadmConfigExt {} Sample.hubKubeadmConfig).dst.ObjectMeta.Annotations
      Sample.consts.DataAnnotation = none :=
  ⟨rfl, rfl⟩

/-! ## Restoring into nested optional fields -/

theorem MachineDeployment_ConvertTo_strategy (K : Consts) (X : MachineDeploymentExt)
    (S : v1alpha2.MachineDeployment) (d R : v1beta1.MachineDeployment) (b : String)
    (st : v1beta1.MachineDeploymentStrategy) (ru : v1beta1.MachineRollingUpdateDeployment)
    (hc : (X.Convert_v1alpha2_MachineDeployment_To_v1beta1_MachineDeployment S d).err = none)
    (hs : GoMap.lookup S.ObjectMeta.Annotations K.DataAnnotation = some b)
    (hr : X.Recall b = .ok R)
    (hst : R.Spec.Strategy = some st) (hru : st.RollingUpdate = some ru) :
    (v1alpha2.MachineDeployment.ConvertTo K X S d).err = none ∧
    ∃ st2 ru2, (v1alpha2.MachineDeployment.ConvertTo K X S d).dst.Spec.Strategy = some st2 ∧
      st2.RollingUpdate = some ru2 ∧ ru2.DeletePolicy = ru.DeletePolicy := by
  unfold v1alpha2.MachineDeployment.ConvertTo
  rw [Outcome.eq_of_err_none _ hc]
  simp only [UnmarshalData, hs, hr, hst, hru]
  simp

theorem KubeadmConfig_ConvertTo_join (K : Consts) (X : KubeadmConfigExt)
    (S : v1alpha2.KubeadmConfig) (d R : v1beta1.KubeadmConfig) (b : String)
    (rj : v1beta1.JoinConfiguration) (errors : List String)
    (hc : (X.Convert_v1alpha2_KubeadmConfig_To_v1beta1_KubeadmConfig S d).err = none)
    (hs : GoMap.lookup S.ObjectMeta.Annotations K.DataAnnotation = some b)
    (hr : X.Recall b = .ok R)
    (hj : R.Spec.JoinConfiguration = some rj)
    (he : rj.NodeRegistration.IgnorePreflightErrors = some errors) :
    (v1alpha2.KubeadmConfig.ConvertTo K X S d).isSome = (restoreFiles R.Spec.Files).isSome ∧
    ∀ r, v1alpha2.KubeadmConfig.ConvertTo K X S d = some r →
      r.err = none ∧
      ∃ j, r.dst.Spec.JoinConfiguration = some j ∧
        j.NodeRegistration.IgnorePreflightErrors = some errors := by
  unfold v1alpha2.KubeadmConfig.ConvertTo
  rw [Outcome.eq_of_err_none _ hc]
  simp only [UnmarshalData, hs, hr, hj, he]
  cases hf : restoreFiles R.Spec.Files with
  | none => simp [hf]
  | some files =>
    rcases hi : R.Spec.InitConfiguration with _ | ⟨⟨inn, ic, _ | ie⟩⟩ <;>
      simp [hf]

theorem KubeadmConfig_ConvertTo_init (K : Consts) (X : KubeadmConfigExt)
    (S : v1alpha2.KubeadmConfig) (d R : v1beta1.KubeadmConfig) (b : String)
    (ri : v1beta1.InitConfiguration) (errors : List String)
    (hc : (X.Convert_v1alpha2_KubeadmConfig_To_v1beta1_KubeadmConfig S d).err = none)
    (hs : GoMap.lookup S.ObjectMeta.Annotations K.DataAnnotation = some b)
    (hr : X.Recall b = .ok R)
    (hi : R.Spec.InitConfiguration = some ri)
    (he : ri.NodeRegistration.IgnorePreflightErrors = some errors) :
    (v1alpha2.KubeadmConfig.ConvertTo K X S d).isSome = (restoreFiles R.Spec.Files).isSome ∧
    ∀ r, v1alpha2.KubeadmConfig.ConvertTo K X S d = some r →
      r.err = none ∧
      ∃ i, r.dst.Spec.InitConfiguration = some i ∧
        i.NodeRegistration.IgnorePreflightErrors = some errors := by
  unfold v1alpha2.KubeadmConfig.ConvertTo
  rw [Outcome.eq_of_err_none _ hc]
  simp only [UnmarshalData, hs, hr, hi, he]
  cases hf : restoreFiles R.Spec.Files with
  | none => simp [hf]
  | some files =>
    rcases hj : R.Spec.JoinConfiguration with _ | ⟨⟨jn, jc, _ | je⟩, jp⟩ <;>
      simp [hf]

theorem KubeadmConfigTemplate_ConvertTo_join (K : Consts) (X : KubeadmConfigTemplateExt)
    (S : v1alpha2.KubeadmConfigTemplate) (d R : v1beta1.KubeadmConfigTemplate) (b : String)
    (rj : v1beta1.JoinConfiguration) (errors : List String)
    (hc : (X.Convert_v1alpha2_KubeadmConfigTemplate_To_v1beta1_KubeadmConfigTemplate
      S d).err = none)
    (hs : GoMap.lookup S.ObjectMeta.Annotations K.DataAnnotation = some b)
    (hr : X.Recall b = .ok R)
    (hj : R.Spec.Template.Spec.JoinConfiguration = some rj)
    (he : rj.NodeRegistration.IgnorePreflightErrors = some errors) :
    (v1alpha2.KubeadmConfigTemplate.ConvertTo K X S d).err = none ∧
    ∃ j, (v1alpha2.KubeadmConfigTemplate.ConvertTo K X S
        d).dst.Spec.Template.Spec.JoinConfiguration = some j ∧
      j.NodeRegistration.IgnorePreflightErrors = some errors := by
  unfold v1alpha2.KubeadmConfigTemplate.ConvertTo
  rw [Outcome.eq_of_err_none _ hc]
  simp only [UnmarshalData, hs, hr, hj, he]
  rcases hi : R.Spec.Template.Spec.InitConfiguration with _ | ⟨⟨inn, ic, _ | ie⟩⟩ <;> simp

theorem KubeadmConfigTemplate_ConvertTo_init (K : Consts) (X : KubeadmConfigTemplateExt)
    (S : v1alpha2.KubeadmConfigTemplate) (d R : v1beta1.KubeadmConfigTemplate) (b : String)
    (ri : v1beta1.InitConfiguration) (errors : List String)
    (hc : (X.Convert_v1alpha2_KubeadmConfigTemplate_To_v1beta1_KubeadmConfigTemplate
      S d).err = none)
    (hs : GoMap.lookup S.ObjectMeta.Annotations K.DataAnnotation = some b)
    (hr : X.Recall b = .ok R)
    (hi : R.Spec.Template.Spec.InitConfiguration = some ri)
    (he : ri.NodeRegistration.IgnorePreflightErrors = some errors) :
    (v1alpha2.KubeadmConfigTemplate.ConvertTo K X S d).err = none ∧
    ∃ i, (v1alpha2.KubeadmConfigTemplate.ConvertTo K X S
        d).dst.Spec.Template.Spec.InitConfiguration = some i ∧
      i.NodeRegistration.IgnorePreflightErrors = some errors := by
  unfold v1alpha2.KubeadmConfigTemplate.ConvertTo
  rw [Outcome.eq_of_err_none _ hc]
  simp only [UnmarshalData, hs, hr, hi, he]
  rcases hj : R.Spec.Template.Spec.JoinConfiguration with _ | ⟨⟨jn, jc, _ | je⟩, jp⟩ <;> simp


/-- C17. Restore allocates the container before assigning into it. In
MachineDeployment.ConvertTo a stashed rolling-update strategy leaves the hub
Spec.Strategy and its RollingUpdate present with the stashed DeletePolicy,
whatever the structural copier left there. In KubeadmConfigTemplate.ConvertTo a
stashed JoinConfiguration (InitConfiguration) with non-nil IgnorePreflightErrors
leaves the hub JoinConfiguration (InitConfiguration) present with the stashed
IgnorePreflightErrors. In KubeadmConfig.ConvertTo the same holds for the hub
object of every call that returns, and the call returns exactly when the file
loop that follows the restore completes. The copier succeeded and the stash
entry parses. -/
theorem restore_materialises_containers (K : Consts) (XD : MachineDeploymentExt)
    (XK : KubeadmConfigExt) (XT : KubeadmConfigTemplateExt) :
    (∀ S d R b st ru,
      (XD.Convert_v1alpha2_MachineDeployment_To_v1beta1_MachineDeployment S d).err = none →
      GoMap.lookup S.ObjectMeta.Annotations K.DataAnnotation = some b →
      XD.Recall b = .ok R →
      R.Spec.Strategy = some st → st.RollingUpdate = some ru →
      (v1alpha2.MachineDeployment.ConvertTo K XD S d).err = none ∧
      ∃ st2 ru2,
        (v1alpha2.MachineDeployment.ConvertTo K XD S d).dst.Spec.Strategy = some st2 ∧
        st2.RollingUpdate = some ru2 ∧ ru2.DeletePolicy = ru.DeletePolicy) ∧
    (∀ S d R b rj errors,
      (XK.Convert_v1alpha2_KubeadmConfig_To_v1beta1_KubeadmConfig S d).err = none →
      GoMap.lookup S.ObjectMeta.Annotations K.DataAnnotation = some b →
      XK.Recall b = .ok R →
      R.Spec.JoinConfiguration = some rj →
      rj.NodeRegistration.IgnorePreflightErrors = some errors →
      (v1alpha2.KubeadmConfig.ConvertTo K XK S d).isSome = (restoreFiles R.Spec.Files).isSome ∧
      ∀ r, v1alpha2.KubeadmConfig.ConvertTo K XK S d = some r →
        r.err = none ∧
        ∃ j, r.dst.Spec.JoinConfiguration = some j ∧
          j.NodeRegistration.IgnorePreflightErrors = some errors) ∧
    (∀ S d R b ri errors,
      (XK.Convert_v1alpha2_KubeadmConfig_To_v1beta1_KubeadmConfig S d).err = none →
      GoMap.lookup S.ObjectMeta.Annotations K.DataAnnotation = some b →
      XK.Recall b = .ok R →
      R.Spec.InitConfiguration = some ri →
      ri.NodeRegistration.IgnorePreflightErrors = some errors →
      (v1alpha2.KubeadmConfig.ConvertTo K XK S d).isSome = (restoreFiles R.Spec.Files).isSome ∧
      ∀ r, v1alpha2.KubeadmConfig.ConvertTo K XK S d = some r →
        r.err = none ∧
        ∃ i, r.dst.Spec.InitConfiguration = some i ∧
          i.NodeRegistration.IgnorePreflightErrors = some errors) ∧
    (∀ S d R b rj errors,
      (XT.Convert_v1alpha2_KubeadmConfigTemplate_To_v1beta1_KubeadmConfigTemplate
        S d).err = none →
      GoMap.lookup S.ObjectMeta.Annotations K.DataAnnotation = some b →
      XT.Recall b = .ok R →
      R.Spec.Template.Spec.JoinConfiguration = some rj →
      rj.NodeRegistration.IgnorePreflightErrors = some errors →
      (v1alpha2.KubeadmConfigTemplate.ConvertTo K XT S d).err = none ∧
      ∃ j, (v1alpha2.KubeadmConfigTemplate.ConvertTo K XT S
          d).dst.Spec.Template.Spec.JoinConfiguration = some j ∧
        j.NodeRegistration.IgnorePreflightErrors = some errors) ∧
    (∀ S d R b ri errors,
      (XT.Convert_v1alpha2_KubeadmConfigTemplate_To_v1beta1_KubeadmConfigTemplate
        S d).err = none →
      GoMap.lookup S.ObjectMeta.Annotations K.DataAnnotation = some b →
      XT.Recall b = .ok R →
      R.Spec.Template.Spec.InitConfiguration = some ri →
      ri.NodeRegistration.IgnorePreflightErrors = some errors →
      (v1alpha2.KubeadmConfigTemplate.ConvertTo K XT S d).err = none ∧
      ∃ i, (v1alpha2.KubeadmConfigTemplate.ConvertTo K XT S
          d).dst.Spec.Template.Spec.InitConfiguration = some i ∧
        i.NodeRegistration.IgnorePreflightErrors = some errors) :=
  ⟨fun S d R b st ru hc hs hr hst hru =>
      MachineDeployment_ConvertTo_strategy K XD S d R b st ru hc hs hr hst hru,
    fun S d R b rj errors hc hs hr hj he =>
      KubeadmConfig_ConvertTo_join K XK S d R b rj errors hc hs hr hj he,
    fun S d R b ri errors hc hs hr hi he =>
      KubeadmConfig_ConvertTo_init K XK S d R b ri errors hc hs hr hi he,
    fun S d R b rj errors hc hs hr hj he =>
      KubeadmConfigTemplate_ConvertTo_join K XT S d R b rj errors hc hs hr hj he,
    fun S d R b ri errors hc hs hr hi he =>
      KubeadmConfigTemplate_ConvertTo_init K XT S d R b ri errors hc hs hr hi he⟩

/-- A spoke MachineDeployment without a strategy whose stash holds a
rolling-update strategy with DeletePolicy `Oldest`: the structural copy has no
strategy, the hub object has one. -/
theorem restore_materialises_containers_witness :
    ((Sample.machineDeploymentExt
        Sample.hubMachineDeployment).Convert_v1alpha2_MachineDeployment_To_v1beta1_MachineDeployment
      Sample.stashOnlyMachineDeployment {}).dst.Spec.Strategy = none ∧
    ∃ st2 ru2,
      (v1alpha2.MachineDeployment.ConvertTo Sample.consts
        (Sample.machineDeploymentExt Sample.hubMachineDeployment)
        Sample.stashOnlyMachineDeployment {}).dst.Spec.Strategy = some st2 ∧
      st2.RollingUpdate = some ru2 ∧ ru2.DeletePolicy = some "Oldest" :=
  ⟨rfl, ((restore_materialises_containers Sample.consts
    (Sample.machineDeploymentExt Sample.hubMachineDeployment) (Sample.kubeadmConfigExt {})
    (Sample.kubeadmConfigTemplateExt {})).1 Sample.stashOnlyMachineDeployment {}
    { Sample.hubMachineDeployment with ObjectMeta := {} } Sample.blob
    { StrategyType := "RollingUpdate", RollingUpdate := some { DeletePolicy := some "Oldest" } }
    { DeletePolicy := some "Oldest" } rfl (by decide) rfl rfl rfl).2⟩

/-! ## Files of a KubeadmConfig and the source of a Machine -/

/-- C18. The code at the failing input: the live file has Content `live`, the
stashed file of the same path has Content `stashed`, and the hub object ends up
with the stashed file. -/
theorem KubeadmConfig_ConvertTo_overwrites_live_file :
    ((Sample.kubeadmConfigExt
        Sample.stashedKubeadmConfig).Convert_v1alpha2_KubeadmConfig_To_v1beta1_KubeadmConfig
      Sample.editedKubeadmConfig {}).dst.Spec.Files
      = [{ Path := "/etc/motd", Content := "live" }] ∧
    (v1alpha2.KubeadmConfig.ConvertTo Sample.consts
      (Sample.kubeadmConfigExt Sample.stashedKubeadmConfig) Sample.editedKubeadmConfig
      {}).map (fun r => r.dst.Spec.Files)
      = some [{ Path := "/etc/motd", Content := "stashed" }] :=
  ⟨by decide, by decide⟩

/-- C19. The code at the failing input: after Machine.ConvertTo the spoke
source no longer holds its v1alpha2 exclude-node-draining annotation but the
v1beta1 one, and after Machine.ConvertFrom the hub source no longer holds its
v1beta1 annotation but the v1alpha2 one. -/
theorem Machine_conversions_write_to_source :
    GoMap.lookup Sample.undrainedMachine.ObjectMeta.Annotations
      Sample.consts.ExcludeNodeDrainingAnnotation = some "true" ∧
    GoMap.lookup (v1alpha2.Machine.ConvertTo Sample.consts (Sample.machineExt {})
      Sample.undrainedMachine {}).src.ObjectMeta.Annotations
      Sample.consts.ExcludeNodeDrainingAnnotation = none ∧
    GoMap.lookup (v1alpha2.Machine.ConvertTo Sample.consts (Sample.machineExt {})
      Sample.undrainedMachine {}).src.ObjectMeta.Annotations
      Sample.consts.beta1ExcludeNodeDrainingAnnotation = some "true" ∧
    GoMap.lookup Sample.undrainedHubMachine.ObjectMeta.Annotations
      Sample.consts.beta1ExcludeNodeDrainingAnnotation = some "true" ∧
    GoMap.lookup (v1alpha2.Machine.ConvertFrom Sample.consts (Sample.machineExt {}) {}
      Sample.undrainedHubMachine).src.ObjectMeta.Annotations
      Sample.consts.beta1ExcludeNodeDrainingAnnotation = none ∧
    GoMap.lookup (v1alpha2.Machine.ConvertFrom Sample.consts (Sample.machineExt {}) {}
      Sample.undrainedHubMachine).src.ObjectMeta.Annotations
      Sample.consts.ExcludeNodeDrainingAnnotation = some "true" :=
  ⟨by decide, by decide, by decide, by decide, by decide, by decide⟩

/-! ## The status conversions -/

/-- The status conversion after a successful generated copy: no error, and the
copier's result with the two failure fields assigned from the input. -/
theorem Convert_v1alpha2_ClusterStatus_To_v1beta1_ClusterStatus_of_ok (X : StatusExt)
    (inp : v1alpha2.ClusterStatus) (out0 : v1beta1.ClusterStatus)
    (h : (X.autoConvert_v1alpha2_ClusterStatus_To_v1beta1_ClusterStatus inp out0).err = none) :
    (Convert_v1alpha2_ClusterStatus_To_v1beta1_ClusterStatus X inp out0).err = none ∧
    (Convert_v1alpha2_ClusterStatus_To_v1beta1_ClusterStatus X inp out0).dst =
      { (X.autoConvert_v1alpha2_ClusterStatus_To_v1beta1_ClusterStatus inp out0).dst with
        FailureMessage := inp.ErrorMessage, FailureReason := inp.ErrorReason } := by
  unfold Convert_v1alpha2_ClusterStatus_To_v1beta1_ClusterStatus
  rcases hx : X.autoConvert_v1alpha2_ClusterStatus_To_v1beta1_ClusterStatus inp out0 with ⟨out, _ | e⟩
  · exact ⟨rfl, rfl⟩
  · rw [hx] at h
    cases h

/-- The status conversion after a successful generated copy: no error, and the
copier's result with the two error fields assigned from the input. -/
theorem Convert_v1beta1_ClusterStatus_To_v1alpha2_ClusterStatus_of_ok (X : StatusExt)
    (inp : v1beta1.ClusterStatus) (out0 : v1alpha2.ClusterStatus)
    (h : (X.autoConvert_v1beta1_ClusterStatus_To_v1alpha2_ClusterStatus inp out0).err = none) :
    (Convert_v1beta1_ClusterStatus_To_v1alpha2_ClusterStatus X inp out0).err = none ∧
    (Convert_v1beta1_ClusterStatus_To_v1alpha2_ClusterStatus X inp out0).dst =
      { (X.autoConvert_v1beta1_ClusterStatus_To_v1alpha2_ClusterStatus inp out0).dst with
        ErrorMessage := inp.FailureMessage, ErrorReason := inp.FailureReason } := by
  unfold Convert_v1beta1_ClusterStatus_To_v1alpha2_ClusterStatus
  rcases hx : X.autoConvert_v1beta1_ClusterStatus_To_v1alpha2_ClusterStatus inp out0 with ⟨out, _ | e⟩
  · exact ⟨rfl, rfl⟩
  · rw [hx] at h
    cases h

/-- The status conversion after a successful generated copy: no error, and the
copier's result with the two failure fields assigned from the input. -/
theorem Convert_v1alpha2_MachineStatus_To_v1beta1_MachineStatus_of_ok (X : StatusExt)
    (inp : v1alpha2.MachineStatus) (out0 : v1beta1.MachineStatus)
    (h : (X.autoConvert_v1alpha2_MachineStatus_To_v1beta1_MachineStatus inp out0).err = none) :
    (Convert_v1alpha2_MachineStatus_To_v1beta1_MachineStatus X inp out0).err = none ∧
    (Convert_v1alpha2_MachineStatus_To_v1beta1_MachineStatus X inp out0).dst =
      { (X.autoConvert_v1alpha2_MachineStatus_To_v1beta1_MachineStatus inp out0).dst with
        FailureMessage := inp.ErrorMessage, FailureReason := inp.ErrorReason } := by
  unfold Convert_v1alpha2_MachineStatus_To_v1beta1_MachineStatus
  rcases hx : X.autoConvert_v1alpha2_MachineStatus_To_v1beta1_MachineStatus inp out0 with ⟨out, _ | e⟩
  · exact ⟨rfl, rfl⟩
  · rw [hx] at h
    cases h

/-- The status conversion after a successful generated copy: no error, and the
copier's result with the two error fields assigned from the input. -/
theorem Convert_v1beta1_MachineStatus_To_v1alpha2_MachineStatus_of_ok (X : StatusExt)
    (inp : v1beta1.MachineStatus) (out0 : v1alpha2.MachineStatus)
    (h : (X.autoConvert_v1beta1_MachineStatus_To_v1alpha2_MachineStatus inp out0).err = none) :
    (Convert_v1beta1_MachineStatus_To_v1alpha2_MachineStatus X inp out0).err = none ∧
    (Convert_v1beta1_MachineStatus_To_v1alpha2_MachineStatus X inp out0).dst =
      { (X.autoConvert_v1beta1_MachineStatus_To_v1alpha2_MachineStatus inp out0).dst with
        ErrorMessage := inp.FailureMessage, ErrorReason := inp.FailureReason } := by
  unfold Convert_v1beta1_MachineStatus_To_v1alpha2_MachineStatus
  rcases hx : X.autoConvert_v1beta1_MachineStatus_To_v1alpha2_MachineStatus inp out0 with ⟨out, _ | e⟩
  · exact ⟨rfl, rfl⟩
  · rw [hx] at h
    cases h

/-- The status conversion after a successful generated copy: no error, and the
copier's result with the two failure fields assigned from the input. -/
theorem Convert_v1alpha2_MachineSetStatus_To_v1beta1_MachineSetStatus_of_ok (X : StatusExt)
    (inp : v1alpha2.MachineSetStatus) (out0 : v1beta1.MachineSetStatus)
    (h : (X.autoConvert_v1alpha2_MachineSetStatus_To_v1beta1_MachineSetStatus inp out0).err = none) :
    (Convert_v1alpha2_MachineSetStatus_To_v1beta1_MachineSetStatus X inp out0).err = none ∧
    (Convert_v1alpha2_MachineSetStatus_To_v1beta1_MachineSetStatus X inp out0).dst =
      { (X.autoConvert_v1alpha2_MachineSetStatus_To_v1beta1_MachineSetStatus inp out0).dst with
        FailureMessage := inp.ErrorMessage, FailureReason := inp.ErrorReason } := by
  unfold Convert_v1alpha2_MachineSetStatus_To_v1beta1_MachineSetStatus
  rcases hx : X.autoConvert_v1alpha2_MachineSetStatus_To_v1beta1_MachineSetStatus inp out0 with ⟨out, _ | e⟩
  · exact ⟨rfl, rfl⟩
  · rw [hx] at h
    cases h

/-- The status conversion after a successful generated copy: no error, and the
copier's result with the two error fields assigned from the input. -/
theorem Convert_v1beta1_MachineSetStatus_To_v1alpha2_MachineSetStatus_of_ok (X : StatusExt)
    (inp : v1beta1.MachineSetStatus) (out0 : v1alpha2.MachineSetStatus)
    (h : (X.autoConvert_v1beta1_MachineSetStatus_To_v1alpha2_MachineSetStatus inp out0).err = none) :
    (Convert_v1beta1_MachineSetStatus_To_v1alpha2_MachineSetStatus X inp out0).err = none ∧
    (Convert_v1beta1_MachineSetStatus_To_v1alpha2_MachineSetStatus X inp out0).dst =
      { (X.autoConvert_v1beta1_MachineSetStatus_To_v1alpha2_MachineSetStatus inp out0).dst with
        ErrorMessage := inp.FailureMessage, ErrorReason := inp.FailureReason } := by
  unfold Convert_v1beta1_MachineSetStatus_To_v1alpha2_MachineSetStatus
  rcases hx : X.autoConvert_v1beta1_MachineSetStatus_To_v1alpha2_MachineSetStatus inp out0 with ⟨out, _ | e⟩
  · exact ⟨rfl, rfl⟩
  · rw [hx] at h
    cases h

/-- The status conversion after a successful generated copy: no error, and the
copier's result with the two failure fields assigned from the input. -/
theorem Convert_v1alpha2_KubeadmConfigStatus_To_v1beta1_KubeadmConfigStatus_of_ok (X : StatusExt)
    (inp : v1alpha2.KubeadmConfigStatus) (out0 : v1beta1.KubeadmConfigStatus)
    (h : (X.autoConvert_v1alpha2_KubeadmConfigStatus_To_v1beta1_KubeadmConfigStatus inp out0).err = none) :
    (Convert_v1alpha2_KubeadmConfigStatus_To_v1beta1_KubeadmConfigStatus X inp out0).err = none ∧
    (Convert_v1alpha2_KubeadmConfigStatus_To_v1beta1_KubeadmConfigStatus X inp out0).dst =
      { (X.autoConvert_v1alpha2_KubeadmConfigStatus_To_v1beta1_KubeadmConfigStatus inp out0).dst with
        FailureMessage := inp.ErrorMessage, FailureReason := inp.ErrorReason } := by
  unfold Convert_v1alpha2_KubeadmConfigStatus_To_v1beta1_KubeadmConfigStatus
  rcases hx : X.autoConvert_v1alpha2_KubeadmConfigStatus_To_v1beta1_KubeadmConfigStatus inp out0 with ⟨out, _ | e⟩
  · exact ⟨rfl, rfl⟩
  · rw [hx] at h
    cases h

/-- The status conversion after a successful generated copy: no error, and the
copier's result with the two error fields assigned from the input. -/
theorem Convert_v1beta1_KubeadmConfigStatus_To_v1alpha2_KubeadmConfigStatus_of_ok (X : StatusExt)
    (inp : v1beta1.KubeadmConfigStatus) (out0 : v1alpha2.KubeadmConfigStatus)
    (h : (X.autoConvert_v1beta1_KubeadmConfigStatus_To_v1alpha2_KubeadmConfigStatus inp out0).err = none) :
    (Convert_v1beta1_KubeadmConfigStatus_To_v1alpha2_KubeadmConfigStatus X inp out0).err = none ∧
    (Convert_v1beta1_KubeadmConfigStatus_To_v1alpha2_KubeadmConfigStatus X inp out0).dst =
      { (X.autoConvert_v1beta1_KubeadmConfigStatus_To_v1alpha2_KubeadmConfigStatus inp out0).dst with
        ErrorMessage := inp.FailureMessage, ErrorReason := inp.FailureReason } := by
  unfold Convert_v1beta1_KubeadmConfigStatus_To_v1alpha2_KubeadmConfigStatus
  rcases hx : X.autoConvert_v1beta1_KubeadmConfigStatus_To_v1alpha2_KubeadmConfigStatus inp out0 with ⟨out, _ | e⟩
  · exact ⟨rfl, rfl⟩
  · rw [hx] at h
    cases h

/-- C20. For ClusterStatus, MachineStatus, MachineSetStatus and
KubeadmConfigStatus: when the generated copier succeeds, the up-conversion
succeeds and its result is the copier's with FailureMessage and FailureReason
assigned from the spoke's ErrorMessage and ErrorReason; the down-conversion
succeeds and its result is the copier's with ErrorMessage and ErrorReason
assigned from the hub's FailureMessage and FailureReason; the assignments are
unconditional, so nil is copied as nil. Converting a hub status down and the
result up again, both copiers succeeding, gives the hub's FailureReason and
FailureMessage. -/
theorem status_failure_fields_copied (X : StatusExt) :
    ((∀ (inp : v1alpha2.ClusterStatus) (out0 : v1beta1.ClusterStatus),
        (X.autoConvert_v1alpha2_ClusterStatus_To_v1beta1_ClusterStatus inp out0).err = none →
        (Convert_v1alpha2_ClusterStatus_To_v1beta1_ClusterStatus X inp out0).err = none ∧
        (Convert_v1alpha2_ClusterStatus_To_v1beta1_ClusterStatus X inp out0).dst =
          { (X.autoConvert_v1alpha2_ClusterStatus_To_v1beta1_ClusterStatus inp out0).dst with
            FailureMessage := inp.ErrorMessage, FailureReason := inp.ErrorReason }) ∧
      (∀ (inp : v1beta1.ClusterStatus) (out0 : v1alpha2.ClusterStatus),
        (X.autoConvert_v1beta1_ClusterStatus_To_v1alpha2_ClusterStatus inp out0).err = none →
        (Convert_v1beta1_ClusterStatus_To_v1alpha2_ClusterStatus X inp out0).err = none ∧
        (Convert_v1beta1_ClusterStatus_To_v1alpha2_ClusterStatus X inp out0).dst =
          { (X.autoConvert_v1beta1_ClusterStatus_To_v1alpha2_ClusterStatus inp out0).dst with
            ErrorMessage := inp.FailureMessage, ErrorReason := inp.FailureReason }) ∧
      (∀ (hub : v1beta1.ClusterStatus) (mid : v1alpha2.ClusterStatus) (out0 : v1beta1.ClusterStatus),
        (X.autoConvert_v1beta1_ClusterStatus_To_v1alpha2_ClusterStatus hub mid).err = none →
        (X.autoConvert_v1alpha2_ClusterStatus_To_v1beta1_ClusterStatus
          (Convert_v1beta1_ClusterStatus_To_v1alpha2_ClusterStatus X hub mid).dst out0).err = none →
        (Convert_v1alpha2_ClusterStatus_To_v1beta1_ClusterStatus X
          (Convert_v1beta1_ClusterStatus_To_v1alpha2_ClusterStatus X hub mid).dst out0).err = none ∧
        (Convert_v1alpha2_ClusterStatus_To_v1beta1_ClusterStatus X
          (Convert_v1beta1_ClusterStatus_To_v1alpha2_ClusterStatus X hub mid).dst out0).dst.FailureReason =
            hub.FailureReason ∧
        (Convert_v1alpha2_ClusterStatus_To_v1beta1_ClusterStatus X
          (Convert_v1beta1_ClusterStatus_To_v1alpha2_ClusterStatus X hub mid).dst out0).dst.FailureMessage =
            hub.FailureMessage)) ∧
    ((∀ (inp : v1alpha2.MachineStatus) (out0 : v1beta1.MachineStatus),
        (X.autoConvert_v1alpha2_MachineStatus_To_v1beta1_MachineStatus inp out0).err = none →
        (Convert_v1alpha2_MachineStatus_To_v1beta1_MachineStatus X inp out0).err = none ∧
        (Convert_v1alpha2_MachineStatus_To_v1beta1_MachineStatus X inp out0).dst =
          { (X.autoConvert_v1alpha2_MachineStatus_To_v1beta1_MachineStatus inp out0).dst with
            FailureMessage := inp.ErrorMessage, FailureReason := inp.ErrorReason }) ∧
      (∀ (inp : v1beta1.MachineStatus) (out0 : v1alpha2.MachineStatus),
        (X.autoConvert_v1beta1_MachineStatus_To_v1alpha2_MachineStatus inp out0).err = none →
        (Convert_v1beta1_MachineStatus_To_v1alpha2_MachineStatus X inp out0).err = none ∧
        (Convert_v1beta1_MachineStatus_To_v1alpha2_MachineStatus X inp out0).dst =
          { (X.autoConvert_v1beta1_MachineStatus_To_v1alpha2_MachineStatus inp out0).dst with
            ErrorMessage := inp.FailureMessage, ErrorReason := inp.FailureReason }) ∧
      (∀ (hub : v1beta1.MachineStatus) (mid : v1alpha2.MachineStatus) (out0 : v1beta1.MachineStatus),
        (X.autoConvert_v1beta1_MachineStatus_To_v1alpha2_MachineStatus hub mid).err = none →
        (X.autoConvert_v1alpha2_MachineStatus_To_v1beta1_MachineStatus
          (Convert_v1beta1_MachineStatus_To_v1alpha2_MachineStatus X hub mid).dst out0).err = none →
        (Convert_v1alpha2_MachineStatus_To_v1beta1_MachineStatus X
          (Convert_v1beta1_MachineStatus_To_v1alpha2_MachineStatus X hub mid).dst out0).err = none ∧
        (Convert_v1alpha2_MachineStatus_To_v1beta1_MachineStatus X
          (Convert_v1beta1_MachineStatus_To_v1alpha2_MachineStatus X hub mid).dst out0).dst.FailureReason =
            hub.FailureReason ∧
        (Convert_v1alpha2_MachineStatus_To_v1beta1_MachineStatus X
          (Convert_v1beta1_MachineStatus_To_v1alpha2_MachineStatus X hub mid).dst out0).dst.FailureMessage =
            hub.FailureMessage)) ∧
    ((∀ (inp : v1alpha2.MachineSetStatus) (out0 : v1beta1.MachineSetStatus),
        (X.autoConvert_v1alpha2_MachineSetStatus_To_v1beta1_MachineSetStatus inp out0).err = none →
        (Convert_v1alpha2_MachineSetStatus_To_v1beta1_MachineSetStatus X inp out0).err = none ∧
        (Convert_v1alpha2_MachineSetStatus_To_v1beta1_MachineSetStatus X inp out0).dst =
          { (X.autoConvert_v1alpha2_MachineSetStatus_To_v1beta1_MachineSetStatus inp out0).dst with
            FailureMessage := inp.ErrorMessage, FailureReason := inp.ErrorReason }) ∧
      (∀ (inp : v1beta1.MachineSetStatus) (out0 : v1alpha2.MachineSetStatus),
        (X.autoConvert_v1beta1_MachineSetStatus_To_v1alpha2_MachineSetStatus inp out0).err = none →
        (Convert_v1beta1_MachineSetStatus_To_v1alpha2_MachineSetStatus X inp out0).err = none ∧
        (Convert_v1beta1_MachineSetStatus_To_v1alpha2_MachineSetStatus X inp out0).dst =
          { (X.autoConvert_v1beta1_MachineSetStatus_To_v1alpha2_MachineSetStatus inp out0).dst with
            ErrorMessage := inp.FailureMessage, ErrorReason := inp.FailureReason }) ∧
      (∀ (hub : v1beta1.MachineSetStatus) (mid : v1alpha2.MachineSetStatus) (out0 : v1beta1.MachineSetStatus),
        (X.autoConvert_v1beta1_MachineSetStatus_To_v1alpha2_MachineSetStatus hub mid).err = none →
        (X.autoConvert_v1alpha2_MachineSetStatus_To_v1beta1_MachineSetStatus
          (Convert_v1beta1_MachineSetStatus_To_v1alpha2_MachineSetStatus X hub mid).dst out0).err = none →
        (Convert_v1alpha2_MachineSetStatus_To_v1beta1_MachineSetStatus X
          (Convert_v1beta1_MachineSetStatus_To_v1alpha2_MachineSetStatus X hub mid).dst out0).err = none ∧
        (Convert_v1alpha2_MachineSetStatus_To_v1beta1_MachineSetStatus X
          (Convert_v1beta1_MachineSetStatus_To_v1alpha2_MachineSetStatus X hub mid).dst out0).dst.FailureReason =
            hub.FailureReason ∧
        (Convert_v1alpha2_MachineSetStatus_To_v1beta1_MachineSetStatus X
          (Convert_v1beta1_MachineSetStatus_To_v1alpha2_MachineSetStatus X hub mid).dst out0).dst.FailureMessage =
            hub.FailureMessage)) ∧
    ((∀ (inp : v1alpha2.KubeadmConfigStatus) (out0 : v1beta1.KubeadmConfigStatus),
        (X.autoConvert_v1alpha2_KubeadmConfigStatus_To_v1beta1_KubeadmConfigStatus inp out0).err = none →
        (Convert_v1alpha2_KubeadmConfigStatus_To_v1beta1_KubeadmConfigStatus X inp out0).err = none ∧
        (Convert_v1alpha2_KubeadmConfigStatus_To_v1beta1_KubeadmConfigStatus X inp out0).dst =
          { (X.autoConvert_v1alpha2_KubeadmConfigStatus_To_v1beta1_KubeadmConfigStatus inp out0).dst with
            FailureMessage := inp.ErrorMessage, FailureReason := inp.ErrorReason }) ∧
      (∀ (inp : v1beta1.KubeadmConfigStatus) (out0 : v1alpha2.KubeadmConfigStatus),
        (X.autoConvert_v1beta1_KubeadmConfigStatus_To_v1alpha2_KubeadmConfigStatus inp out0).err = none →
        (Convert_v1beta1_KubeadmConfigStatus_To_v1alpha2_KubeadmConfigStatus X inp out0).err = none ∧
        (Convert_v1beta1_KubeadmConfigStatus_To_v1alpha2_KubeadmConfigStatus X inp out0).dst =
          { (X.autoConvert_v1beta1_KubeadmConfigStatus_To_v1alpha2_KubeadmConfigStatus inp out0).dst with
            ErrorMessage := inp.FailureMessage, ErrorReason := inp.FailureReason }) ∧
      (∀ (hub : v1beta1.KubeadmConfigStatus) (mid : v1alpha2.KubeadmConfigStatus) (out0 : v1beta1.KubeadmConfigStatus),
        (X.autoConvert_v1beta1_KubeadmConfigStatus_To_v1alpha2_KubeadmConfigStatus hub mid).err = none →
        (X.autoConvert_v1alpha2_KubeadmConfigStatus_To_v1beta1_KubeadmConfigStatus
          (Convert_v1beta1_KubeadmConfigStatus_To_v1alpha2_KubeadmConfigStatus X hub mid).dst out0).err = none →
        (Convert_v1alpha2_KubeadmConfigStatus_To_v1beta1_KubeadmConfigStatus X
          (Convert_v1beta1_KubeadmConfigStatus_To_v1alpha2_KubeadmConfigStatus X hub mid).dst out0).err = none ∧
        (Convert_v1alpha2_KubeadmConfigStatus_To_v1beta1_KubeadmConfigStatus X
          (Convert_v1beta1_KubeadmConfigStatus_To_v1alpha2_KubeadmConfigStatus X hub mid).dst out0).dst.FailureReason =
            hub.FailureReason ∧
        (Convert_v1alpha2_KubeadmConfigStatus_To_v1beta1_KubeadmConfigStatus X
          (Convert_v1beta1_KubeadmConfigStatus_To_v1alpha2_KubeadmConfigStatus X hub mid).dst out0).dst.FailureMessage =
            hub.FailureMessage)) := by
  refine ⟨?_, ?_, ?_, ?_⟩
  · refine ⟨fun inp out0 h => ?_, fun inp out0 h => ?_, fun hub mid out0 h1 h2 => ?_⟩
    · exact Convert_v1alpha2_ClusterStatus_To_v1beta1_ClusterStatus_of_ok X inp out0 h
    · exact Convert_v1beta1_ClusterStatus_To_v1alpha2_ClusterStatus_of_ok X inp out0 h
    · have hd := (Convert_v1beta1_ClusterStatus_To_v1alpha2_ClusterStatus_of_ok X hub mid h1).2
      have hu := Convert_v1alpha2_ClusterStatus_To_v1beta1_ClusterStatus_of_ok X _ out0 h2
      refine ⟨hu.1, ?_, ?_⟩
      · rw [hu.2, hd]
      · rw [hu.2, hd]
  · refine ⟨fun inp out0 h => ?_, fun inp out0 h => ?_, fun hub mid out0 h1 h2 => ?_⟩
    · exact Convert_v1alpha2_MachineStatus_To_v1beta1_MachineStatus_of_ok X inp out0 h
    · exact Convert_v1beta1_MachineStatus_To_v1alpha2_MachineStatus_of_ok X inp out0 h
    · have hd := (Convert_v1beta1_MachineStatus_To_v1alpha2_MachineStatus_of_ok X hub mid h1).2
      have hu := Convert_v1alpha2_MachineStatus_To_v1beta1_MachineStatus_of_ok X _ out0 h2
      refine ⟨hu.1, ?_, ?_⟩
      · rw [hu.2, hd]
      · rw [hu.2, hd]
  · refine ⟨fun inp out0 h => ?_, fun inp out0 h => ?_, fun hub mid out0 h1 h2 => ?_⟩
    · exact Convert_v1alpha2_MachineSetStatus_To_v1beta1_MachineSetStatus_of_ok X inp out0 h
    · exact Convert_v1beta1_MachineSetStatus_To_v1alpha2_MachineSetStatus_of_ok X inp out0 h
    · have hd := (Convert_v1beta1_MachineSetStatus_To_v1alpha2_MachineSetStatus_of_ok X hub mid h1).2
      have hu := Convert_v1alpha2_MachineSetStatus_To_v1beta1_MachineSetStatus_of_ok X _ out0 h2
      refine ⟨hu.1, ?_, ?_⟩
      · rw [hu.2, hd]
      · rw [hu.2, hd]
  · refine ⟨fun inp out0 h => ?_, fun inp out0 h => ?_, fun hub mid out0 h1 h2 => ?_⟩
    · exact Convert_v1alpha2_KubeadmConfigStatus_To_v1beta1_KubeadmConfigStatus_of_ok X inp out0 h
    · exact Convert_v1beta1_KubeadmConfigStatus_To_v1alpha2_KubeadmConfigStatus_of_ok X inp out0 h
    · have hd := (Convert_v1beta1_KubeadmConfigStatus_To_v1alpha2_KubeadmConfigStatus_of_ok X hub mid h1).2
      have hu := Convert_v1alpha2_KubeadmConfigStatus_To_v1beta1_KubeadmConfigStatus_of_ok X _ out0 h2
      refine ⟨hu.1, ?_, ?_⟩
      · rw [hu.2, hd]
      · rw [hu.2, hd]

/-- A hub Machine status with a failure reason and no failure message, converted
down and up again with the reference copiers: the spoke status has the reason as
its ErrorReason and a nil ErrorMessage, and the hub status that comes back has
the original reason and a nil message. -/
theorem status_failure_fields_copied_witness :
    (Convert_v1beta1_MachineStatus_To_v1alpha2_MachineStatus Sample.statusExt
      { FailureReason := some "CreateError" } {}).dst.ErrorReason = some "CreateError" ∧
    (Convert_v1beta1_MachineStatus_To_v1alpha2_MachineStatus Sample.statusExt
      { FailureReason := some "CreateError" } {}).dst.ErrorMessage = none ∧
    (Convert_v1alpha2_MachineStatus_To_v1beta1_MachineStatus Sample.statusExt
      (Convert_v1beta1_MachineStatus_To_v1alpha2_MachineStatus Sample.statusExt
        { FailureReason := some "CreateError" } {}).dst {}).err = none ∧
    (Convert_v1alpha2_MachineStatus_To_v1beta1_MachineStatus Sample.statusExt
      (Convert_v1beta1_MachineStatus_To_v1alpha2_MachineStatus Sample.statusExt
        { FailureReason := some "CreateError" } {}).dst {}).dst.FailureReason =
          some "CreateError" ∧
    (Convert_v1alpha2_MachineStatus_To_v1beta1_MachineStatus Sample.statusExt
      (Convert_v1beta1_MachineStatus_To_v1alpha2_MachineStatus Sample.statusExt
        { FailureReason := some "CreateError" } {}).dst {}).dst.FailureMessage = none :=
  ⟨rfl, rfl,
    (status_failure_fields_copied Sample.statusExt).2.1.2.2
      { FailureReason := some "CreateError" } {} {} rfl rfl⟩

/-! ## List kinds -/

/-- C21. For each of the six list kinds, ConvertTo and ConvertFrom return the
destination and the error of the generated list copier and nothing else: they
take no constant (no stash key, no label or annotation key), apply no
relocation rule and read or write no stash. -/
theorem list_conversions_structural_only (X : ListExt) :
    (∀ s d, v1alpha2.ClusterList.ConvertTo X s d =
      X.Convert_v1alpha2_ClusterList_To_v1beta1_ClusterList s d) ∧
    (∀ d s, v1alpha2.ClusterList.ConvertFrom X d s =
      X.Convert_v1beta1_ClusterList_To_v1alpha2_ClusterList s d) ∧
    (∀ s d, v1alpha2.MachineList.ConvertTo X s d =
      X.Convert_v1alpha2_MachineList_To_v1beta1_MachineList s d) ∧
    (∀ d s, v1alpha2.MachineList.ConvertFrom X d s =
      X.Convert_v1beta1_MachineList_To_v1alpha2_MachineList s d) ∧
    (∀ s d, v1alpha2.MachineSetList.ConvertTo X s d =
      X.Convert_v1alpha2_MachineSetList_To_v1beta1_MachineSetList s d) ∧
    (∀ d s, v1alpha2.MachineSetList.ConvertFrom X d s =
      X.Convert_v1beta1_MachineSetList_To_v1alpha2_MachineSetList s d) ∧
    (∀ s d, v1alpha2.MachineDeploymentList.ConvertTo X s d =
      X.Convert_v1alpha2_MachineDeploymentList_To_v1beta1_MachineDeploymentList s d) ∧
    (∀ d s, v1alpha2.MachineDeploymentList.ConvertFrom X d s =
      X.Convert_v1beta1_MachineDeploymentList_To_v1alpha2_MachineDeploymentList s d) ∧
    (∀ s d, v1alpha2.KubeadmConfigList.ConvertTo X s d =
      X.Convert_v1alpha2_KubeadmConfigList_To_v1beta1_KubeadmConfigList s d) ∧
    (∀ d s, v1alpha2.KubeadmConfigList.ConvertFrom X d s =
      X.Convert_v1beta1_KubeadmConfigList_To_v1alpha2_KubeadmConfigList s d) ∧
    (∀ s d, v1alpha2.KubeadmConfigTemplateList.ConvertTo X s d =
      X.Convert_v1alpha2_KubeadmConfigTemplateList_To_v1beta1_KubeadmConfigTemplateList s d) ∧
    (∀ d s, v1alpha2.KubeadmConfigTemplateList.ConvertFrom X d s =
      X.Convert_v1beta1_KubeadmConfigTemplateList_To_v1alpha2_KubeadmConfigTemplateList s d) := by
  refine ⟨?_, ?_, ?_, ?_, ?_, ?_, ?_, ?_, ?_, ?_, ?_, ?_⟩ <;> intro a b <;> rfl

/-- The spoke MachineDeployment of the test `should convert the annotations`, as
the one item of a list: the list conversion leaves the v1alpha2 revision key in
place, where the conversion of the object itself renames it. -/
theorem list_conversions_structural_only_witness :
    (v1alpha2.MachineDeploymentList.ConvertTo Sample.listExt Sample.annotatedList {}).err
      = none ∧
    ((v1alpha2.MachineDeploymentList.ConvertTo Sample.listExt Sample.annotatedList
      {}).dst.Items.map fun m =>
        GoMap.lookup m.ObjectMeta.Annotations Sample.consts.RevisionAnnotation)
      = [some "test"] ∧
    GoMap.lookup (v1alpha2.MachineDeployment.ConvertTo Sample.consts
      (Sample.machineDeploymentExt {}) Sample.annotatedMachineDeployment
      {}).dst.ObjectMeta.Annotations Sample.consts.RevisionAnnotation = none := by
  rw [(list_conversions_structural_only Sample.listExt).2.2.2.2.2.2.1]
  exact ⟨rfl, by decide, by decide⟩

/-! ## The endpoint and the conditions of a Cluster -/

theorem int32_eq_self_iff (x : Int) : int32 x = x ↔ IsInt32 x := by
  unfold IsInt32 int32
  constructor
  · intro h
    omega
  · intro h
    omega

theorem Cluster_ConvertTo_copier_ok (K : Consts) (X : ClusterExt) (S : v1alpha2.Cluster)
    (d : v1beta1.Cluster) (h : (v1alpha2.Cluster.ConvertTo K X S d).err = none) :
    (X.Convert_v1alpha2_Cluster_To_v1beta1_Cluster S d).err = none := by
  cases hc : (X.Convert_v1alpha2_Cluster_To_v1beta1_Cluster S d).err with
  | none => rfl
  | some e =>
    rw [Cluster_ConvertTo_of_copier_error K X S d e hc] at h
    cases h

/-- The control plane endpoint after `Cluster.ConvertTo` once the structural
copy has succeeded, whatever the stash holds. -/
theorem Cluster_ConvertTo_endpoint (K : Consts) (X : ClusterExt) (S : v1alpha2.Cluster)
    (d : v1beta1.Cluster) (e : v1alpha2.APIEndpoint) (rest : List v1alpha2.APIEndpoint)
    (hc : (X.Convert_v1alpha2_Cluster_To_v1beta1_Cluster S d).err = none)
    (hS : S.Status.APIEndpoints = e :: rest) :
    (v1alpha2.Cluster.ConvertTo K X S d).dst.Spec.ControlPlaneEndpoint =
      { Host := e.Host, Port := int32 e.Port } := by
  unfold v1alpha2.Cluster.ConvertTo
  rw [Outcome.eq_of_err_none _ hc]
  simp only [hS]
  cases hu : UnmarshalData K X.Recall S.ObjectMeta with
  | error err => rfl
  | ok o =>
    cases o with
    | none => rfl
    | some R => cases hT : R.Spec.Topology <;> simp [hT]

/-- The conditions after `Cluster.ConvertTo` when a stash was found. -/
theorem Cluster_ConvertTo_conditions_of_found (K : Consts) (X : ClusterExt)
    (S : v1alpha2.Cluster) (d R : v1beta1.Cluster)
    (hc : (X.Convert_v1alpha2_Cluster_To_v1beta1_Cluster S d).err = none)
    (hu : UnmarshalData K X.Recall S.ObjectMeta = .ok (some R)) :
    (v1alpha2.Cluster.ConvertTo K X S d).dst.Status.Conditions = R.Status.Conditions := by
  unfold v1alpha2.Cluster.ConvertTo
  rw [Outcome.eq_of_err_none _ hc]
  simp only [hu]
  cases hT : R.Spec.Topology <;> simp [hT]

/-- The outcome of `Cluster.ConvertFrom` for a hub object whose endpoint is not
zero, when the structural copy and the serialiser succeed. -/
theorem Cluster_ConvertFrom_endpoint (K : Consts) (X : ClusterExt) (d0 : v1alpha2.Cluster)
    (H : v1beta1.Cluster) (b : String)
    (hc : (X.Convert_v1beta1_Cluster_To_v1alpha2_Cluster H d0).err = none)
    (hz : X.IsZero H.Spec.ControlPlaneEndpoint = false)
    (hp : X.Persist H = .ok b) :
    (v1alpha2.Cluster.ConvertFrom K X d0 H).err = none ∧
    (v1alpha2.Cluster.ConvertFrom K X d0 H).dst.Status.APIEndpoints =
      [{ Host := H.Spec.ControlPlaneEndpoint.Host, Port := H.Spec.ControlPlaneEndpoint.Port }] := by
  unfold v1alpha2.Cluster.ConvertFrom
  rw [Outcome.eq_of_err_none _ hc]
  simp only [hz, MarshalData, hp]
  cases X.IsTrue H.Status.Conditions K.ControlPlaneInitializedCondition <;> simp

/-- C22, as stated, fails: a spoke Cluster whose first endpoint has the port
4294973739 up-converts without error to a hub endpoint with port 6443. -/
theorem Cluster_endpoint_port_counterexample :
    (v1alpha2.Cluster.ConvertTo Sample.consts (Sample.clusterExt {}) Sample.farPortCluster
      {}).err = none ∧
    Sample.farPortCluster.Status.APIEndpoints = [{ Host := "example.com", Port := 4294973739 }] ∧
    (v1alpha2.Cluster.ConvertTo Sample.consts (Sample.clusterExt {}) Sample.farPortCluster
      {}).dst.Spec.ControlPlaneEndpoint.Port = 6443 ∧
    (v1alpha2.Cluster.ConvertTo Sample.consts (Sample.clusterExt {}) Sample.farPortCluster
      {}).dst.Spec.ControlPlaneEndpoint.Port ≠ 4294973739 :=
  ⟨rfl, rfl, by decide, by decide⟩

/-- C22, amended. For every spoke Cluster whose Status.APIEndpoints is
non-empty, with or without a stash entry, a successful Cluster.ConvertTo yields
a hub Spec.ControlPlaneEndpoint whose Host is the first entry's Host and whose
Port is the first entry's Port converted to int32, which is the first entry's
Port exactly when that lies in the int32 range; the result depends on nothing
but the first entry. -/
theorem Cluster_endpoint_from_first_entry (K : Consts) (X : ClusterExt)
    (S : v1alpha2.Cluster) (d : v1beta1.Cluster) (e : v1alpha2.APIEndpoint)
    (rest : List v1alpha2.APIEndpoint)
    (hS : S.Status.APIEndpoints = e :: rest)
    (hok : (v1alpha2.Cluster.ConvertTo K X S d).err = none) :
    (v1alpha2.Cluster.ConvertTo K X S d).dst.Spec.ControlPlaneEndpoint.Host = e.Host ∧
    (v1alpha2.Cluster.ConvertTo K X S d).dst.Spec.ControlPlaneEndpoint.Port = int32 e.Port ∧
    ((v1alpha2.Cluster.ConvertTo K X S d).dst.Spec.ControlPlaneEndpoint.Port = e.Port ↔
      IsInt32 e.Port) := by
  have h := Cluster_ConvertTo_endpoint K X S d e rest (Cluster_ConvertTo_copier_ok K X S d hok) hS
  rw [h]
  exact ⟨rfl, rfl, int32_eq_self_iff e.Port⟩

/-- The spoke Cluster of the test `should convert the first value in
Status.APIEndpoints to Spec.ControlPlaneEndpoint`. -/
theorem Cluster_endpoint_from_first_entry_witness :
    (v1alpha2.Cluster.ConvertTo Sample.consts (Sample.clusterExt {}) Sample.nativeCluster
      {}).dst.Spec.ControlPlaneEndpoint.Host = "example.com" ∧
    (v1alpha2.Cluster.ConvertTo Sample.consts (Sample.clusterExt {}) Sample.nativeCluster
      {}).dst.Spec.ControlPlaneEndpoint.Port = int32 6443 ∧
    ((v1alpha2.Cluster.ConvertTo Sample.consts (Sample.clusterExt {}) Sample.nativeCluster
      {}).dst.Spec.ControlPlaneEndpoint.Port = 6443 ↔ IsInt32 6443) :=
  Cluster_endpoint_from_first_entry Sample.consts (Sample.clusterExt {}) Sample.nativeCluster {}
    { Host := "example.com", Port := 6443 } [] rfl rfl

/-- C23, as stated, fails: a spoke Cluster with two endpoints and no stash entry
comes back from the round trip with the first endpoint only. -/
theorem Cluster_APIEndpoints_roundtrip_counterexample :
    GoMap.lookup Sample.twoEndpointCluster.ObjectMeta.Annotations Sample.consts.DataAnnotation
      = none ∧
    (v1alpha2.Cluster.ConvertTo Sample.consts (Sample.clusterExt {}) Sample.twoEndpointCluster
      {}).err = none ∧
    (v1alpha2.Cluster.spokeRoundTrip Sample.consts (Sample.clusterExt {})
      Sample.twoEndpointCluster).err = none ∧
    Sample.twoEndpointCluster.Status.APIEndpoints.length = 2 ∧
    (v1alpha2.Cluster.spokeRoundTrip Sample.consts (Sample.clusterExt {})
      Sample.twoEndpointCluster).dst.Status.APIEndpoints.length = 1 :=
  ⟨rfl, rfl, rfl, rfl, by decide⟩

/-- C23, amended. For every spoke Cluster S whose Status.APIEndpoints starts
with an entry that up-converts to a non-zero endpoint, Cluster.ConvertTo into a
fresh hub object followed by Cluster.ConvertFrom into a fresh spoke object
succeeds and yields the one-element list with the first entry's host and its
port converted to int32; that list is S.Status.APIEndpoints exactly when S has
a single entry whose port lies in the int32 range. The structural copiers and
the serialiser succeed. -/
theorem Cluster_APIEndpoints_roundtrip (K : Consts) (X : ClusterExt) (S : v1alpha2.Cluster)
    (e : v1alpha2.APIEndpoint) (rest : List v1alpha2.APIEndpoint) (b : String)
    (hS : S.Status.APIEndpoints = e :: rest)
    (hup : (X.Convert_v1alpha2_Cluster_To_v1beta1_Cluster S {}).err = none)
    (hdown : (X.Convert_v1beta1_Cluster_To_v1alpha2_Cluster
      (v1alpha2.Cluster.ConvertTo K X S {}).dst {}).err = none)
    (hz : X.IsZero { Host := e.Host, Port := int32 e.Port } = false)
    (hp : X.Persist (v1alpha2.Cluster.ConvertTo K X S {}).dst = .ok b) :
    (v1alpha2.Cluster.spokeRoundTrip K X S).err = none ∧
    (v1alpha2.Cluster.spokeRoundTrip K X S).dst.Status.APIEndpoints =
      [{ Host := e.Host, Port := int32 e.Port }] ∧
    ((v1alpha2.Cluster.spokeRoundTrip K X S).dst.Status.APIEndpoints = S.Status.APIEndpoints ↔
      rest = [] ∧ IsInt32 e.Port) := by
  have hep := Cluster_ConvertTo_endpoint K X S {} e rest hup hS
  have h := Cluster_ConvertFrom_endpoint K X {} (v1alpha2.Cluster.ConvertTo K X S {}).dst b
    hdown (by rw [hep]; exact hz) hp
  rw [hep] at h
  unfold v1alpha2.Cluster.spokeRoundTrip
  refine ⟨h.1, h.2, ?_⟩
  rw [h.2, hS]
  constructor
  · intro heq
    simp only [List.cons.injEq] at heq
    refine ⟨heq.2.symm, ?_⟩
    have hport := congrArg v1alpha2.APIEndpoint.Port heq.1
    exact (int32_eq_self_iff e.Port).1 hport
  · rintro ⟨hr, hi⟩
    rw [hr, int32_of_isInt32 e.Port hi]

/-- The spoke Cluster of the test `should convert the first value in
Status.APIEndpoints to Spec.ControlPlaneEndpoint` comes back from the round
trip with its one endpoint. -/
theorem Cluster_APIEndpoints_roundtrip_witness :
    (v1alpha2.Cluster.spokeRoundTrip Sample.consts (Sample.clusterExt {})
      Sample.nativeCluster).err = none ∧
    (v1alpha2.Cluster.spokeRoundTrip Sample.consts (Sample.clusterExt {})
      Sample.nativeCluster).dst.Status.APIEndpoints =
      [{ Host := "example.com", Port := int32 6443 }] ∧
    ((v1alpha2.Cluster.spokeRoundTrip Sample.consts (Sample.clusterExt {})
      Sample.nativeCluster).dst.Status.APIEndpoints = Sample.nativeCluster.Status.APIEndpoints ↔
      ([] : List v1alpha2.APIEndpoint) = [] ∧ IsInt32 6443) :=
  Cluster_APIEndpoints_roundtrip Sample.consts (Sample.clusterExt {}) Sample.nativeCluster
    { Host := "example.com", Port := 6443 } [] Sample.blob rfl rfl rfl (by decide) rfl

/-! ## The exclude-node-draining annotation of a Machine -/

theorem Sample.machineExt_copiesAnnotations (stash : v1beta1.Machine) :
    (Sample.machineExt stash).CopiesAnnotations :=
  ⟨fun _ _ => rfl, fun _ _ => rfl⟩

/-- Reading a key after `m[target] = val; delete(m, source)` on a map that
holds the source key. -/
theorem GoMap.lookup_move (m : GoMap) (target val source v : String)
    (hm : GoMap.lookup m source = some v) (hne : source ≠ target) :
    GoMap.lookup (GoMap.move m target val source) target = some val ∧
    GoMap.lookup (GoMap.move m target val source) source = none := by
  rcases m with _ | f
  · simp [GoMap.lookup] at hm
  · simp [GoMap.lookup, GoMap.move, StrMap.erase, StrMap.insert, hne.symm]

theorem Machine_ConvertTo_annotations (K : Consts) (X : MachineExt)
    (S : v1alpha2.Machine) (d : v1beta1.Machine)
    (h : (X.Convert_v1alpha2_Machine_To_v1beta1_Machine S d).err = none) :
    (v1alpha2.Machine.ConvertTo K X S d).dst.ObjectMeta.Annotations =
      (v1alpha2.Machine.relocated K S
        (X.Convert_v1alpha2_Machine_To_v1beta1_Machine S d).dst).ObjectMeta.Annotations := by
  rw [Machine_ConvertTo_eq K X S d h]
  split <;> rfl

theorem Machine_ConvertFrom_annotations (K : Consts) (X : MachineExt)
    (H : v1beta1.Machine) (d0 : v1alpha2.Machine) (v : String)
    (h : (X.Convert_v1beta1_Machine_To_v1alpha2_Machine H d0).err = none)
    (hv : GoMap.lookup H.ObjectMeta.Annotations K.beta1ExcludeNodeDrainingAnnotation = some v) :
    (v1alpha2.Machine.ConvertFrom K X d0 H).dst.ObjectMeta.Annotations =
      GoMap.move (X.Convert_v1beta1_Machine_To_v1alpha2_Machine H d0).dst.ObjectMeta.Annotations
        K.ExcludeNodeDrainingAnnotation v K.beta1ExcludeNodeDrainingAnnotation ∨
    ∃ b, (v1alpha2.Machine.ConvertFrom K X d0 H).dst.ObjectMeta.Annotations =
      some (StrMap.insert
        ((GoMap.move (X.Convert_v1beta1_Machine_To_v1alpha2_Machine H d0).dst.ObjectMeta.Annotations
          K.ExcludeNodeDrainingAnnotation v K.beta1ExcludeNodeDrainingAnnotation).getD
            StrMap.empty)
        K.DataAnnotation b) := by
  unfold v1alpha2.Machine.ConvertFrom
  rw [Outcome.eq_of_err_none _ h]
  simp only [MarshalData]
  rcases hA : H.ObjectMeta.Annotations with _ | a
  · simp [hA, GoMap.lookup] at hv
  · have ha : a K.beta1ExcludeNodeDrainingAnnotation = some v := by
      simpa [hA, GoMap.lookup] using hv
    simp only [ha]
    generalize hsrc : ({ ObjectMeta := _, Spec := H.Spec, Status := H.Status } :
      v1beta1.Machine) = src
    cases hP : X.Persist src with
    | error e =>
      left
      by_cases hn : H.Spec.ClusterName = "" <;> simp [hn]
    | ok b =>
      right
      refine ⟨b, ?_⟩
      by_cases hn : H.Spec.ClusterName = "" <;> simp [hn]

/-- C24. For every spoke Machine whose annotations hold the v1alpha2
exclude-node-draining key with value v, the hub object after Machine.ConvertTo
holds the v1beta1 key with value v and no longer the v1alpha2 key; for every hub
Machine whose annotations hold the v1beta1 key with value v, the spoke object
after Machine.ConvertFrom holds the v1alpha2 key with value v and no longer the
v1beta1 key, whether or not the stash could be written. The structural copier
succeeds and hands the annotations of the source to the destination, the two
keys differ, and the stash key is neither of them. -/
theorem exclude_node_draining_renamed (K : Consts) (X : MachineExt)
    (hcopy : X.CopiesAnnotations)
    (hne : K.ExcludeNodeDrainingAnnotation ≠ K.beta1ExcludeNodeDrainingAnnotation)
    (hk1 : K.DataAnnotation ≠ K.ExcludeNodeDrainingAnnotation)
    (hk2 : K.DataAnnotation ≠ K.beta1ExcludeNodeDrainingAnnotation) :
    (∀ S d v,
      (X.Convert_v1alpha2_Machine_To_v1beta1_Machine S d).err = none →
      GoMap.lookup S.ObjectMeta.Annotations K.ExcludeNodeDrainingAnnotation = some v →
      GoMap.lookup (v1alpha2.Machine.ConvertTo K X S d).dst.ObjectMeta.Annotations
        K.beta1ExcludeNodeDrainingAnnotation = some v ∧
      GoMap.lookup (v1alpha2.Machine.ConvertTo K X S d).dst.ObjectMeta.Annotations
        K.ExcludeNodeDrainingAnnotation = none) ∧
    (∀ H d0 v,
      (X.Convert_v1beta1_Machine_To_v1alpha2_Machine H d0).err = none →
      GoMap.lookup H.ObjectMeta.Annotations K.beta1ExcludeNodeDrainingAnnotation = some v →
      GoMap.lookup (v1alpha2.Machine.ConvertFrom K X d0 H).dst.ObjectMeta.Annotations
        K.ExcludeNodeDrainingAnnotation = some v ∧
      GoMap.lookup (v1alpha2.Machine.ConvertFrom K X d0 H).dst.ObjectMeta.Annotations
        K.beta1ExcludeNodeDrainingAnnotation = none) := by
  refine ⟨fun S d v hc hv => ?_, fun H d0 v hc hv => ?_⟩
  · rw [Machine_ConvertTo_annotations K X S d hc, Machine_relocated_annotations, hv]
    simp only [hcopy.1 S d]
    exact GoMap.lookup_move _ _ _ _ v hv hne
  · have hm := GoMap.lookup_move H.ObjectMeta.Annotations K.ExcludeNodeDrainingAnnotation v
      K.beta1ExcludeNodeDrainingAnnotation v hv hne.symm
    rcases Machine_ConvertFrom_annotations K X H d0 v hc hv with h | ⟨b, h⟩
    · rw [h, hcopy.2 H d0]
      exact hm
    · rw [h, hcopy.2 H d0]
      rcases hmv : GoMap.move H.ObjectMeta.Annotations K.ExcludeNodeDrainingAnnotation v
        K.beta1ExcludeNodeDrainingAnnotation with _ | f
      · rw [hmv] at hm
        simp [GoMap.lookup] at hm
      · rw [hmv] at hm
        simp only [GoMap.lookup] at hm
        simp only [GoMap.lookup, Option.getD, StrMap.insert]
        refine ⟨?_, ?_⟩
        · rw [if_neg (Ne.symm hk1)]
          exact hm.1
        · rw [if_neg (Ne.symm hk2)]
          exact hm.2

/-- A spoke Machine and a hub Machine that carry the annotation with value
`true`, with the reference copiers: each conversion leaves the key of the other
version with that value in the destination, and not the key it started from. -/
theorem exclude_node_draining_renamed_witness :
    (GoMap.lookup (v1alpha2.Machine.ConvertTo Sample.consts (Sample.machineExt {})
        Sample.undrainedMachine {}).dst.ObjectMeta.Annotations
        Sample.consts.beta1ExcludeNodeDrainingAnnotation = some "true" ∧
      GoMap.lookup (v1alpha2.Machine.ConvertTo Sample.consts (Sample.machineExt {})
        Sample.undrainedMachine {}).dst.ObjectMeta.Annotations
        Sample.consts.ExcludeNodeDrainingAnnotation = none) ∧
    (GoMap.lookup (v1alpha2.Machine.ConvertFrom Sample.consts (Sample.machineExt {}) {}
        Sample.undrainedHubMachine).dst.ObjectMeta.Annotations
        Sample.consts.ExcludeNodeDrainingAnnotation = some "true" ∧
      GoMap.lookup (v1alpha2.Machine.ConvertFrom Sample.consts (Sample.machineExt {}) {}
        Sample.undrainedHubMachine).dst.ObjectMeta.Annotations
        Sample.consts.beta1ExcludeNodeDrainingAnnotation = none) :=
  ⟨(exclude_node_draining_renamed Sample.consts (Sample.machineExt {})
      (Sample.machineExt_copiesAnnotations _) (by decide) (by decide) (by decide)).1
      Sample.undrainedMachine {} "true" rfl (by decide),
   (exclude_node_draining_renamed Sample.consts (Sample.machineExt {})
      (Sample.machineExt_copiesAnnotations _) (by decide) (by decide) (by decide)).2
      Sample.undrainedHubMachine {} "true" rfl (by decide)⟩

/-! ## The round trip of a KubeadmConfigTemplate -/

/-- C25. The code at the failing input: the hub KubeadmConfigTemplate has
Verbosity 4, UseExperimentalRetryJoin set, one mount and a file whose content
comes from a secret; the round trip succeeds with a stash that holds all of it,
and the hub object that comes back has none of the four. -/
theorem KubeadmConfigTemplate_roundtrip_drops_hub_fields :
    (v1alpha2.KubeadmConfigTemplate.ConvertFrom Sample.consts
      (Sample.kubeadmConfigTemplateExt Sample.hubKubeadmConfigTemplate) {}
      Sample.hubKubeadmConfigTemplate).err = none ∧
    (v1alpha2.KubeadmConfigTemplate.roundTrip Sample.consts
      (Sample.kubeadmConfigTemplateExt Sample.hubKubeadmConfigTemplate) {}
      Sample.hubKubeadmConfigTemplate).err = none ∧
    Sample.hubKubeadmConfigTemplate.Spec.Template.Spec.Verbosity = some 4 ∧
    (v1alpha2.KubeadmConfigTemplate.roundTrip Sample.consts
      (Sample.kubeadmConfigTemplateExt Sample.hubKubeadmConfigTemplate) {}
      Sample.hubKubeadmConfigTemplate).dst.Spec.Template.Spec.Verbosity = none ∧
    Sample.hubKubeadmConfigTemplate.Spec.Template.Spec.UseExperimentalRetryJoin = true ∧
    (v1alpha2.KubeadmConfigTemplate.roundTrip Sample.consts
      (Sample.kubeadmConfigTemplateExt Sample.hubKubeadmConfigTemplate) {}
      Sample.hubKubeadmConfigTemplate).dst.Spec.Template.Spec.UseExperimentalRetryJoin
      = false ∧
    Sample.hubKubeadmConfigTemplate.Spec.Template.Spec.Mounts
      = [["LABEL=data", "/var/lib/data"]] ∧
    (v1alpha2.KubeadmConfigTemplate.roundTrip Sample.consts
      (Sample.kubeadmConfigTemplateExt Sample.hubKubeadmConfigTemplate) {}
      Sample.hubKubeadmConfigTemplate).dst.Spec.Template.Spec.Mounts = [] ∧
    (Sample.hubKubeadmConfigTemplate.Spec.Template.Spec.Files.map fun f => f.ContentFrom)
      = [none, some { Secret := { Name := "token", Key := "value" } }] ∧
    ((v1alpha2.KubeadmConfigTemplate.roundTrip Sample.consts
      (Sample.kubeadmConfigTemplateExt Sample.hubKubeadmConfigTemplate) {}
      Sample.hubKubeadmConfigTemplate).dst.Spec.Template.Spec.Files.map fun f => f.ContentFrom)
      = [none, none] :=
  ⟨rfl, rfl, rfl, by decide, rfl, by decide, rfl, by decide, rfl, by decide⟩

/-! ## The cluster names after the restore -/

theorem Machine_ConvertTo_ClusterName (K : Consts) (X : MachineExt)
    (S : v1alpha2.Machine) (d : v1beta1.Machine) (o : Option v1beta1.Machine)
    (hc : (X.Convert_v1alpha2_Machine_To_v1beta1_Machine S d).err = none)
    (hu : UnmarshalData K X.Recall (v1alpha2.Machine.sourceAfterConvertTo K S).ObjectMeta
      = .ok o) :
    (v1alpha2.Machine.ConvertTo K X S d).err = none ∧
    (v1alpha2.Machine.ConvertTo K X S d).dst.Spec.ClusterName =
      clusterNameRule (o.map fun R => R.Spec.ClusterName)
        (GoMap.lookup S.ObjectMeta.Labels K.MachineClusterLabelName)
        (X.Convert_v1alpha2_Machine_To_v1beta1_Machine S d).dst.Spec.ClusterName := by
  cases o with
  | none =>
    rw [Machine_ConvertTo_of_not_found K X S d hc hu]
    have hrel := Machine_relocated_ClusterName K S
      (X.Convert_v1alpha2_Machine_To_v1beta1_Machine S d).dst
    unfold clusterNameRule
    cases hL : GoMap.lookup S.ObjectMeta.Labels K.MachineClusterLabelName <;>
      simp [hL, hrel]
  | some R =>
    rw [Machine_ConvertTo_eq K X S d hc, hu]
    have hrel := Machine_relocated_ClusterName K S
      (X.Convert_v1alpha2_Machine_To_v1beta1_Machine S d).dst
    unfold restoreMachineSpec clusterNameRule
    by_cases hn : R.Spec.ClusterName = "" <;>
      cases hL : GoMap.lookup S.ObjectMeta.Labels K.MachineClusterLabelName <;>
      simp [hn, hL, hrel]

theorem MachineSet_ConvertTo_ClusterName (K : Consts) (X : MachineSetExt)
    (S : v1alpha2.MachineSet) (d : v1beta1.MachineSet) (o : Option v1beta1.MachineSet)
    (hc : (X.Convert_v1alpha2_MachineSet_To_v1beta1_MachineSet S d).err = none)
    (hu : UnmarshalData K X.Recall S.ObjectMeta = .ok o) :
    (v1alpha2.MachineSet.ConvertTo K X S d).err = none ∧
    (v1alpha2.MachineSet.ConvertTo K X S d).dst.Spec.ClusterName =
      clusterNameRule (o.map fun R => R.Spec.ClusterName)
        (GoMap.lookup S.ObjectMeta.Labels K.MachineClusterLabelName)
        (X.Convert_v1alpha2_MachineSet_To_v1beta1_MachineSet S d).dst.Spec.ClusterName ∧
    (v1alpha2.MachineSet.ConvertTo K X S d).dst.Spec.Template.Spec.ClusterName =
      clusterNameRule (o.map fun R => R.Spec.Template.Spec.ClusterName)
        (GoMap.lookup S.ObjectMeta.Labels K.MachineClusterLabelName)
        (X.Convert_v1alpha2_MachineSet_To_v1beta1_MachineSet
          S d).dst.Spec.Template.Spec.ClusterName := by
  unfold v1alpha2.MachineSet.ConvertTo
  rw [Outcome.eq_of_err_none _ hc]
  simp only [hu]
  unfold clusterNameRule
  cases o with
  | none =>
    cases GoMap.lookup S.ObjectMeta.Labels K.MachineClusterLabelName <;> exact ⟨rfl, rfl, rfl⟩
  | some R =>
    unfold restoreMachineSpec
    by_cases hn : R.Spec.ClusterName = "" <;>
      by_cases ht : R.Spec.Template.Spec.ClusterName = "" <;>
      cases GoMap.lookup S.ObjectMeta.Labels K.MachineClusterLabelName <;> simp [hn, ht]

theorem MachineDeployment_ConvertTo_ClusterName (K : Consts) (X : MachineDeploymentExt)
    (S : v1alpha2.MachineDeployment) (d : v1beta1.MachineDeployment)
    (o : Option v1beta1.MachineDeployment)
    (hc : (X.Convert_v1alpha2_MachineDeployment_To_v1beta1_MachineDeployment S d).err = none)
    (hu : UnmarshalData K X.Recall S.ObjectMeta = .ok o) :
    (v1alpha2.MachineDeployment.ConvertTo K X S d).err = none ∧
    (v1alpha2.MachineDeployment.ConvertTo K X S d).dst.Spec.ClusterName =
      clusterNameRule (o.map fun R => R.Spec.ClusterName)
        (GoMap.lookup S.ObjectMeta.Labels K.MachineClusterLabelName)
        (X.Convert_v1alpha2_MachineDeployment_To_v1beta1_MachineDeployment
          S d).dst.Spec.ClusterName ∧
    (v1alpha2.MachineDeployment.ConvertTo K X S d).dst.Spec.Template.Spec.ClusterName =
      clusterNameRule (o.map fun R => R.Spec.Template.Spec.ClusterName)
        (GoMap.lookup S.ObjectMeta.Labels K.MachineClusterLabelName)
        (X.Convert_v1alpha2_MachineDeployment_To_v1beta1_MachineDeployment
          S d).dst.Spec.Template.Spec.ClusterName := by
  unfold v1alpha2.MachineDeployment.ConvertTo
  rw [Outcome.eq_of_err_none _ hc]
  simp only [hu]
  unfold clusterNameRule
  cases o with
  | none =>
    cases GoMap.lookup S.ObjectMeta.Labels K.MachineClusterLabelName <;> exact ⟨rfl, rfl, rfl⟩
  | some R =>
    refine ⟨?_, ?_, ?_⟩
    · trivial
    · by_cases hn : R.Spec.ClusterName = "" <;>
        cases hl : GoMap.lookup S.ObjectMeta.Labels K.MachineClusterLabelName <;>
        rcases hst : R.Spec.Strategy with _ | ⟨sty, _ | ru⟩ <;> simp [hn, hst, hl]
    · by_cases ht : R.Spec.Template.Spec.ClusterName = "" <;>
        by_cases hn : R.Spec.ClusterName = "" <;>
        cases hl : GoMap.lookup S.ObjectMeta.Labels K.MachineClusterLabelName <;>
        rcases hst : R.Spec.Strategy with _ | ⟨sty, _ | ru⟩ <;>
        simp [hn, ht, hst, hl, restoreMachineSpec]

/-- C26. In Machine.ConvertTo, MachineSet.ConvertTo and
MachineDeployment.ConvertTo, when the structural copier succeeds and
UnmarshalData returns without error, the call succeeds and the resulting
Spec.ClusterName is the stashed name if a stash is present and its name is
non-empty, otherwise the label value if the spoke carries the cluster-name
label, otherwise the structural copier's value; for MachineSet and
MachineDeployment the same rule gives Spec.Template.Spec.ClusterName from the
stashed template name. Machine.ConvertTo reads the stash from its source after
the annotation rename. -/
theorem ClusterName_restore_rule (K : Consts) (XM : MachineExt) (XS : MachineSetExt)
    (XD : MachineDeploymentExt) :
    (∀ S d o,
      (XM.Convert_v1alpha2_Machine_To_v1beta1_Machine S d).err = none →
      UnmarshalData K XM.Recall (v1alpha2.Machine.sourceAfterConvertTo K S).ObjectMeta
        = .ok o →
      (v1alpha2.Machine.ConvertTo K XM S d).err = none ∧
      (v1alpha2.Machine.ConvertTo K XM S d).dst.Spec.ClusterName =
        clusterNameRule (o.map fun R => R.Spec.ClusterName)
          (GoMap.lookup S.ObjectMeta.Labels K.MachineClusterLabelName)
          (XM.Convert_v1alpha2_Machine_To_v1beta1_Machine S d).dst.Spec.ClusterName) ∧
    (∀ S d o,
      (XS.Convert_v1alpha2_MachineSet_To_v1beta1_MachineSet S d).err = none →
      UnmarshalData K XS.Recall S.ObjectMeta = .ok o →
      (v1alpha2.MachineSet.ConvertTo K XS S d).err = none ∧
      (v1alpha2.MachineSet.ConvertTo K XS S d).dst.Spec.ClusterName =
        clusterNameRule (o.map fun R => R.Spec.ClusterName)
          (GoMap.lookup S.ObjectMeta.Labels K.MachineClusterLabelName)
          (XS.Convert_v1alpha2_MachineSet_To_v1beta1_MachineSet S d).dst.Spec.ClusterName ∧
      (v1alpha2.MachineSet.ConvertTo K XS S d).dst.Spec.Template.Spec.ClusterName =
        clusterNameRule (o.map fun R => R.Spec.Template.Spec.ClusterName)
          (GoMap.lookup S.ObjectMeta.Labels K.MachineClusterLabelName)
          (XS.Convert_v1alpha2_MachineSet_To_v1beta1_MachineSet
            S d).dst.Spec.Template.Spec.ClusterName) ∧
    (∀ S d o,
      (XD.Convert_v1alpha2_MachineDeployment_To_v1beta1_MachineDeployment S d).err = none →
      UnmarshalData K XD.Recall S.ObjectMeta = .ok o →
      (v1alpha2.MachineDeployment.ConvertTo K XD S d).err = none ∧
      (v1alpha2.MachineDeployment.ConvertTo K XD S d).dst.Spec.ClusterName =
        clusterNameRule (o.map fun R => R.Spec.ClusterName)
          (GoMap.lookup S.ObjectMeta.Labels K.MachineClusterLabelName)
          (XD.Convert_v1alpha2_MachineDeployment_To_v1beta1_MachineDeployment
            S d).dst.Spec.ClusterName ∧
      (v1alpha2.MachineDeployment.ConvertTo K XD S d).dst.Spec.Template.Spec.ClusterName =
        clusterNameRule (o.map fun R => R.Spec.Template.Spec.ClusterName)
          (GoMap.lookup S.ObjectMeta.Labels K.MachineClusterLabelName)
          (XD.Convert_v1alpha2_MachineDeployment_To_v1beta1_MachineDeployment
            S d).dst.Spec.Template.Spec.ClusterName) :=
  ⟨fun S d o hc hu => Machine_ConvertTo_ClusterName K XM S d o hc hu,
   fun S d o hc hu => MachineSet_ConvertTo_ClusterName K XS S d o hc hu,
   fun S d o hc hu => MachineDeployment_ConvertTo_ClusterName K XD S d o hc hu⟩

/-- A spoke Machine with the label value `label-cluster`: a stash with the name
`test-cluster` gives `test-cluster`, a stash with an empty name gives the label
value. -/
theorem ClusterName_restore_rule_witness :
    (v1alpha2.Machine.ConvertTo Sample.consts (Sample.machineExt Sample.hubMachine)
      Sample.labelledStashedMachine {}).dst.Spec.ClusterName = "test-cluster" ∧
    (v1alpha2.Machine.ConvertTo Sample.consts (Sample.machineExt {})
      Sample.labelledStashedMachine {}).dst.Spec.ClusterName = "label-cluster" :=
  ⟨((ClusterName_restore_rule Sample.consts (Sample.machineExt Sample.hubMachine)
      (Sample.machineSetExt {}) (Sample.machineDeploymentExt {})).1
      Sample.labelledStashedMachine {} (some { Sample.hubMachine with ObjectMeta := {} })
      rfl rfl).2.trans (by decide),
   ((ClusterName_restore_rule Sample.consts (Sample.machineExt {})
      (Sample.machineSetExt {}) (Sample.machineDeploymentExt {})).1
      Sample.labelledStashedMachine {} (some {}) rfl rfl).2.trans (by decide)⟩

/-! ## The files of a stashed KubeadmConfig -/

/-- C27. The code at the failing input: the stash parses to a hub KubeadmConfig
whose one file has empty Content and no ContentFrom, the structural copy
succeeds, and KubeadmConfig.ConvertTo ends in the nil dereference of
`*restoredFile.ContentFrom`. -/
theorem KubeadmConfig_ConvertTo_nil_ContentFrom :
    ((Sample.kubeadmConfigExt
        Sample.emptyFileKubeadmConfig).Convert_v1alpha2_KubeadmConfig_To_v1beta1_KubeadmConfig
      Sample.stashOnlyKubeadmConfig {}).err = none ∧
    (UnmarshalData Sample.consts (Sample.kubeadmConfigExt Sample.emptyFileKubeadmConfig).Recall
      Sample.stashOnlyKubeadmConfig.ObjectMeta).toOption.join.map (fun R => R.Spec.Files)
      = some [{ Path := "/etc/empty", Content := "", ContentFrom := none }] ∧
    v1alpha2.KubeadmConfig.ConvertTo Sample.consts
      (Sample.kubeadmConfigExt Sample.emptyFileKubeadmConfig) Sample.stashOnlyKubeadmConfig {}
      = none :=
  ⟨rfl, by decide, rfl⟩

/-! ## The conditions of a Cluster -/

/-- C28. In Cluster.ConvertTo, when the structural copier succeeds: with a
stash that parses, the call succeeds and the resulting Status.Conditions are
the stashed Status.Conditions, whatever the ControlPlaneInitialized flag of the
spoke is; without a stash and with the flag set, the call succeeds and the
resulting conditions are those of the structural copy with the
ControlPlaneInitialized condition marked true, so that `conditions.IsTrue`
holds of it whenever it holds after every `conditions.MarkTrue`. -/
theorem Cluster_conditions_from_stash (K : Consts) (X : ClusterExt) :
    (∀ S d R,
      (X.Convert_v1alpha2_Cluster_To_v1beta1_Cluster S d).err = none →
      UnmarshalData K X.Recall S.ObjectMeta = .ok (some R) →
      (v1alpha2.Cluster.ConvertTo K X S d).err = none ∧
      (v1alpha2.Cluster.ConvertTo K X S d).dst.Status.Conditions = R.Status.Conditions) ∧
    (∀ S d,
      (X.Convert_v1alpha2_Cluster_To_v1beta1_Cluster S d).err = none →
      UnmarshalData K X.Recall S.ObjectMeta = .ok none →
      S.Status.ControlPlaneInitialized = true →
      (v1alpha2.Cluster.ConvertTo K X S d).err = none ∧
      (v1alpha2.Cluster.ConvertTo K X S d).dst.Status.Conditions =
        X.MarkTrue (X.Convert_v1alpha2_Cluster_To_v1beta1_Cluster S d).dst.Status.Conditions
          K.ControlPlaneInitializedCondition ∧
      ((∀ cs t, X.IsTrue (X.MarkTrue cs t) t = true) →
        X.IsTrue (v1alpha2.Cluster.ConvertTo K X S d).dst.Status.Conditions
          K.ControlPlaneInitializedCondition = true)) := by
  refine ⟨fun S d R hc hu => ?_, fun S d hc hu hf => ?_⟩
  · exact ⟨Cluster_ConvertTo_of_found K X S d R hc hu,
      Cluster_ConvertTo_conditions_of_found K X S d R hc hu⟩
  · have hcond : (v1alpha2.Cluster.ConvertTo K X S d).dst.Status.Conditions =
        X.MarkTrue (X.Convert_v1alpha2_Cluster_To_v1beta1_Cluster S d).dst.Status.Conditions
          K.ControlPlaneInitializedCondition := by
      rw [Cluster_ConvertTo_of_not_found K X S d hc hu]
      unfold v1alpha2.Cluster.relocated
      simp only [hf]
      cases S.Status.APIEndpoints <;> rfl
    refine ⟨?_, hcond, fun hm => ?_⟩
    · rw [Cluster_ConvertTo_of_not_found K X S d hc hu]
    · rw [hcond]
      exact hm _ _

/-- A spoke Cluster with the flag set: with a stash holding one `Ready`
condition the hub object has exactly that condition; without a stash it has the
ControlPlaneInitialized condition marked true. -/
theorem Cluster_conditions_from_stash_witness :
    (v1alpha2.Cluster.ConvertTo Sample.consts (Sample.clusterExt Sample.readyCluster)
      Sample.initializedStashedCluster {}).dst.Status.Conditions =
        [{ CondType := "Ready", Status := "True" }] ∧
    (v1alpha2.Cluster.ConvertTo Sample.consts (Sample.clusterExt Sample.readyCluster)
      Sample.initializedCluster {}).dst.Status.Conditions =
        [{ CondType := "ControlPlaneInitialized", Status := "True" }] :=
  ⟨((Cluster_conditions_from_stash Sample.consts (Sample.clusterExt Sample.readyCluster)).1
      Sample.initializedStashedCluster {} { Sample.readyCluster with ObjectMeta := {} }
      rfl rfl).2,
   ((Cluster_conditions_from_stash Sample.consts (Sample.clusterExt Sample.readyCluster)).2
      Sample.initializedCluster {} rfl rfl rfl).2.1⟩

end CAPI
